import Mathlib

/-!
# Simple MIDI Player: teardown, device selection and port construction

A shallow embedding of `midi.cpp`.  The program talks to the Windows COM music and
sound stack.  That stack is the environment: it is represented by a record `Provider`
holding the answer of every call the program can issue.  Each function of the program
becomes a function from the global variables (`Globals`) to a result `Res`, which holds
the returned value (or the fault the function runs into), the globals afterwards and the
list of provider calls issued, in order (`Event`).

Conventions.
* `HRESULT` is a signed 32-bit value, `FAILED hr` is `hr < 0`.
* An interface pointer is a `Bool`: `true` for a live pointer, `false` for `NULL`.  An
  output pointer written by a provider call is live exactly when the call succeeds.
* The answers of the provider depend on the arguments of the call only.
* Text written to the standard output is not part of the model; text written to the
  standard error stream is recorded as an `Event.stderr`.
* Wide and narrow strings are both `String`; the conversions between them are the identity
  and do not fail.
* A `while (true)` loop takes a fuel argument and yields `Outcome.outOfFuel` when it is used up.
* Calling a method through a `NULL` pointer is `Outcome.nullDeref`; indexing a vector past
  its end is `Outcome.outOfRange`.  Both are undefined behaviour of the program and end the
  run in the model.

Contents: the values of the SDK the program uses; the globals; the provider and its calls;
the functions of the program, in the order of the source; then the properties: the order
of the teardown, a second teardown, the resolution of a port by its ordinal, the
parameters of the port, the audio index, the default audio path, the resources of a
session, a port index past the end of the enumeration, the refusal of an external
synthesizer and the explicit-port path.
-/

namespace MidiPlayer

/-! ## Values of the Windows SDK -/

abbrev HRESULT := Int
abbrev GUID := Nat
abbrev HWND := Nat

def S_OK : HRESULT := 0
def S_FALSE : HRESULT := 1
def E_FAIL : HRESULT := -2147467259

/-- The SDK test `FAILED(hr)`: the sign bit of the result code is set. -/
def FAILED (hr : HRESULT) : Bool := decide (hr < 0)

def DMUS_PORTPARAMS_VOICES : Nat := 0x01
def DMUS_PORTPARAMS_CHANNELGROUPS : Nat := 0x02
def DMUS_PORTPARAMS_AUDIOCHANNELS : Nat := 0x04
def DMUS_PORTPARAMS_SAMPLERATE : Nat := 0x08
def DMUS_PORTPARAMS_EFFECTS : Nat := 0x20
def DMUS_PORTPARAMS_SHARE : Nat := 0x40
def DMUS_PORTPARAMS_FEATURES : Nat := 0x80
def DMUS_PORT_FEATURE_AUDIOPATH : Nat := 0x01
def DMUS_PC_DLS : Nat := 0x001
def DMUS_PC_EXTERNAL : Nat := 0x002
def DMUS_PC_SOFTWARESYNTH : Nat := 0x004
def DMUS_PC_AUDIOPATH : Nat := 0x400
def DMUS_APATH_SHARED_STEREOPLUSREVERB : Nat := 1
def DMUS_SEGF_AFTERPREPARETIME : Nat := 0x400
def DSSCL_PRIORITY : Nat := 2
def DSBCAPS_PRIMARYBUFFER : Nat := 0x01
def DSBCAPS_CTRLPAN : Nat := 0x40
def DSBCAPS_CTRLVOLUME : Nat := 0x80
def WAVE_FORMAT_PCM : Nat := 1
/-- The size in bytes of `DMUS_PORTPARAMS8`: nine 32-bit fields. -/
def sizeof_DMUS_PORTPARAMS8 : Nat := 36
/-- The constant `DLS_FILE_NONE` of the program. -/
def DLS_FILE_NONE : String := "-"

structure DMUS_PORTCAPS where
  dwSize : Nat
  dwFlags : Nat
  guidPort : GUID
  dwClass : Nat
  dwType : Nat
  dwMemorySize : Nat
  dwMaxChannelGroups : Nat
  dwMaxVoices : Nat
  dwMaxAudioChannels : Nat
  dwEffectFlags : Nat
  wszDescription : String
  deriving DecidableEq, Repr

structure DMUS_PORTPARAMS8 where
  dwSize : Nat
  dwValidParams : Nat
  dwVoices : Nat
  dwChannelGroups : Nat
  dwAudioChannels : Nat
  dwSampleRate : Nat
  dwEffectFlags : Nat
  fShare : Bool
  dwFeatures : Nat
  deriving DecidableEq, Repr

structure WAVEFORMATEX where
  wFormatTag : Nat
  nChannels : Nat
  nSamplesPerSec : Nat
  nAvgBytesPerSec : Nat
  nBlockAlign : Nat
  wBitsPerSample : Nat
  cbSize : Nat
  deriving DecidableEq, Repr

structure MIDIOUTCAPSA where
  szPname : String
  deriving DecidableEq, Repr

/-! ## Global variables of the program -/

structure DSDeviceData where
  guid : Option GUID
  name : String
  deriving DecidableEq, Repr

structure MidiDeviceData where
  name : String
  deriving DecidableEq, Repr

structure Globals where
  pPerformance : Bool
  pDirectMusic : Bool
  pDirectMusicG : Bool
  pDirectSound : Bool
  pDirectSoundG : Bool
  pLoader : Bool
  pDLSCollection : Bool
  pSegment : Bool
  pPort : Bool
  pDSBuffer : Bool
  isExternalSynth : Bool
  midiOutDevices : List MIDIOUTCAPSA
  dsDeviceData : List DSDeviceData
  midiDeviceData : List MidiDeviceData
  deriving DecidableEq, Repr

/-- The globals at program start: every pointer `NULL`, every vector empty. -/
def Globals.initial : Globals :=
  { pPerformance := false, pDirectMusic := false, pDirectMusicG := false,
    pDirectSound := false, pDirectSoundG := false, pLoader := false,
    pDLSCollection := false, pSegment := false, pPort := false, pDSBuffer := false,
    isExternalSynth := false, midiOutDevices := [], dsDeviceData := [],
    midiDeviceData := [] }

/-! ## Provider calls -/

/-- The interface pointers held in global variables. -/
inductive Handle
  | pPerformance | pDirectMusic | pDirectMusicG | pDirectSound | pDirectSoundG
  | pLoader | pDLSCollection | pSegment | pPort | pDSBuffer
  deriving DecidableEq, Repr

/-- The classes instantiated with `CoCreateInstance`. -/
inductive ComClass
  | DirectMusicLoader | DirectMusicPerformance | DirectMusic
  deriving DecidableEq, Repr

/-- The classes loaded with `LoadObjectFromFile`. -/
inductive LoadClass
  | DirectMusicCollection | DirectMusicSegment
  deriving DecidableEq, Repr

/-- The interfaces asked for with `QueryInterface`. -/
inductive Iid
  | IDirectMusic | IDirectSound
  deriving DecidableEq, Repr

/-- The messages written to the standard error stream. -/
inductive Msg
  | noConsoleWindow
  | deviceNotFound (idx : Int)
  | portEnumError (hr : HRESULT)
  | listDevicesFailed (hr : HRESULT)
  | initialiseFailed (hr : HRESULT)
  | playFailed (hr : HRESULT)
  | argumentsNotSet
  | unknownWorkMode (mode : String)
  | mciError
  deriving DecidableEq, Repr

/-- One call to the provider (or one message on the error stream), with its arguments
and the result code it returned. -/
inductive Event
  | stderr (m : Msg)
  | CoInitializeEx (hr : HRESULT)
  | CoCreateInstance (cls : ComClass) (hr : HRESULT)
  | DirectSoundEnumerate (hr : HRESULT)
  | EnumPort (dwIndex : Nat) (hr : HRESULT)
  | DirectSoundCreate8 (pcGuidDevice : Option GUID) (hr : HRESULT)
  | SetCooperativeLevel (hWnd : HWND) (dwLevel : Nat) (hr : HRESULT)
  | CreateSoundBuffer (dwFlags : Nat) (hr : HRESULT)
  | SetFormat (fmt : WAVEFORMATEX) (hr : HRESULT)
  | SetDirectSound (hWnd : HWND) (hr : HRESULT)
  | LoadObjectFromFile (cls : LoadClass) (path : String) (hr : HRESULT)
  | QueryInterface (iid : Iid) (hr : HRESULT)
  | InitAudio (hWnd : HWND) (dwDefaultPathType dwPChannelCount dwFlags : Nat) (hr : HRESULT)
  | CreatePort (guidPort : GUID) (portParams : DMUS_PORTPARAMS8) (hr : HRESULT)
  | GetCaps (hr : HRESULT)
  | Init (hWnd : HWND) (hr : HRESULT)
  | AddPort (hr : HRESULT)
  | Activate (fActive : Bool) (hr : HRESULT)
  | Download (hr : HRESULT)
  | PlaySegment (dwFlags : Nat) (hr : HRESULT)
  | Unload (pPerformance : Bool)
  | Release (h : Handle)
  | CloseDown
  | CoUninitialize
  | midiOutGetNumDevs
  | midiOutGetDevCapsA (uDeviceID : Nat)
  | mciSendString (cmd : String) (hwndCallback : Option HWND) (err : Int)
  | cin_get
  deriving DecidableEq, Repr

/-- One invocation of the `DirectSoundEnumerate` callback: its arguments, and whether the
`malloc` made inside the callback succeeds. -/
structure DSEnumItem where
  lpGUID : Option GUID
  lpszDesc : String
  lpszDrvName : String
  mallocOk : Bool
  deriving DecidableEq, Repr

/-- The environment: the answer of every call the program can issue.  `emptyPortCaps` is
the content of the local variable of that name in `GetPortCapsByIndex`, which is never
written; `fallOffValue` is what `playMidiWithWinmm` yields when control reaches its end
without a `return`. -/
structure Provider where
  GetConsoleWindow : Option HWND
  CoInitializeEx : HRESULT
  CoCreateInstance : ComClass → HRESULT
  DirectSoundEnumerate : List DSEnumItem × HRESULT
  EnumPort : Nat → HRESULT × DMUS_PORTCAPS
  DirectSoundCreate8 : Option GUID → HRESULT
  SetCooperativeLevel : HRESULT
  CreateSoundBuffer : HRESULT
  SetFormat : HRESULT
  SetDirectSound : HRESULT
  LoadObjectFromFile : LoadClass → String → HRESULT
  QueryInterface : Iid → HRESULT
  InitAudio : HRESULT
  CreatePort : GUID → DMUS_PORTPARAMS8 → HRESULT
  GetCaps : HRESULT × DMUS_PORTCAPS
  Init : HRESULT
  AddPort : HRESULT
  Activate : HRESULT
  Download : HRESULT
  PlaySegment : HRESULT
  midiOutGetNumDevs : Nat
  midiOutGetDevCapsA : Nat → MIDIOUTCAPSA
  mciSendString : String → Int
  emptyPortCaps : DMUS_PORTCAPS
  fallOffValue : Int

/-! ## Results -/

/-- How a function ends: it returns a value, or the run ends in a fault. -/
inductive Outcome (α : Type)
  | ret (a : α)
  | nullDeref
  | outOfRange
  | outOfFuel
  deriving DecidableEq, Repr

structure Res (α : Type) where
  val : Outcome α
  g : Globals
  tr : List Event

/-- Apply `f` to the value returned, keep a fault. -/
def Outcome.map {α β : Type} (f : α → β) : Outcome α → Outcome β
  | .ret a => .ret (f a)
  | .nullDeref => .nullDeref
  | .outOfRange => .outOfRange
  | .outOfFuel => .outOfFuel

/-- A step that issues no provider call and leaves the globals as they are. -/
def Res.ofOutcome {α : Type} (o : Outcome α) (g : Globals) : Res α := ⟨o, g, []⟩

/-- The result `r`, with the events `es` issued before it. -/
def Res.after {α : Type} (es : List Event) (r : Res α) : Res α :=
  { r with tr := es ++ r.tr }

/-- Run `r`, then continue with `k` on the value returned; a fault ends the run. -/
def Res.andThen {α β : Type} (r : Res α) (k : α → Globals → Res β) : Res β :=
  match r.val with
  | .ret a => Res.after r.tr (k a r.g)
  | .nullDeref => ⟨.nullDeref, r.g, r.tr⟩
  | .outOfRange => ⟨.outOfRange, r.g, r.tr⟩
  | .outOfFuel => ⟨.outOfFuel, r.g, r.tr⟩

/-! ## The program -/

/-- The function `ShutdownDirectMusic` (lines 66-107). -/
def ShutdownDirectMusic (g : Globals) : Res Unit :=
  let t1 := if g.pSegment then [Event.Unload g.pPerformance, Event.Release .pSegment] else []
  let g := if g.pSegment then { g with pSegment := false } else g
  let t2 := if g.pDSBuffer then [Event.Release .pDSBuffer] else []
  let g := if g.pDSBuffer then { g with pDSBuffer := false } else g
  let t3 := if g.pPort then [Event.Release .pPort] else []
  let g := if g.pPort then { g with pPort := false } else g
  let t4 := if g.pDLSCollection then [Event.Release .pDLSCollection] else []
  let g := if g.pDLSCollection then { g with pDLSCollection := false } else g
  let t5 := if g.pLoader then [Event.Release .pLoader] else []
  let g := if g.pLoader then { g with pLoader := false } else g
  let t6 := if g.pDirectSound then [Event.Release .pDirectSound] else []
  let g := if g.pDirectSound then { g with pDirectSound := false } else g
  let t7 := if g.pDirectMusic then [Event.Release .pDirectMusic] else []
  let g := if g.pDirectMusic then { g with pDirectMusic := false } else g
  let t8 := if g.pPerformance then [Event.CloseDown, Event.Release .pPerformance] else []
  let g := if g.pPerformance then { g with pPerformance := false } else g
  ⟨.ret (), g, t1 ++ t2 ++ t3 ++ t4 ++ t5 ++ t6 ++ t7 ++ t8 ++ [Event.CoUninitialize]⟩

/-- The library function `std::vector::operator[]`, called with an `int` index: defined
only below the size of the vector. -/
def vectorAt {α : Type} (v : List α) (i : Int) : Outcome α :=
  if 0 ≤ i then
    match v.get? i.toNat with
    | some a => .ret a
    | none => .outOfRange
  else .outOfRange

/-- The loop of `EnumeratePorts` (lines 117-141), entered with the counter `dwIndex`. -/
def EnumeratePorts.loop (P : Provider) : Nat → Nat → Globals → Res Unit
  | 0, _, g => ⟨.outOfFuel, g, []⟩
  | fuel + 1, dwIndex, g =>
    if g.pDirectMusic then
      let hr := (P.EnumPort dwIndex).1
      let portCaps := (P.EnumPort dwIndex).2
      Res.after [Event.EnumPort dwIndex hr] <|
        if hr = S_OK then
          let dd : MidiDeviceData := { name := portCaps.wszDescription }
          let g := { g with midiDeviceData := g.midiDeviceData ++ [dd] }
          EnumeratePorts.loop P fuel ((dwIndex + 1) % 4294967296) g
        else if hr = S_FALSE then
          ⟨.ret (), g, []⟩
        else
          ⟨.ret (), g, [Event.stderr (.portEnumError hr)]⟩
    else ⟨.nullDeref, g, []⟩

/-- The function `EnumeratePorts` (lines 109-142). -/
def EnumeratePorts (P : Provider) (fuel : Nat) (g : Globals) : Res Unit :=
  EnumeratePorts.loop P fuel 0 g

/-- The callback `DSEnumProc` (lines 144-165): the value it returns and the globals
afterwards. -/
def DSEnumProc (item : DSEnumItem) (g : Globals) : Bool × Globals :=
  if item.lpGUID ≠ none ∧ item.mallocOk = false then
    (true, g)
  else
    let dd : DSDeviceData := { guid := item.lpGUID, name := item.lpszDesc }
    (true, { g with dsDeviceData := g.dsDeviceData ++ [dd] })

/-- The SDK function `DirectSoundEnumerate`: it calls the callback once per device, in
order, for as long as the callback returns `TRUE`. -/
def DirectSoundEnumerate.calls (cb : DSEnumItem → Globals → Bool × Globals) :
    List DSEnumItem → Globals → Globals
  | [], g => g
  | item :: rest, g =>
    if (cb item g).1 then DirectSoundEnumerate.calls cb rest (cb item g).2
    else (cb item g).2

/-- The function `EnumerateDirectSoundDevices` (lines 167-178). -/
def EnumerateDirectSoundDevices (P : Provider) (g : Globals) : Res HRESULT :=
  let hr := P.DirectSoundEnumerate.2
  let g := DirectSoundEnumerate.calls DSEnumProc P.DirectSoundEnumerate.1 g
  Res.after [Event.DirectSoundEnumerate hr] <|
    if FAILED hr then ⟨.ret hr, g, []⟩
    else ⟨.ret S_OK, g, []⟩

/-- The function `CreateMusicPort` (lines 180-275). -/
def CreateMusicPort (P : Provider) (portCaps : DMUS_PORTCAPS) (g : Globals) : Res HRESULT :=
  let portParams : DMUS_PORTPARAMS8 :=
    { dwSize := 0, dwValidParams := 0, dwVoices := 0, dwChannelGroups := 0,
      dwAudioChannels := 0, dwSampleRate := 0, dwEffectFlags := 0, fShare := false,
      dwFeatures := 0 }
  let portParams := { portParams with dwSize := sizeof_DMUS_PORTPARAMS8 }
  let portParams := { portParams with dwValidParams := 0 }
  let portParams :=
    { portParams with dwValidParams := portParams.dwValidParams ||| DMUS_PORTPARAMS_VOICES }
  let portParams := { portParams with dwVoices := portCaps.dwMaxVoices }
  let portParams :=
    { portParams with
      dwValidParams := portParams.dwValidParams ||| DMUS_PORTPARAMS_CHANNELGROUPS }
  let portParams := { portParams with dwChannelGroups := portCaps.dwMaxChannelGroups }
  let portParams :=
    { portParams with
      dwValidParams := portParams.dwValidParams ||| DMUS_PORTPARAMS_AUDIOCHANNELS }
  let portParams := { portParams with dwAudioChannels := portCaps.dwMaxAudioChannels }
  let portParams :=
    { portParams with dwValidParams := portParams.dwValidParams ||| DMUS_PORTPARAMS_SAMPLERATE }
  let portParams := { portParams with dwSampleRate := 44100 }
  let portParams :=
    { portParams with dwValidParams := portParams.dwValidParams ||| DMUS_PORTPARAMS_EFFECTS }
  let portParams := { portParams with dwEffectFlags := portCaps.dwEffectFlags }
  let portParams :=
    { portParams with dwValidParams := portParams.dwValidParams ||| DMUS_PORTPARAMS_SHARE }
  let portParams := { portParams with fShare := true }
  let portParams :=
    { portParams with dwValidParams := portParams.dwValidParams ||| DMUS_PORTPARAMS_FEATURES }
  let portParams := { portParams with dwFeatures := DMUS_PORT_FEATURE_AUDIOPATH }
  if g.pDirectMusic then
    let hr := P.CreatePort portCaps.guidPort portParams
    let g := { g with pPort := !FAILED hr }
    Res.after [Event.CreatePort portCaps.guidPort portParams hr] <|
      if FAILED hr then ⟨.ret hr, g, []⟩
      else
        let hr := P.GetCaps.1
        let curPortCaps := P.GetCaps.2
        Res.after [Event.GetCaps hr] <|
          if FAILED hr then ⟨.ret hr, g, []⟩
          else
            let g :=
              if curPortCaps.dwFlags &&& DMUS_PC_EXTERNAL ≠ 0 then
                { g with isExternalSynth := true }
              else g
            ⟨.ret S_OK, g, []⟩
  else ⟨.nullDeref, g, []⟩

/-- The function `GetDeviceGuidByIndex` (lines 277-287). -/
def GetDeviceGuidByIndex (index : Int) (g : Globals) : Outcome (Option GUID) :=
  if index < 0 then .ret none
  else if index < (g.dsDeviceData.length : Int) then
    (vectorAt g.dsDeviceData index).map fun dd => dd.guid
  else .ret none

/-- The loop of `GetPortCapsByIndex` (lines 295-318), entered with the counter `dwIndex`.
The comparison `dwIndex != idx` is made on unsigned 32-bit values. -/
def GetPortCapsByIndex.loop (P : Provider) (idx : Int) : Nat → Nat → Globals → Res DMUS_PORTCAPS
  | 0, _, g => ⟨.outOfFuel, g, []⟩
  | fuel + 1, dwIndex, g =>
    if g.pDirectMusic then
      let hr := (P.EnumPort dwIndex).1
      let portCaps := (P.EnumPort dwIndex).2
      Res.after [Event.EnumPort dwIndex hr] <|
        if hr = S_FALSE then
          ⟨.ret P.emptyPortCaps, g, [Event.stderr (.deviceNotFound idx)]⟩
        else if hr ≠ S_OK then
          ⟨.ret P.emptyPortCaps, g, [Event.stderr (.portEnumError hr)]⟩
        else if (dwIndex : Int) ≠ idx % 4294967296 then
          GetPortCapsByIndex.loop P idx fuel ((dwIndex + 1) % 4294967296) g
        else
          ⟨.ret portCaps, g, []⟩
    else ⟨.nullDeref, g, []⟩

/-- The function `GetPortCapsByIndex` (lines 289-321). -/
def GetPortCapsByIndex (P : Provider) (fuel : Nat) (idx : Int) (g : Globals) :
    Res DMUS_PORTCAPS :=
  GetPortCapsByIndex.loop P idx fuel 0 g

/-- The last part of `Initialise` (lines 397-446): the two `QueryInterface` calls and the
initialisation of the performance, in one of its two modes. -/
def Initialise.performance (P : Provider) (fuel : Nat) (hWnd : HWND)
    (midi_output_device_idx : Int) (g : Globals) : Res HRESULT :=
  let hr := P.QueryInterface .IDirectMusic
  let g := { g with pDirectMusicG := !FAILED hr }
  Res.after [Event.QueryInterface .IDirectMusic hr] <|
    if FAILED hr then ⟨.ret hr, g, []⟩
    else
      let hr := P.QueryInterface .IDirectSound
      let g := { g with pDirectSoundG := !FAILED hr }
      Res.after [Event.QueryInterface .IDirectSound hr] <|
        if FAILED hr then ⟨.ret hr, g, []⟩
        else if midi_output_device_idx < 0 then
          let dwDefaultPathType := DMUS_APATH_SHARED_STEREOPLUSREVERB
          let dwPChannelCount := 16
          let dwFlags := 0
          let hr := P.InitAudio
          Res.after [Event.InitAudio hWnd dwDefaultPathType dwPChannelCount dwFlags hr] <|
            if FAILED hr then ⟨.ret hr, g, []⟩
            else ⟨.ret S_OK, g, []⟩
        else
          (GetPortCapsByIndex P fuel midi_output_device_idx g).andThen fun portCaps g =>
            (Res.ofOutcome (vectorAt g.midiDeviceData midi_output_device_idx) g).andThen
              fun _ g =>
                (CreateMusicPort P portCaps g).andThen fun hr g =>
                  if FAILED hr then ⟨.ret hr, g, []⟩
                  else
                    let hr := P.Init
                    Res.after [Event.Init hWnd hr] <|
                      if FAILED hr then ⟨.ret hr, g, []⟩
                      else
                        let hr := P.AddPort
                        Res.after [Event.AddPort hr] <|
                          if FAILED hr then ⟨.ret hr, g, []⟩
                          else
                            let hr := P.Activate
                            Res.after [Event.Activate true hr] <|
                              if FAILED hr then ⟨.ret hr, g, []⟩
                              else ⟨.ret S_OK, g, []⟩

/-- The part of `Initialise` between the two device enumerations and the loading of the
DLS file (lines 357-395), followed by `Initialise.performance`. -/
def Initialise.sound (P : Provider) (fuel : Nat) (hWnd : HWND)
    (ds_device_idx midi_output_device_idx : Int) (dls_file_w : String) (g : Globals) :
    Res HRESULT :=
  (Res.ofOutcome (GetDeviceGuidByIndex ds_device_idx g) g).andThen fun pcGuidDevice g =>
    let hr := P.DirectSoundCreate8 pcGuidDevice
    let g := { g with pDirectSound := !FAILED hr }
    Res.after [Event.DirectSoundCreate8 pcGuidDevice hr] <|
      if FAILED hr then ⟨.ret hr, g, []⟩
      else
        (if ds_device_idx ≥ 0 then
            Res.ofOutcome ((vectorAt g.dsDeviceData ds_device_idx).map fun _ => ()) g
          else ⟨.ret (), g, []⟩).andThen fun _ g =>
          let hr := P.SetCooperativeLevel
          Res.after [Event.SetCooperativeLevel hWnd DSSCL_PRIORITY hr] <|
            if FAILED hr then ⟨.ret hr, g, []⟩
            else
              let bufferDesc_dwFlags :=
                DSBCAPS_PRIMARYBUFFER ||| DSBCAPS_CTRLVOLUME ||| DSBCAPS_CTRLPAN
              let hr := P.CreateSoundBuffer
              let g := { g with pDSBuffer := !FAILED hr }
              Res.after [Event.CreateSoundBuffer bufferDesc_dwFlags hr] <|
                if FAILED hr then ⟨.ret hr, g, []⟩
                else
                  let nChannels := 2
                  let nSamplesPerSec := 44100
                  let wBitsPerSample := 16
                  let nBlockAlign := nChannels * wBitsPerSample / 8
                  let waveFormat : WAVEFORMATEX :=
                    { wFormatTag := WAVE_FORMAT_PCM, nChannels := nChannels,
                      nSamplesPerSec := nSamplesPerSec, wBitsPerSample := wBitsPerSample,
                      nBlockAlign := nBlockAlign,
                      nAvgBytesPerSec := nSamplesPerSec * nBlockAlign, cbSize := 0 }
                  let hr := P.SetFormat
                  Res.after [Event.SetFormat waveFormat hr] <|
                    if FAILED hr then ⟨.ret hr, g, []⟩
                    else
                      let hr := P.SetDirectSound
                      Res.after [Event.SetDirectSound hWnd hr] <|
                        if FAILED hr then ⟨.ret hr, g, []⟩
                        else if dls_file_w ≠ DLS_FILE_NONE then
                          let hr := P.LoadObjectFromFile .DirectMusicCollection dls_file_w
                          let g := { g with pDLSCollection := !FAILED hr }
                          Res.after
                              [Event.LoadObjectFromFile .DirectMusicCollection dls_file_w hr] <|
                            if FAILED hr then ⟨.ret hr, g, []⟩
                            else Initialise.performance P fuel hWnd midi_output_device_idx g
                        else Initialise.performance P fuel hWnd midi_output_device_idx g

/-- The function `Initialise` (lines 323-447). -/
def Initialise (P : Provider) (fuel : Nat) (ds_device_idx midi_output_device_idx : Int)
    (dls_file_w : String) (g : Globals) : Res HRESULT :=
  match P.GetConsoleWindow with
  | none => ⟨.ret E_FAIL, g, [Event.stderr .noConsoleWindow]⟩
  | some hWnd =>
    let hr := P.CoInitializeEx
    Res.after [Event.CoInitializeEx hr] <|
      if FAILED hr then ⟨.ret hr, g, []⟩
      else
        let hr := P.CoCreateInstance .DirectMusicLoader
        let g := { g with pLoader := !FAILED hr }
        Res.after [Event.CoCreateInstance .DirectMusicLoader hr] <|
          if FAILED hr then ⟨.ret hr, g, []⟩
          else
            let hr := P.CoCreateInstance .DirectMusicPerformance
            let g := { g with pPerformance := !FAILED hr }
            Res.after [Event.CoCreateInstance .DirectMusicPerformance hr] <|
              if FAILED hr then ⟨.ret hr, g, []⟩
              else
                let hr := P.CoCreateInstance .DirectMusic
                let g := { g with pDirectMusic := !FAILED hr }
                Res.after [Event.CoCreateInstance .DirectMusic hr] <|
                  if FAILED hr then ⟨.ret hr, g, []⟩
                  else
                    (EnumerateDirectSoundDevices P g).andThen fun _ g =>
                      (EnumeratePorts P fuel g).andThen fun _ g =>
                        Initialise.sound P fuel hWnd ds_device_idx midi_output_device_idx
                          dls_file_w g

/-- The function `ListDevices` (lines 449-474). -/
def ListDevices (P : Provider) (fuel : Nat) (g : Globals) : Res HRESULT :=
  let hr := P.CoInitializeEx
  Res.after [Event.CoInitializeEx hr] <|
    if FAILED hr then ⟨.ret hr, g, []⟩
    else
      let hr := P.CoCreateInstance .DirectMusicPerformance
      let g := { g with pPerformance := !FAILED hr }
      Res.after [Event.CoCreateInstance .DirectMusicPerformance hr] <|
        if FAILED hr then ⟨.ret hr, g, []⟩
        else
          let hr := P.CoCreateInstance .DirectMusic
          let g := { g with pDirectMusic := !FAILED hr }
          Res.after [Event.CoCreateInstance .DirectMusic hr] <|
            if FAILED hr then ⟨.ret hr, g, []⟩
            else
              (EnumerateDirectSoundDevices P g).andThen fun _ g =>
                (EnumeratePorts P fuel g).andThen fun _ g =>
                  ⟨.ret S_OK, g, []⟩

/-- The function `PlayMidi` (lines 476-518).  Its second parameter hides the global
variable of the same name. -/
def PlayMidi (P : Provider) (midi_file_w : String) (isExternalSynth : Bool) (g : Globals) :
    Res HRESULT :=
  if isExternalSynth then ⟨.ret E_FAIL, g, []⟩
  else if g.pLoader then
    let hr := P.LoadObjectFromFile .DirectMusicSegment midi_file_w
    let g := { g with pSegment := !FAILED hr }
    Res.after [Event.LoadObjectFromFile .DirectMusicSegment midi_file_w hr] <|
      if FAILED hr then ⟨.ret hr, g, []⟩
      else
        let hr := P.Download
        Res.after [Event.Download hr] <|
          if FAILED hr then ⟨.ret hr, g, []⟩
          else if g.pPerformance ∧ g.pSegment then
            let hr := P.PlaySegment
            Res.after [Event.PlaySegment DMUS_SEGF_AFTERPREPARETIME hr] <|
              if FAILED hr then ⟨.ret hr, g, []⟩
              else ⟨.ret S_OK, g, []⟩
          else ⟨.ret S_OK, g, []⟩
  else ⟨.nullDeref, g, []⟩

/-- The function `ListMidiOutDevicesWithWinmm` (lines 606-630). -/
def ListMidiOutDevicesWithWinmm (P : Provider) (g : Globals) : Res Unit :=
  let midiOutDevCount := P.midiOutGetNumDevs
  let caps := (List.range midiOutDevCount).map P.midiOutGetDevCapsA
  ⟨.ret (), { g with midiOutDevices := g.midiOutDevices ++ caps },
    Event.midiOutGetNumDevs :: (List.range midiOutDevCount).map Event.midiOutGetDevCapsA⟩

/-- The function `playMidiWithWinmm` (lines 675-731).  Control reaches the end of the
function without a `return` when every command succeeds. -/
def playMidiWithWinmm (P : Provider) (midi_output_device_idx : Int) (midi_file : String)
    (g : Globals) : Res Int :=
  match P.GetConsoleWindow with
  | none => ⟨.ret 1, g, [Event.stderr .noConsoleWindow]⟩
  | some hWnd =>
    let midiFileName := midi_file
    let portNumber := midi_output_device_idx
    let cmd := "open \"" ++ midiFileName ++ "\" type sequencer alias music"
    let err := P.mciSendString cmd
    Res.after [Event.mciSendString cmd none err] <|
      if err ≠ 0 then ⟨.ret 1, g, [Event.stderr .mciError]⟩
      else
        let cmd := "set music port " ++ toString portNumber
        let err := P.mciSendString cmd
        Res.after [Event.mciSendString cmd none err] <|
          if err ≠ 0 then ⟨.ret 1, g, [Event.stderr .mciError]⟩
          else
            let cmd := "play music notify"
            let err := P.mciSendString cmd
            Res.after [Event.mciSendString cmd (some hWnd) err] <|
              if err ≠ 0 then ⟨.ret 1, g, [Event.stderr .mciError]⟩
              else
                let cmd := "close music"
                let err := P.mciSendString cmd
                Res.after [Event.cin_get, Event.mciSendString cmd none err] <|
                  if err ≠ 0 then ⟨.ret 1, g, [Event.stderr .mciError]⟩
                  else ⟨.ret P.fallOffValue, g, []⟩

/-- The digits read by `atoi`: the value of the longest run of decimal digits at the
head of the text, continuing from `acc`. -/
def atoi.digits : List Char → Int → Int
  | [], acc => acc
  | c :: cs, acc =>
    if c.isDigit then atoi.digits cs (acc * 10 + ((c.toNat - 48 : Nat) : Int)) else acc

/-- The library predicate `isspace` in the "C" locale: the space, and the five control
characters from the horizontal tab (9) to the carriage return (13), which include the
vertical tab and the form feed. -/
def isspace (c : Char) : Bool :=
  c.toNat == 32 || (9 ≤ c.toNat && c.toNat ≤ 13)

/-- The library function `atoi`: white space, an optional sign, decimal digits.  A value
outside the range of `int`, which the C standard leaves undefined, is the nearest bound of
that range (`INT_MAX` or `INT_MIN`), as the Microsoft runtime returns it. -/
def atoi (s : String) : Int :=
  let v : Int :=
    match s.toList.dropWhile isspace with
    | '-' :: cs => - atoi.digits cs 0
    | '+' :: cs => atoi.digits cs 0
    | cs => atoi.digits cs 0
  if v > 2147483647 then 2147483647
  else if v < -2147483648 then -2147483648
  else v

/-- The function `main` (lines 733-874), started on the command line `argv` with the
globals of program start. -/
def main (P : Provider) (fuel : Nat) (argv : List String) : Res Int :=
  let g := Globals.initial
  let argc := argv.length
  if argc ≤ 1 then
    (ListMidiOutDevicesWithWinmm P g).andThen fun _ g =>
      (ListDevices P fuel g).andThen fun hr g =>
        if FAILED hr then
          Res.after [Event.stderr (.listDevicesFailed hr)] <|
            (ShutdownDirectMusic g).andThen fun _ g => ⟨.ret 1, g, []⟩
        else
          (ShutdownDirectMusic g).andThen fun _ g => ⟨.ret 0, g, []⟩
  else
    let workModeStr := argv.getD 1 ""
    if workModeStr = "DS" then
      if argc ≤ 1 + 4 then ⟨.ret 1, g, [Event.stderr .argumentsNotSet]⟩
      else
        let ds_device_index_str := argv.getD (1 + 1) ""
        let midi_output_device_index_str := argv.getD (1 + 2) ""
        let dls_file := argv.getD (1 + 3) ""
        let midi_file := argv.getD (1 + 4) ""
        let ds_device_idx := atoi ds_device_index_str
        let midi_output_device_idx := atoi midi_output_device_index_str
        let dls_file_w := dls_file
        let midi_file_w := midi_file
        (Initialise P fuel ds_device_idx midi_output_device_idx dls_file_w g).andThen
          fun hr g =>
            if FAILED hr then
              Res.after [Event.stderr (.initialiseFailed hr)] <|
                (ShutdownDirectMusic g).andThen fun _ g => ⟨.ret 1, g, []⟩
            else
              (PlayMidi P midi_file_w g.isExternalSynth g).andThen fun hr g =>
                if FAILED hr then
                  Res.after [Event.stderr (.playFailed hr)] <|
                    (ShutdownDirectMusic g).andThen fun _ g => ⟨.ret 2, g, []⟩
                else
                  Res.after [Event.cin_get] <|
                    (ShutdownDirectMusic g).andThen fun _ g => ⟨.ret 0, g, []⟩
    else if workModeStr = "MM" then
      if argc ≤ 1 + 2 then ⟨.ret 1, g, [Event.stderr .argumentsNotSet]⟩
      else
        let midi_output_device_index_str := argv.getD (1 + 1) ""
        let midi_file := argv.getD (1 + 2) ""
        let midi_output_device_idx := atoi midi_output_device_index_str
        (ListMidiOutDevicesWithWinmm P g).andThen fun _ g =>
          (playMidiWithWinmm P midi_output_device_idx midi_file g).andThen fun err g =>
            if err ≠ 0 then ⟨.ret err, g, []⟩
            else ⟨.ret 0, g, []⟩
    else ⟨.ret 1, g, [Event.stderr (.unknownWorkMode workModeStr)]⟩

/-! ## A provider whose calls all succeed -/

def okCaps : DMUS_PORTCAPS :=
  { dwSize := 0, dwFlags := 0, guidPort := 7, dwClass := 0, dwType := 0, dwMemorySize := 0,
    dwMaxChannelGroups := 1, dwMaxVoices := 32, dwMaxAudioChannels := 2, dwEffectFlags := 0,
    wszDescription := "synth" }

/-- A provider with a console window, `nPorts` music ports, the audio devices `ds`, and
every call succeeding; the created port reports the capability flags `flags`. -/
def okProvider (nPorts : Nat) (ds : List DSEnumItem) (flags : Nat) : Provider :=
  { GetConsoleWindow := some 1, CoInitializeEx := S_OK, CoCreateInstance := fun _ => S_OK,
    DirectSoundEnumerate := (ds, S_OK),
    EnumPort := fun i => if i < nPorts then (S_OK, { okCaps with guidPort := 100 + i })
      else (S_FALSE, okCaps),
    DirectSoundCreate8 := fun _ => S_OK, SetCooperativeLevel := S_OK,
    CreateSoundBuffer := S_OK, SetFormat := S_OK, SetDirectSound := S_OK,
    LoadObjectFromFile := fun _ _ => S_OK, QueryInterface := fun _ => S_OK,
    InitAudio := S_OK, CreatePort := fun _ _ => S_OK,
    GetCaps := (S_OK, { okCaps with dwFlags := flags }),
    Init := S_OK, AddPort := S_OK, Activate := S_OK, Download := S_OK, PlaySegment := S_OK,
    midiOutGetNumDevs := 0, midiOutGetDevCapsA := fun _ => { szPname := "" },
    mciSendString := fun _ => 0, emptyPortCaps := { okCaps with guidPort := 0 },
    fallOffValue := 0 }

/-! ## Classification of events -/

/-- The events a port enumeration issues: `EnumPort` calls and error messages. -/
def Event.isEnum : Event → Bool
  | .EnumPort _ _ => true
  | .stderr _ => true
  | _ => false

/-- The value of the global pointer `h`. -/
def Globals.get (g : Globals) : Handle → Bool
  | .pPerformance => g.pPerformance
  | .pDirectMusic => g.pDirectMusic
  | .pDirectMusicG => g.pDirectMusicG
  | .pDirectSound => g.pDirectSound
  | .pDirectSoundG => g.pDirectSoundG
  | .pLoader => g.pLoader
  | .pDLSCollection => g.pDLSCollection
  | .pSegment => g.pSegment
  | .pPort => g.pPort
  | .pDSBuffer => g.pDSBuffer

/-- The calls that set up the performance and its port: `InitAudio` on the default path,
`CreatePort`, `GetCaps`, `Init`, `AddPort` and `Activate` on the explicit-port path. -/
def Event.isPerformanceCall : Event → Bool
  | .InitAudio _ _ _ _ _ => true
  | .CreatePort _ _ _ => true
  | .GetCaps _ => true
  | .Init _ _ => true
  | .AddPort _ => true
  | .Activate _ _ => true
  | _ => false

/-- The result code a provider call returned; `S_OK` for the calls and messages that
return none. -/
def Event.hr : Event → HRESULT
  | .CoInitializeEx hr => hr
  | .CoCreateInstance _ hr => hr
  | .DirectSoundEnumerate hr => hr
  | .EnumPort _ hr => hr
  | .DirectSoundCreate8 _ hr => hr
  | .SetCooperativeLevel _ _ hr => hr
  | .CreateSoundBuffer _ hr => hr
  | .SetFormat _ hr => hr
  | .SetDirectSound _ hr => hr
  | .LoadObjectFromFile _ _ hr => hr
  | .QueryInterface _ hr => hr
  | .InitAudio _ _ _ _ hr => hr
  | .CreatePort _ _ hr => hr
  | .GetCaps hr => hr
  | .Init _ hr => hr
  | .AddPort hr => hr
  | .Activate _ hr => hr
  | .Download hr => hr
  | .PlaySegment _ hr => hr
  | _ => S_OK

/-- What a session holds and must give back: the COM apartment of the thread, and one
reference per interface pointer. -/
inductive Resource
  | comApartment
  | interface (h : Handle)
  deriving DecidableEq, Repr

/-- The resource a provider call hands out: a call that succeeds and writes an interface
pointer hands out a reference to that interface; a `CoInitializeEx` that succeeds hands
out the COM apartment. -/
def Event.acquires : Event → Option Resource
  | .CoInitializeEx hr => if FAILED hr then none else some .comApartment
  | .CoCreateInstance .DirectMusicLoader hr =>
    if FAILED hr then none else some (.interface .pLoader)
  | .CoCreateInstance .DirectMusicPerformance hr =>
    if FAILED hr then none else some (.interface .pPerformance)
  | .CoCreateInstance .DirectMusic hr =>
    if FAILED hr then none else some (.interface .pDirectMusic)
  | .DirectSoundCreate8 _ hr => if FAILED hr then none else some (.interface .pDirectSound)
  | .CreateSoundBuffer _ hr => if FAILED hr then none else some (.interface .pDSBuffer)
  | .LoadObjectFromFile .DirectMusicCollection _ hr =>
    if FAILED hr then none else some (.interface .pDLSCollection)
  | .LoadObjectFromFile .DirectMusicSegment _ hr =>
    if FAILED hr then none else some (.interface .pSegment)
  | .QueryInterface .IDirectMusic hr =>
    if FAILED hr then none else some (.interface .pDirectMusicG)
  | .QueryInterface .IDirectSound hr =>
    if FAILED hr then none else some (.interface .pDirectSoundG)
  | .CreatePort _ _ hr => if FAILED hr then none else some (.interface .pPort)
  | _ => none

/-- The resource a provider call gives back. -/
def Event.releases : Event → Option Resource
  | .Release h => some (.interface h)
  | Event.CoUninitialize => some .comApartment
  | _ => none

/-- The resources handed out along a trace, in order. -/
def acquisitions (tr : List Event) : List Resource := tr.filterMap Event.acquires

/-- The resources given back along a trace, in order. -/
def releases (tr : List Event) : List Resource := tr.filterMap Event.releases

/-- A failing call of the performance set-up ends the run: it is the last event of the
trace and its code is the value returned. -/
def Res.abortsOnFailure (r : Res HRESULT) : Prop :=
  ∀ e ∈ r.tr, e.isPerformanceCall = true → FAILED e.hr = true →
    r.tr.getLast? = some e ∧ r.val = .ret e.hr

/-- A run that returns success has issued the whole sequence of the explicit-port path,
once and in order, and no other call of the performance set-up. -/
def Res.portSetupComplete (P : Provider) (hWnd : HWND) (r : Res HRESULT) : Prop :=
  ∀ hr, r.val = .ret hr → FAILED hr = false →
    ∃ guidPort portParams,
      r.tr.filter Event.isPerformanceCall =
        [Event.CreatePort guidPort portParams (P.CreatePort guidPort portParams),
         Event.GetCaps P.GetCaps.1, Event.Init hWnd P.Init, Event.AddPort P.AddPort,
         Event.Activate true P.Activate]

/-- The calls of the teardown: `Unload`, `Release`, `CloseDown` and `CoUninitialize`.
Only `ShutdownDirectMusic` issues them. -/
def Event.isTeardown : Event → Bool
  | .Unload _ => true
  | .Release _ => true
  | .CloseDown => true
  | Event.CoUninitialize => true
  | _ => false

/-- The calls of `LoadObjectFromFile` that load a DLS collection. -/
def Event.isCollectionLoad : Event → Bool
  | .LoadObjectFromFile .DirectMusicCollection _ _ => true
  | _ => false

/-- A run of `main` that returns an exit code returns 0, 1 or 2 and has executed
`ShutdownDirectMusic` once, as the last thing it did: its trace is a part without any
teardown call followed by the calls of `ShutdownDirectMusic`. -/
def Res.endsWithTeardown (r : Res Int) : Prop :=
  ∀ code, r.val = .ret code →
    (code = 0 ∨ code = 1 ∨ code = 2) ∧
    ∃ pre g, (∀ e ∈ pre, e.isTeardown = false) ∧
      r.tr = pre ++ (ShutdownDirectMusic g).tr ∧ r.g = (ShutdownDirectMusic g).g

/-- The calls and messages of the set-up of a session, by `Initialise` or `ListDevices`,
the loading of a file apart. -/
def Event.isSetup : Event → Bool
  | .stderr _ => true
  | Event.CoInitializeEx _ => true
  | .CoCreateInstance _ _ => true
  | .DirectSoundEnumerate _ => true
  | .EnumPort _ _ => true
  | .DirectSoundCreate8 _ _ => true
  | .SetCooperativeLevel _ _ _ => true
  | .CreateSoundBuffer _ _ => true
  | .SetFormat _ _ => true
  | .SetDirectSound _ _ => true
  | .QueryInterface _ _ => true
  | .InitAudio _ _ _ _ _ => true
  | .CreatePort _ _ _ => true
  | .GetCaps _ => true
  | .Init _ _ => true
  | .AddPort _ => true
  | .Activate _ _ => true
  | _ => false

/-- Every event of the trace of `r` satisfies `p`. -/
def Res.traceAll {α : Type} (p : Event → Prop) (r : Res α) : Prop :=
  ∀ e ∈ r.tr, p e

/-! ## Lemmas on results -/

@[simp] theorem Res.after_val {α : Type} (es : List Event) (r : Res α) :
    (Res.after es r).val = r.val := rfl

@[simp] theorem Res.after_g {α : Type} (es : List Event) (r : Res α) :
    (Res.after es r).g = r.g := rfl

@[simp] theorem Res.after_tr {α : Type} (es : List Event) (r : Res α) :
    (Res.after es r).tr = es ++ r.tr := rfl

theorem Res.after_mk {α : Type} (es : List Event) (v : Outcome α) (g : Globals)
    (tr : List Event) : Res.after es ⟨v, g, tr⟩ = ⟨v, g, es ++ tr⟩ := rfl

theorem Res.andThen_ret {α β : Type} {r : Res α} {a : α} (k : α → Globals → Res β)
    (h : r.val = .ret a) : r.andThen k = Res.after r.tr (k a r.g) := by
  simp only [Res.andThen, h]

theorem not_sublist_pair_append {α : Type} {x y : α} {A B : List α} (hx : x ∉ A)
    (hy : y ∉ B) : ¬ List.Sublist [x, y] (A ++ B) := by
  intro h
  rw [List.sublist_append_iff] at h
  obtain ⟨l1, l2, e, h1, h2⟩ := h
  cases l1 with
  | nil =>
    simp only [List.nil_append] at e
    subst e
    exact hy (h2.subset (by simp))
  | cons a l1 =>
    simp only [List.cons_append, List.cons.injEq] at e
    obtain ⟨e1, _⟩ := e
    subst e1
    exact hx (h1.subset (by simp))

/-! ## Teardown -/

theorem ShutdownDirectMusic_val (g : Globals) : (ShutdownDirectMusic g).val = .ret () := rfl

theorem ShutdownDirectMusic_tr (g : Globals) :
    (ShutdownDirectMusic g).tr =
      (if g.pSegment then [Event.Unload g.pPerformance, Event.Release .pSegment] else [])
      ++ (if g.pDSBuffer then [Event.Release .pDSBuffer] else [])
      ++ (if g.pPort then [Event.Release .pPort] else [])
      ++ (if g.pDLSCollection then [Event.Release .pDLSCollection] else [])
      ++ (if g.pLoader then [Event.Release .pLoader] else [])
      ++ (if g.pDirectSound then [Event.Release .pDirectSound] else [])
      ++ (if g.pDirectMusic then [Event.Release .pDirectMusic] else [])
      ++ (if g.pPerformance then [Event.CloseDown, Event.Release .pPerformance] else [])
      ++ [Event.CoUninitialize] := by
  obtain ⟨a, b, c, d, e, f, g1, h, i, j, k, l, m, n⟩ := g
  cases a <;> cases b <;> cases d <;> cases f <;> cases g1 <;> cases h <;> cases i <;>
    cases j <;> rfl

set_option maxHeartbeats 2000000 in
theorem ShutdownDirectMusic_g (g : Globals) :
    (ShutdownDirectMusic g).g =
      { g with pSegment := false, pDSBuffer := false, pPort := false, pDLSCollection := false,
               pLoader := false, pDirectSound := false, pDirectMusic := false,
               pPerformance := false } := by
  obtain ⟨a, b, c, d, e, f, g1, h, i, j, k, l, m, n⟩ := g
  cases a <;> cases b <;> cases d <;> cases f <;> cases g1 <;> cases h <;> cases i <;>
    cases j <;> rfl

/-- C1.  On every state of the global pointers, `ShutdownDirectMusic` issues exactly these
calls, in this order, each group only when its pointer is live: segment `Unload` (with the
performance as argument) and `Release`; primary buffer `Release`; port `Release`; DLS
collection `Release`; loader `Release`; DirectSound `Release`; DirectMusic `Release`;
performance `CloseDown` and `Release`; and, always, `CoUninitialize`.  In particular no
segment `Unload` and no port `Release` comes after a `CloseDown`. -/
theorem ShutdownDirectMusic_call_order (g : Globals) :
    (ShutdownDirectMusic g).tr =
      (if g.pSegment then [Event.Unload g.pPerformance, Event.Release .pSegment] else [])
      ++ (if g.pDSBuffer then [Event.Release .pDSBuffer] else [])
      ++ (if g.pPort then [Event.Release .pPort] else [])
      ++ (if g.pDLSCollection then [Event.Release .pDLSCollection] else [])
      ++ (if g.pLoader then [Event.Release .pLoader] else [])
      ++ (if g.pDirectSound then [Event.Release .pDirectSound] else [])
      ++ (if g.pDirectMusic then [Event.Release .pDirectMusic] else [])
      ++ (if g.pPerformance then [Event.CloseDown, Event.Release .pPerformance] else [])
      ++ [Event.CoUninitialize]
    ∧ (∀ p, ¬ List.Sublist [Event.CloseDown, Event.Unload p] (ShutdownDirectMusic g).tr)
    ∧ ¬ List.Sublist [Event.CloseDown, Event.Release .pPort] (ShutdownDirectMusic g).tr := by
  refine ⟨ShutdownDirectMusic_tr g, ?_, ?_⟩
  · intro p
    rw [ShutdownDirectMusic_tr, List.append_assoc]
    apply not_sublist_pair_append <;> simp
  · rw [ShutdownDirectMusic_tr, List.append_assoc]
    apply not_sublist_pair_append <;> simp

/-- C3, as stated, fails: on the globals of program start, a second call of
`ShutdownDirectMusic` made right after a first one still issues a provider call,
`CoUninitialize`. -/
theorem ShutdownDirectMusic_twice_not_silent :
    (ShutdownDirectMusic (ShutdownDirectMusic Globals.initial).g).tr
        = [Event.CoUninitialize]
    ∧ (ShutdownDirectMusic (ShutdownDirectMusic Globals.initial).g).tr ≠ [] := by
  decide

/-- C3, amended.  On every state of the global pointers, a second call of
`ShutdownDirectMusic` made right after a first one returns, leaves the globals unchanged
and issues exactly one provider call, `CoUninitialize` (no `Unload`, no `Release`, no
`CloseDown`).  In any call, a pointer that is `NULL` is not released, a `NULL` segment is
not unloaded and a `NULL` performance is not closed down. -/
theorem ShutdownDirectMusic_second_call (g : Globals) :
    (ShutdownDirectMusic (ShutdownDirectMusic g).g).val = .ret ()
    ∧ (ShutdownDirectMusic (ShutdownDirectMusic g).g).g = (ShutdownDirectMusic g).g
    ∧ (ShutdownDirectMusic (ShutdownDirectMusic g).g).tr = [Event.CoUninitialize]
    ∧ (∀ h, g.get h = false → Event.Release h ∉ (ShutdownDirectMusic g).tr)
    ∧ (g.pSegment = false → ∀ p, Event.Unload p ∉ (ShutdownDirectMusic g).tr)
    ∧ (g.pPerformance = false → Event.CloseDown ∉ (ShutdownDirectMusic g).tr) := by
  refine ⟨rfl, ?_, ?_, ?_, ?_, ?_⟩
  · rw [ShutdownDirectMusic_g, ShutdownDirectMusic_g]
  · rw [ShutdownDirectMusic_tr, ShutdownDirectMusic_g]
    simp
  · intro h hh
    rw [ShutdownDirectMusic_tr]
    cases h <;> simp [Globals.get] at hh ⊢ <;> simp [hh]
  · intro hs p
    rw [ShutdownDirectMusic_tr]
    simp [hs]
  · intro hp
    rw [ShutdownDirectMusic_tr]
    simp [hp]

/-- A state in which only the loader and the performance are live, for
`ShutdownDirectMusic_second_call`. -/
theorem ShutdownDirectMusic_second_call_witness :
    (ShutdownDirectMusic (ShutdownDirectMusic
        { Globals.initial with pLoader := true, pPerformance := true }).g).tr
      = [Event.CoUninitialize]
    ∧ Event.Release .pPort ∉
        (ShutdownDirectMusic { Globals.initial with pLoader := true, pPerformance := true }).tr
    ∧ ∀ p, Event.Unload p ∉
        (ShutdownDirectMusic { Globals.initial with pLoader := true, pPerformance := true }).tr :=
  ⟨(ShutdownDirectMusic_second_call
      { Globals.initial with pLoader := true, pPerformance := true }).2.2.1,
   (ShutdownDirectMusic_second_call
      { Globals.initial with pLoader := true, pPerformance := true }).2.2.2.1 .pPort rfl,
   (ShutdownDirectMusic_second_call
      { Globals.initial with pLoader := true, pPerformance := true }).2.2.2.2.1 rfl⟩

/-! ## Resolving a port by its ordinal -/

theorem GetPortCapsByIndex_loop_found (P : Provider) (idx : Int) (i : Nat)
    (hi : idx = (i : Int)) (h32 : i < 4294967296) (fuel : Nat) :
    ∀ (dwIndex : Nat) (g : Globals), g.pDirectMusic = true → dwIndex ≤ i → i < dwIndex + fuel →
      (∀ j, dwIndex ≤ j → j ≤ i → (P.EnumPort j).1 = S_OK) →
      GetPortCapsByIndex.loop P idx fuel dwIndex g =
        ⟨.ret (P.EnumPort i).2, g,
          (List.range' dwIndex (i + 1 - dwIndex)).map fun j => Event.EnumPort j S_OK⟩ := by
  have hmod : idx % 4294967296 = (i : Int) := by
    subst hi
    exact Int.emod_eq_of_lt (by omega) (by omega)
  induction fuel with
  | zero => intro dwIndex g _ h1 h2; omega
  | succ fuel ih =>
    intro dwIndex g hg h1 h2 hok
    have hk := hok dwIndex (le_refl _) h1
    have hne : (S_OK : HRESULT) ≠ S_FALSE := by decide
    simp only [GetPortCapsByIndex.loop, hg, if_true, hk, hne, if_false, hmod, ne_eq,
      not_true_eq_false]
    by_cases hd : dwIndex = i
    · subst hd
      simp [Res.after_mk, List.range'_one]
    · have hlt : dwIndex < i := by omega
      have hcast : ¬ ((dwIndex : Int) = (i : Int)) := by omega
      have hm : (dwIndex + 1) % 4294967296 = dwIndex + 1 := Nat.mod_eq_of_lt (by omega)
      simp only [hcast, not_false_eq_true, if_true, hm]
      rw [ih (dwIndex + 1) g hg (by omega) (by omega)
        (fun j hj1 hj2 => hok j (by omega) hj2)]
      have hlen : i + 1 - dwIndex = (i + 1 - (dwIndex + 1)) + 1 := by omega
      rw [Res.after_mk, hlen, List.range'_succ]
      simp

theorem GetPortCapsByIndex_loop_stop (P : Provider) (idx : Int) (i n : Nat)
    (hi : idx = (i : Int)) (h32 : i < 4294967296) (hn : n ≤ i)
    (hbad : (P.EnumPort n).1 ≠ S_OK) (fuel : Nat) :
    ∀ (dwIndex : Nat) (g : Globals), g.pDirectMusic = true → dwIndex ≤ n → n < dwIndex + fuel →
      (∀ j, dwIndex ≤ j → j < n → (P.EnumPort j).1 = S_OK) →
      GetPortCapsByIndex.loop P idx fuel dwIndex g =
        ⟨.ret P.emptyPortCaps, g,
          ((List.range' dwIndex (n - dwIndex)).map fun j => Event.EnumPort j S_OK) ++
            [Event.EnumPort n (P.EnumPort n).1,
             Event.stderr (if (P.EnumPort n).1 = S_FALSE then Msg.deviceNotFound idx
               else Msg.portEnumError (P.EnumPort n).1)]⟩ := by
  have hmod : idx % 4294967296 = (i : Int) := by
    subst hi
    exact Int.emod_eq_of_lt (by omega) (by omega)
  induction fuel with
  | zero => intro dwIndex g _ h1 h2; omega
  | succ fuel ih =>
    intro dwIndex g hg h1 h2 hok
    by_cases hd : dwIndex = n
    · subst hd
      simp only [GetPortCapsByIndex.loop, hg, if_true]
      by_cases hf : (P.EnumPort dwIndex).1 = S_FALSE
      · simp [hf, Res.after_mk]
      · simp [hf, hbad, Res.after_mk]
    · have hlt : dwIndex < n := by omega
      have hk := hok dwIndex (le_refl _) hlt
      have hne : (S_OK : HRESULT) ≠ S_FALSE := by decide
      have hcast : ¬ ((dwIndex : Int) = (i : Int)) := by omega
      have hm : (dwIndex + 1) % 4294967296 = dwIndex + 1 := Nat.mod_eq_of_lt (by omega)
      simp only [GetPortCapsByIndex.loop, hg, if_true, hk, hne, if_false, hmod, ne_eq,
        not_true_eq_false, hcast, not_false_eq_true, hm]
      rw [ih (dwIndex + 1) g hg (by omega) (by omega)
        (fun j hj1 hj2 => hok j (by omega) hj2)]
      have hlen : n - dwIndex = (n - (dwIndex + 1)) + 1 := by omega
      rw [Res.after_mk, hlen, List.range'_succ]
      simp

/-- C7.  Let the DirectMusic object be live, let `EnumPort` answer `S_OK` at the ordinals
below `n`, and let `idx` be a non-negative `int`.  If `idx < n`, `GetPortCapsByIndex idx`
returns the capabilities `EnumPort` gave at ordinal `idx`, after exactly the `idx + 1`
calls `EnumPort 0 .. EnumPort idx`.  If `idx ≥ n` and `EnumPort n` answers `S_FALSE`, it
stops after the `n + 1` calls `EnumPort 0 .. EnumPort n` and reports that the device is
not found.  If `idx ≥ n` and `EnumPort n` answers any other code than `S_OK`, it stops
after the same `n + 1` calls and reports that code as an enumeration error.  Fuel
`idx + 1` is enough in every case. -/
theorem GetPortCapsByIndex_resolves (P : Provider) (g : Globals) (fuel n : Nat) (idx : Int)
    (hdm : g.pDirectMusic = true) (hok : ∀ i, i < n → (P.EnumPort i).1 = S_OK)
    (hidx : 0 ≤ idx) (hint : idx < 2147483648) (hfuel : idx < fuel) :
    (idx < n →
      GetPortCapsByIndex P fuel idx g =
        ⟨.ret (P.EnumPort idx.toNat).2, g,
          (List.range (idx.toNat + 1)).map fun i => Event.EnumPort i S_OK⟩)
    ∧ (n ≤ idx → (P.EnumPort n).1 = S_FALSE →
      GetPortCapsByIndex P fuel idx g =
        ⟨.ret P.emptyPortCaps, g,
          ((List.range n).map fun i => Event.EnumPort i S_OK) ++
            [Event.EnumPort n S_FALSE, Event.stderr (.deviceNotFound idx)]⟩)
    ∧ (n ≤ idx → (P.EnumPort n).1 ≠ S_OK → (P.EnumPort n).1 ≠ S_FALSE →
      GetPortCapsByIndex P fuel idx g =
        ⟨.ret P.emptyPortCaps, g,
          ((List.range n).map fun i => Event.EnumPort i S_OK) ++
            [Event.EnumPort n (P.EnumPort n).1,
             Event.stderr (.portEnumError (P.EnumPort n).1)]⟩) := by
  have hi : idx = (idx.toNat : Int) := (Int.toNat_of_nonneg hidx).symm
  have h32 : idx.toNat < 4294967296 := by omega
  refine ⟨?_, ?_, ?_⟩
  · intro hlt
    unfold GetPortCapsByIndex
    rw [GetPortCapsByIndex_loop_found P idx idx.toNat hi h32 fuel 0 g hdm (Nat.zero_le _)
      (by omega) (fun j _ hj => hok j (by omega))]
    simp [List.range_eq_range']
  · intro hle hf
    have hbad : (P.EnumPort n).1 ≠ S_OK := by rw [hf]; decide
    unfold GetPortCapsByIndex
    rw [GetPortCapsByIndex_loop_stop P idx idx.toNat n hi h32 (by omega) hbad fuel 0 g hdm
      (Nat.zero_le _) (by omega) (fun j _ hj => hok j hj)]
    simp [List.range_eq_range', hf]
  · intro hle hbad hnf
    unfold GetPortCapsByIndex
    rw [GetPortCapsByIndex_loop_stop P idx idx.toNat n hi h32 (by omega) hbad fuel 0 g hdm
      (Nat.zero_le _) (by omega) (fun j _ hj => hok j hj)]
    simp [List.range_eq_range', hnf]

/-- Two ports, ordinal 1 asked for: two calls, the second port is returned. -/
theorem GetPortCapsByIndex_resolves_witness :
    GetPortCapsByIndex (okProvider 2 [] 0) 2 1 { Globals.initial with pDirectMusic := true } =
      ⟨.ret { okCaps with guidPort := 101 }, { Globals.initial with pDirectMusic := true },
        [Event.EnumPort 0 S_OK, Event.EnumPort 1 S_OK]⟩ :=
  (GetPortCapsByIndex_resolves (okProvider 2 [] 0) { Globals.initial with pDirectMusic := true }
    2 2 1 rfl (by intro i hi; simp [okProvider, hi]) (by decide) (by decide) (by decide)).1
    (by decide)

/-! ## Creating the port -/

/-- C10.  When the DirectMusic object is live, `CreateMusicPort caps` first calls
`CreatePort`, with the port identifier `caps.guidPort` and the parameter record whose
voices, channel groups, audio channels and effect flags are those of `caps`, whose sample
rate is 44100, whose share flag is set, whose feature word is
`DMUS_PORT_FEATURE_AUDIOPATH`, whose size is the size of the record and whose word of
valid parameters is the bitwise OR of the seven flags; no other `CreatePort` call is
issued. -/
theorem CreateMusicPort_parameters (P : Provider) (caps : DMUS_PORTCAPS) (g : Globals)
    (hdm : g.pDirectMusic = true) :
    ∃ hr rest,
      (CreateMusicPort P caps g).tr =
        Event.CreatePort caps.guidPort
          { dwSize := sizeof_DMUS_PORTPARAMS8,
            dwValidParams :=
              DMUS_PORTPARAMS_VOICES ||| DMUS_PORTPARAMS_CHANNELGROUPS |||
              DMUS_PORTPARAMS_AUDIOCHANNELS ||| DMUS_PORTPARAMS_SAMPLERATE |||
              DMUS_PORTPARAMS_EFFECTS ||| DMUS_PORTPARAMS_SHARE ||| DMUS_PORTPARAMS_FEATURES,
            dwVoices := caps.dwMaxVoices,
            dwChannelGroups := caps.dwMaxChannelGroups,
            dwAudioChannels := caps.dwMaxAudioChannels,
            dwSampleRate := 44100,
            dwEffectFlags := caps.dwEffectFlags,
            fShare := true,
            dwFeatures := DMUS_PORT_FEATURE_AUDIOPATH } hr :: rest
      ∧ ∀ e ∈ rest, ∀ gd pp h, e ≠ Event.CreatePort gd pp h := by
  simp only [CreateMusicPort, hdm, if_true, Nat.zero_or]
  split_ifs
  · exact ⟨_, [], rfl, by simp⟩
  · exact ⟨_, [Event.GetCaps P.GetCaps.1], rfl, by simp⟩
  · exact ⟨_, [Event.GetCaps P.GetCaps.1], rfl, by simp⟩
  · exact ⟨_, [Event.GetCaps P.GetCaps.1], rfl, by simp⟩

/-- The parameters built from the capabilities `okCaps`. -/
theorem CreateMusicPort_parameters_witness :
    ∃ hr rest,
      (CreateMusicPort (okProvider 1 [] 0) okCaps
          { Globals.initial with pDirectMusic := true }).tr =
        Event.CreatePort 7
          { dwSize := 36, dwValidParams := 0xEF, dwVoices := 32, dwChannelGroups := 1,
            dwAudioChannels := 2, dwSampleRate := 44100, dwEffectFlags := 0, fShare := true,
            dwFeatures := 1 } hr :: rest
      ∧ ∀ e ∈ rest, ∀ gd pp h, e ≠ Event.CreatePort gd pp h :=
  CreateMusicPort_parameters (okProvider 1 [] 0) okCaps
    { Globals.initial with pDirectMusic := true } rfl

/-! ## The two enumerations -/

theorem DirectSoundEnumerate.calls_eq (items : List DSEnumItem) :
    ∃ L : List DSDeviceData, ∀ g : Globals,
      DirectSoundEnumerate.calls DSEnumProc items g =
        { g with dsDeviceData := g.dsDeviceData ++ L } := by
  induction items with
  | nil => exact ⟨[], fun g => by cases g; simp [DirectSoundEnumerate.calls]⟩
  | cons item rest ih =>
    obtain ⟨L, hL⟩ := ih
    by_cases hskip : item.lpGUID ≠ none ∧ item.mallocOk = false
    · refine ⟨L, fun g => ?_⟩
      simp only [DirectSoundEnumerate.calls, DSEnumProc]
      rw [if_pos hskip]
      simp only [if_true, hL]
    · refine ⟨{ guid := item.lpGUID, name := item.lpszDesc } :: L, fun g => ?_⟩
      simp only [DirectSoundEnumerate.calls, DSEnumProc]
      rw [if_neg hskip]
      simp only [if_true, hL]
      simp

theorem EnumerateDirectSoundDevices_eq (P : Provider) :
    ∃ L : List DSDeviceData, ∀ g : Globals,
      EnumerateDirectSoundDevices P g =
        ⟨.ret (if FAILED P.DirectSoundEnumerate.2 then P.DirectSoundEnumerate.2 else S_OK),
          { g with dsDeviceData := g.dsDeviceData ++ L },
          [Event.DirectSoundEnumerate P.DirectSoundEnumerate.2]⟩ := by
  obtain ⟨L, hL⟩ := DirectSoundEnumerate.calls_eq P.DirectSoundEnumerate.1
  refine ⟨L, fun g => ?_⟩
  unfold EnumerateDirectSoundDevices
  simp only [hL]
  split_ifs <;> rfl

theorem EnumeratePorts_loop_eq (P : Provider) (fuel : Nat) :
    ∀ dwIndex : Nat, ∃ (v : Outcome Unit) (L : List MidiDeviceData) (tr : List Event),
      ∀ g : Globals, g.pDirectMusic = true →
        EnumeratePorts.loop P fuel dwIndex g =
          ⟨v, { g with midiDeviceData := g.midiDeviceData ++ L }, tr⟩ := by
  induction fuel with
  | zero =>
    intro dwIndex
    exact ⟨.outOfFuel, [], [], fun g _ => by cases g; simp [EnumeratePorts.loop]⟩
  | succ fuel ih =>
    intro dwIndex
    obtain ⟨v, L, tr, h⟩ := ih ((dwIndex + 1) % 4294967296)
    by_cases h1 : (P.EnumPort dwIndex).1 = S_OK
    · refine ⟨v, { name := (P.EnumPort dwIndex).2.wszDescription } :: L,
        Event.EnumPort dwIndex (P.EnumPort dwIndex).1 :: tr, fun g hg => ?_⟩
      simp only [EnumeratePorts.loop, hg, if_true, h1]
      rw [h _ rfl]
      simp [Res.after]
    · by_cases h2 : (P.EnumPort dwIndex).1 = S_FALSE
      · refine ⟨.ret (), [], [Event.EnumPort dwIndex (P.EnumPort dwIndex).1], fun g hg => ?_⟩
        cases g
        simp_all [EnumeratePorts.loop, Res.after]
      · refine ⟨.ret (), [], [Event.EnumPort dwIndex (P.EnumPort dwIndex).1,
          Event.stderr (.portEnumError (P.EnumPort dwIndex).1)], fun g hg => ?_⟩
        cases g
        simp_all [EnumeratePorts.loop, Res.after]


theorem EnumeratePorts_loop_tr (P : Provider) (fuel : Nat) :
    ∀ (dwIndex : Nat) (g : Globals), ∀ e ∈ (EnumeratePorts.loop P fuel dwIndex g).tr,
      e.isEnum = true := by
  induction fuel with
  | zero => intro dwIndex g e he; simp [EnumeratePorts.loop] at he
  | succ fuel ih =>
    intro dwIndex g e he
    simp only [EnumeratePorts.loop] at he
    split_ifs at he with h1 h2 h3
    · simp only [Res.after_tr, List.singleton_append, List.mem_cons] at he
      rcases he with rfl | he
      · rfl
      · exact ih _ _ e he
    · simp only [Res.after_tr, List.singleton_append, List.mem_cons] at he
      rcases he with rfl | he
      · rfl
      · simp at he
    · simp only [Res.after_tr, List.singleton_append, List.mem_cons] at he
      rcases he with rfl | he
      · rfl
      · simp at he; subst he; rfl
    · simp at he

theorem EnumeratePorts_loop_frame (P : Provider) (fuel : Nat) :
    ∀ (dwIndex : Nat) (g : Globals),
      (EnumeratePorts.loop P fuel dwIndex g).g =
        { g with midiDeviceData := (EnumeratePorts.loop P fuel dwIndex g).g.midiDeviceData } := by
  induction fuel with
  | zero => intro dwIndex g; rfl
  | succ fuel ih =>
    intro dwIndex g
    simp only [EnumeratePorts.loop]
    split_ifs with h1 h2 h3
    · simp only [Res.after_g]
      rw [ih]
    · rfl
    · rfl
    · rfl

theorem EnumeratePorts_loop_val (P : Provider) (fuel : Nat) :
    ∀ (dwIndex : Nat) (g : Globals) (n : Nat), g.pDirectMusic = true →
      dwIndex ≤ n → n < dwIndex + fuel → n < 4294967296 → (P.EnumPort n).1 ≠ S_OK →
      (EnumeratePorts.loop P fuel dwIndex g).val = .ret () := by
  induction fuel with
  | zero => intro dwIndex g n _ h1 h2; omega
  | succ fuel ih =>
    intro dwIndex g n hg h1 h2 h3 h4
    simp only [EnumeratePorts.loop, hg, if_true]
    split_ifs with h5 h6
    · simp only [Res.after_val]
      have hne : dwIndex ≠ n := by rintro rfl; exact h4 h5
      have hmod : (dwIndex + 1) % 4294967296 = dwIndex + 1 := Nat.mod_eq_of_lt (by omega)
      rw [hmod]
      exact ih (dwIndex + 1) _ n rfl (by omega) (by omega) h3 h4
    · rfl
    · rfl

/-! ## Initialisation up to the performance -/

theorem vectorAt_inrange {α : Type} (v : List α) (i : Int) (h0 : 0 ≤ i)
    (h1 : i < (v.length : Int)) : ∃ a, vectorAt v i = .ret a := by
  have hlt : i.toNat < v.length := by omega
  refine ⟨v.get ⟨i.toNat, hlt⟩, ?_⟩
  simp [vectorAt, h0, List.getElem?_eq_getElem hlt]

theorem GetDeviceGuidByIndex_ret (g : Globals) (index : Int)
    (h : index < 0 ∨ index < (g.dsDeviceData.length : Int)) :
    ∃ guid, GetDeviceGuidByIndex index g = .ret guid := by
  unfold GetDeviceGuidByIndex
  by_cases h0 : index < 0
  · exact ⟨none, by simp [h0]⟩
  · have h1 : index < (g.dsDeviceData.length : Int) := by omega
    obtain ⟨a, ha⟩ := vectorAt_inrange g.dsDeviceData index (by omega) h1
    exact ⟨a.guid, by simp [h0, h1, ha, Outcome.map]⟩

/-- The identifier `GetDeviceGuidByIndex` returns depends on `dsDeviceData` only. -/
theorem GetDeviceGuidByIndex_congr (index : Int) (g1 g2 : Globals)
    (h : g1.dsDeviceData = g2.dsDeviceData) :
    GetDeviceGuidByIndex index g1 = GetDeviceGuidByIndex index g2 := by
  simp only [GetDeviceGuidByIndex, h]

/-- The calls of `Initialise` up to the end of the two enumerations. -/
theorem Initialise_reaches_sound (P : Provider) (fuel : Nat) (ds midi : Int) (dls : String)
    (g : Globals) (hWnd : HWND) (n : Nat)
    (hwnd : P.GetConsoleWindow = some hWnd)
    (hco : FAILED P.CoInitializeEx = false)
    (hcc : ∀ c, FAILED (P.CoCreateInstance c) = false)
    (hn : n < fuel) (hn32 : n < 4294967296) (hend : (P.EnumPort n).1 ≠ S_OK) :
    Initialise P fuel ds midi dls g =
      Res.after
        ([Event.CoInitializeEx P.CoInitializeEx,
          Event.CoCreateInstance .DirectMusicLoader (P.CoCreateInstance .DirectMusicLoader),
          Event.CoCreateInstance .DirectMusicPerformance
            (P.CoCreateInstance .DirectMusicPerformance),
          Event.CoCreateInstance .DirectMusic (P.CoCreateInstance .DirectMusic),
          Event.DirectSoundEnumerate P.DirectSoundEnumerate.2] ++
          (EnumeratePorts P fuel { g with pDirectMusic := true }).tr)
        (Initialise.sound P fuel hWnd ds midi dls
          { g with
            pLoader := true, pPerformance := true, pDirectMusic := true,
            dsDeviceData := (EnumerateDirectSoundDevices P g).g.dsDeviceData,
            midiDeviceData :=
              (EnumeratePorts P fuel { g with pDirectMusic := true }).g.midiDeviceData }) := by
  obtain ⟨L1, h1⟩ := EnumerateDirectSoundDevices_eq P
  obtain ⟨v, L2, tr, h2⟩ := EnumeratePorts_loop_eq P fuel 0
  have hv : v = .ret () := by
    have := EnumeratePorts_loop_val P fuel 0 { g with pDirectMusic := true } n rfl
      (Nat.zero_le _) (by omega) hn32 hend
    rw [h2 _ rfl] at this
    exact this
  subst hv
  simp only [Initialise, hwnd, hco, hcc, EnumeratePorts, h1, Bool.false_eq_true, if_false,
    Bool.not_false]
  rw [Res.andThen_ret _ rfl]
  simp only []
  rw [h2 _ rfl, h2 _ rfl, Res.andThen_ret _ rfl]
  simp [Res.after]

/-! ## Selection of the audio device -/

theorem GetDeviceGuidByIndex_outside (g : Globals) (index : Int)
    (h : index < 0 ∨ (g.dsDeviceData.length : Int) ≤ index) :
    GetDeviceGuidByIndex index g = .ret none := by
  unfold GetDeviceGuidByIndex
  rcases h with h | h
  · simp [h]
  · have h1 : ¬ index < 0 := by omega
    have h2 : ¬ index < (g.dsDeviceData.length : Int) := by omega
    simp [h1, h2]

/-- C6, as stated, fails: with no audio device enumerated and every provider call
succeeding, `Initialise 5 (-1) "-"` opens the default device (`DirectSoundCreate8` is
called with the `NULL` identifier and succeeds) and reports no failure code; the run ends
in the read of `dsDeviceData[5]`. -/
theorem Initialise_audio_index_past_end :
    Event.DirectSoundCreate8 none S_OK ∈
        (Initialise (okProvider 0 [] 0) 1 5 (-1) "-" Globals.initial).tr
    ∧ (Initialise (okProvider 0 [] 0) 1 5 (-1) "-" Globals.initial).val = .outOfRange
    ∧ ∀ hr, FAILED hr = true →
        (Initialise (okProvider 0 [] 0) 1 5 (-1) "-" Globals.initial).val ≠ .ret hr := by
  refine ⟨by decide, by decide, ?_⟩
  intro hr _
  have h : (Initialise (okProvider 0 [] 0) 1 5 (-1) "-" Globals.initial).val = .outOfRange := by
    decide
  rw [h]
  simp

/-- C6, amended.  On every state, an index that is negative, or that is not smaller than
the length of `dsDeviceData`, makes `GetDeviceGuidByIndex` return the `NULL` identifier
without a read outside the vector.  When the console window exists, COM and the three
objects are created and the port enumeration ends within the fuel, `Initialise` called with
such an index (taken against the list of enumerated audio devices) passes the `NULL`
identifier to `DirectSoundCreate8` right after the two enumerations: it opens the default
device. -/
theorem audio_index_outside_list_selects_default (P : Provider) (fuel : Nat) (ds midi : Int)
    (dls : String) (g : Globals) (hWnd : HWND) (n : Nat)
    (hout : ds < 0 ∨ ((EnumerateDirectSoundDevices P g).g.dsDeviceData.length : Int) ≤ ds)
    (hwnd : P.GetConsoleWindow = some hWnd)
    (hco : FAILED P.CoInitializeEx = false)
    (hcc : ∀ c, FAILED (P.CoCreateInstance c) = false)
    (hn : n < fuel) (hn32 : n < 4294967296) (hend : (P.EnumPort n).1 ≠ S_OK) :
    (∀ (g0 : Globals) (index : Int), index < 0 ∨ (g0.dsDeviceData.length : Int) ≤ index →
        GetDeviceGuidByIndex index g0 = .ret none)
    ∧ ∃ rest,
      (Initialise P fuel ds midi dls g).tr =
        [Event.CoInitializeEx P.CoInitializeEx,
          Event.CoCreateInstance .DirectMusicLoader (P.CoCreateInstance .DirectMusicLoader),
          Event.CoCreateInstance .DirectMusicPerformance
            (P.CoCreateInstance .DirectMusicPerformance),
          Event.CoCreateInstance .DirectMusic (P.CoCreateInstance .DirectMusic),
          Event.DirectSoundEnumerate P.DirectSoundEnumerate.2] ++
        (EnumeratePorts P fuel { g with pDirectMusic := true }).tr ++
        Event.DirectSoundCreate8 none (P.DirectSoundCreate8 none) :: rest := by
  refine ⟨GetDeviceGuidByIndex_outside, ?_⟩
  rw [Initialise_reaches_sound P fuel ds midi dls g hWnd n hwnd hco hcc hn hn32 hend]
  have hnone := GetDeviceGuidByIndex_outside
    { g with
      pLoader := true, pPerformance := true, pDirectMusic := true,
      dsDeviceData := (EnumerateDirectSoundDevices P g).g.dsDeviceData,
      midiDeviceData :=
        (EnumeratePorts P fuel { g with pDirectMusic := true }).g.midiDeviceData } ds hout
  unfold Initialise.sound
  rw [hnone, Res.andThen_ret _ rfl]
  simp only [Res.after_tr, Res.ofOutcome, List.nil_append, List.append_assoc,
    List.singleton_append]
  exact ⟨_, rfl⟩

/-- The audio index 5 on a machine with one audio device. -/
theorem audio_index_outside_list_selects_default_witness :
    ∃ rest,
      (Initialise (okProvider 0 [⟨none, "Primary Sound Driver", "", true⟩] 0) 1 5 (-1) "-"
          Globals.initial).tr =
        [Event.CoInitializeEx S_OK,
          Event.CoCreateInstance .DirectMusicLoader S_OK,
          Event.CoCreateInstance .DirectMusicPerformance S_OK,
          Event.CoCreateInstance .DirectMusic S_OK,
          Event.DirectSoundEnumerate S_OK] ++
        (EnumeratePorts (okProvider 0 [⟨none, "Primary Sound Driver", "", true⟩] 0) 1
          { Globals.initial with pDirectMusic := true }).tr ++
        Event.DirectSoundCreate8 none S_OK :: rest :=
  (audio_index_outside_list_selects_default
    (okProvider 0 [⟨none, "Primary Sound Driver", "", true⟩] 0) 1 5 (-1) "-" Globals.initial
    1 0 (Or.inr (by decide)) rfl rfl (fun _ => rfl) (by decide) (by decide) (by decide)).2

/-! ## The default audio path -/

theorem Initialise.sound_default (P : Provider) (fuel : Nat) (hWnd : HWND) (ds midi : Int)
    (dls : String) (g : Globals)
    (hmidi : midi < 0) (hds : ds < 0 ∨ ds < (g.dsDeviceData.length : Int))
    (hdsc : ∀ guid, GetDeviceGuidByIndex ds g = .ret guid →
      FAILED (P.DirectSoundCreate8 guid) = false)
    (hscl : FAILED P.SetCooperativeLevel = false)
    (hcsb : FAILED P.CreateSoundBuffer = false)
    (hsf : FAILED P.SetFormat = false)
    (hsds : FAILED P.SetDirectSound = false)
    (hdls : dls ≠ DLS_FILE_NONE →
      FAILED (P.LoadObjectFromFile .DirectMusicCollection dls) = false)
    (hqi : ∀ i, FAILED (P.QueryInterface i) = false) :
    ∃ guid mid, Initialise.sound P fuel hWnd ds midi dls g =
      ⟨.ret (if FAILED P.InitAudio then P.InitAudio else S_OK),
        { g with
          pDirectSound := true, pDSBuffer := true,
          pDLSCollection := if dls ≠ DLS_FILE_NONE then true else g.pDLSCollection,
          pDirectMusicG := true, pDirectSoundG := true },
        Event.DirectSoundCreate8 guid (P.DirectSoundCreate8 guid) :: mid ++
          [Event.InitAudio hWnd DMUS_APATH_SHARED_STEREOPLUSREVERB 16 0 P.InitAudio]⟩
      ∧ ∀ e ∈ mid, e.isPerformanceCall = false ∧ e.isEnum = false := by
  obtain ⟨guid, hguid⟩ := GetDeviceGuidByIndex_ret g ds hds
  have hread : ∀ g0 : Globals, (if ds ≥ 0 then
        (⟨(vectorAt g.dsDeviceData ds).map fun _ => (), g0, []⟩ : Res Unit)
      else ⟨.ret (), g0, []⟩) = ⟨.ret (), g0, []⟩ := by
    intro g0
    split_ifs with h0
    · obtain ⟨a, ha⟩ := vectorAt_inrange g.dsDeviceData ds h0 (by omega)
      simp [ha, Outcome.map, Res.ofOutcome]
    · rfl
  by_cases hd : dls ≠ DLS_FILE_NONE
  · refine ⟨guid, [Event.SetCooperativeLevel hWnd DSSCL_PRIORITY P.SetCooperativeLevel,
      Event.CreateSoundBuffer (DSBCAPS_PRIMARYBUFFER ||| DSBCAPS_CTRLVOLUME ||| DSBCAPS_CTRLPAN)
        P.CreateSoundBuffer,
      Event.SetFormat ⟨WAVE_FORMAT_PCM, 2, 44100, 44100 * (2 * 16 / 8), 2 * 16 / 8, 16, 0⟩
        P.SetFormat,
      Event.SetDirectSound hWnd P.SetDirectSound,
      Event.LoadObjectFromFile .DirectMusicCollection dls
        (P.LoadObjectFromFile .DirectMusicCollection dls),
      Event.QueryInterface .IDirectMusic (P.QueryInterface .IDirectMusic),
      Event.QueryInterface .IDirectSound (P.QueryInterface .IDirectSound)], ?_, ?_⟩
    · unfold Initialise.sound
      rw [hguid, Res.andThen_ret _ rfl]
      simp only [Res.ofOutcome, hdsc guid hguid, Bool.false_eq_true, if_false,
        Bool.not_false]
      rw [hread, Res.andThen_ret _ rfl]
      simp only [hscl, hcsb, hsf, hsds, hdls hd, hd, Bool.false_eq_true, if_false, if_true,
        Bool.not_false, Initialise.performance, hqi, hmidi, not_false_eq_true]
      split_ifs <;> simp [Res.after]
    · intro e he
      simp only [List.mem_cons, List.mem_singleton, List.not_mem_nil, or_false] at he
      rcases he with rfl | rfl | rfl | rfl | rfl | rfl | rfl <;> exact ⟨rfl, rfl⟩
  · refine ⟨guid, [Event.SetCooperativeLevel hWnd DSSCL_PRIORITY P.SetCooperativeLevel,
      Event.CreateSoundBuffer (DSBCAPS_PRIMARYBUFFER ||| DSBCAPS_CTRLVOLUME ||| DSBCAPS_CTRLPAN)
        P.CreateSoundBuffer,
      Event.SetFormat ⟨WAVE_FORMAT_PCM, 2, 44100, 44100 * (2 * 16 / 8), 2 * 16 / 8, 16, 0⟩
        P.SetFormat,
      Event.SetDirectSound hWnd P.SetDirectSound,
      Event.QueryInterface .IDirectMusic (P.QueryInterface .IDirectMusic),
      Event.QueryInterface .IDirectSound (P.QueryInterface .IDirectSound)], ?_, ?_⟩
    · unfold Initialise.sound
      rw [hguid, Res.andThen_ret _ rfl]
      simp only [Res.ofOutcome, hdsc guid hguid, Bool.false_eq_true, if_false,
        Bool.not_false]
      rw [hread, Res.andThen_ret _ rfl]
      simp only [hscl, hcsb, hsf, hsds, hd, Bool.false_eq_true, if_false, if_true,
        Bool.not_false, Initialise.performance, hqi, hmidi, not_false_eq_true]
      split_ifs <;> simp [Res.after]
    · intro e he
      simp only [List.mem_cons, List.mem_singleton, List.not_mem_nil, or_false] at he
      rcases he with rfl | rfl | rfl | rfl | rfl | rfl <;> exact ⟨rfl, rfl⟩

theorem Event.isEnum_not_performance (e : Event) (h : e.isEnum = true) :
    e.isPerformanceCall = false := by
  cases e <;> simp_all [Event.isEnum, Event.isPerformanceCall]

theorem EnumeratePorts_filter (P : Provider) (fuel : Nat) (g : Globals) :
    (EnumeratePorts P fuel g).tr.filter Event.isPerformanceCall = [] := by
  rw [List.filter_eq_nil_iff]
  intro e he
  have := Event.isEnum_not_performance e (EnumeratePorts_loop_tr P fuel 0 g e he)
  simp [this]

/-- C8, evaluated on the command line `DS 5 -1 - tune.mid` with no audio device
enumerated and every provider call succeeding.  `GetDeviceGuidByIndex` guards the index and
selects the default device, which `DirectSoundCreate8` opens; `Initialise` then reads
`dsDeviceData[5]` past the end of the vector (line 363) before the performance is
initialised: no `InitAudio` call is issued, and neither `Initialise` nor `main` returns a
code. -/
theorem bad_audio_index_stops_default_path :
    (Initialise (okProvider 0 [] 0) 1 5 (-1) "-" Globals.initial).val = .outOfRange
    ∧ (Initialise (okProvider 0 [] 0) 1 5 (-1) "-" Globals.initial).tr.filter
        Event.isPerformanceCall = []
    ∧ (Initialise (okProvider 0 [] 0) 1 5 (-1) "-" Globals.initial).tr.getLast? =
        some (Event.DirectSoundCreate8 none S_OK)
    ∧ (main (okProvider 0 [] 0) 1 ["tool", "DS", "5", "-1", "-", "tune.mid"]).val =
        .outOfRange := by
  decide

/-- The default path on a valid selection of the audio device.  Let `midiIdx < 0`, let
`audioIdx` be negative or address the list of enumerated audio devices, let the port
enumeration end within the fuel, and let every provider call made before the
initialisation of the performance succeed.  Then `Initialise`
issues, in this order: `CoInitializeEx`, the three `CoCreateInstance` calls,
`DirectSoundEnumerate`, the calls of `EnumeratePorts`, `DirectSoundCreate8`, calls that
are neither `EnumPort` calls nor calls of the performance set-up, and last one `InitAudio`
call with the console window, the path type `DMUS_APATH_SHARED_STEREOPLUSREVERB`, 16
channels and no flags.  That `InitAudio` is the only call of the performance set-up: no
`CreatePort`, `GetCaps`, `Init`, `AddPort` or `Activate` is issued, and no `EnumPort` is
issued after `EnumeratePorts`.  `Initialise` returns the code of `InitAudio` if it failed
and `S_OK` otherwise; `pPort` and `isExternalSynth` keep their values. -/
theorem Initialise_default_path (P : Provider) (fuel : Nat) (ds midi : Int) (dls : String)
    (g : Globals) (hWnd : HWND) (n : Nat)
    (hmidi : midi < 0)
    (hds : ds < 0 ∨ ds < ((EnumerateDirectSoundDevices P g).g.dsDeviceData.length : Int))
    (hwnd : P.GetConsoleWindow = some hWnd)
    (hco : FAILED P.CoInitializeEx = false)
    (hcc : ∀ c, FAILED (P.CoCreateInstance c) = false)
    (hn : n < fuel) (hn32 : n < 4294967296) (hend : (P.EnumPort n).1 ≠ S_OK)
    (hdsc : ∀ guid, GetDeviceGuidByIndex ds (EnumerateDirectSoundDevices P g).g = .ret guid →
      FAILED (P.DirectSoundCreate8 guid) = false)
    (hscl : FAILED P.SetCooperativeLevel = false)
    (hcsb : FAILED P.CreateSoundBuffer = false)
    (hsf : FAILED P.SetFormat = false)
    (hsds : FAILED P.SetDirectSound = false)
    (hdls : dls ≠ DLS_FILE_NONE →
      FAILED (P.LoadObjectFromFile .DirectMusicCollection dls) = false)
    (hqi : ∀ i, FAILED (P.QueryInterface i) = false) :
    (∃ guid mid,
      (Initialise P fuel ds midi dls g).tr =
        [Event.CoInitializeEx P.CoInitializeEx,
          Event.CoCreateInstance .DirectMusicLoader (P.CoCreateInstance .DirectMusicLoader),
          Event.CoCreateInstance .DirectMusicPerformance
            (P.CoCreateInstance .DirectMusicPerformance),
          Event.CoCreateInstance .DirectMusic (P.CoCreateInstance .DirectMusic),
          Event.DirectSoundEnumerate P.DirectSoundEnumerate.2] ++
        (EnumeratePorts P fuel { g with pDirectMusic := true }).tr ++
        Event.DirectSoundCreate8 guid (P.DirectSoundCreate8 guid) :: mid ++
        [Event.InitAudio hWnd DMUS_APATH_SHARED_STEREOPLUSREVERB 16 0 P.InitAudio]
      ∧ ∀ e ∈ mid, e.isPerformanceCall = false ∧ e.isEnum = false)
    ∧ (Initialise P fuel ds midi dls g).tr.filter Event.isPerformanceCall =
        [Event.InitAudio hWnd DMUS_APATH_SHARED_STEREOPLUSREVERB 16 0 P.InitAudio]
    ∧ (Initialise P fuel ds midi dls g).val =
        .ret (if FAILED P.InitAudio then P.InitAudio else S_OK)
    ∧ (Initialise P fuel ds midi dls g).g.pPort = g.pPort
    ∧ (Initialise P fuel ds midi dls g).g.isExternalSynth = g.isExternalSynth := by
  obtain ⟨guid, mid, hs, hmid⟩ := Initialise.sound_default P fuel hWnd ds midi dls
    { g with
      pLoader := true, pPerformance := true, pDirectMusic := true,
      dsDeviceData := (EnumerateDirectSoundDevices P g).g.dsDeviceData,
      midiDeviceData :=
        (EnumeratePorts P fuel { g with pDirectMusic := true }).g.midiDeviceData }
    hmidi hds (fun guid hguid => hdsc guid
      ((GetDeviceGuidByIndex_congr ds _ _ rfl).trans hguid)) hscl hcsb hsf hsds hdls hqi
  have htr : (Initialise P fuel ds midi dls g).tr =
        [Event.CoInitializeEx P.CoInitializeEx,
          Event.CoCreateInstance .DirectMusicLoader (P.CoCreateInstance .DirectMusicLoader),
          Event.CoCreateInstance .DirectMusicPerformance
            (P.CoCreateInstance .DirectMusicPerformance),
          Event.CoCreateInstance .DirectMusic (P.CoCreateInstance .DirectMusic),
          Event.DirectSoundEnumerate P.DirectSoundEnumerate.2] ++
        (EnumeratePorts P fuel { g with pDirectMusic := true }).tr ++
        Event.DirectSoundCreate8 guid (P.DirectSoundCreate8 guid) :: mid ++
        [Event.InitAudio hWnd DMUS_APATH_SHARED_STEREOPLUSREVERB 16 0 P.InitAudio] := by
    rw [Initialise_reaches_sound P fuel ds midi dls g hWnd n hwnd hco hcc hn hn32 hend, hs]
    simp [Res.after]
  have hfmid : mid.filter Event.isPerformanceCall = [] := by
    rw [List.filter_eq_nil_iff]
    intro e he
    simp [(hmid e he).1]
  refine ⟨⟨guid, mid, htr, hmid⟩, ?_, ?_, ?_, ?_⟩
  · rw [htr]
    simp only [List.filter_append, EnumeratePorts_filter, List.filter_cons, hfmid]
    simp [Event.isPerformanceCall]
  · rw [Initialise_reaches_sound P fuel ds midi dls g hWnd n hwnd hco hcc hn hn32 hend, hs]
    rfl
  · rw [Initialise_reaches_sound P fuel ds midi dls g hWnd n hwnd hco hcc hn hn32 hend, hs]
    rfl
  · rw [Initialise_reaches_sound P fuel ds midi dls g hWnd n hwnd hco hcc hn hn32 hend, hs]
    rfl

/-- The command line `DS -1 -1 -` on a machine with two ports: `InitAudio` is the one
call of the performance set-up. -/
theorem Initialise_default_path_witness :
    (Initialise (okProvider 2 [] 0) 3 (-1) (-1) "-" Globals.initial).tr.filter
        Event.isPerformanceCall =
      [Event.InitAudio 1 DMUS_APATH_SHARED_STEREOPLUSREVERB 16 0 S_OK]
    ∧ (Initialise (okProvider 2 [] 0) 3 (-1) (-1) "-" Globals.initial).g.pPort = false :=
  ⟨(Initialise_default_path (okProvider 2 [] 0) 3 (-1) (-1) "-" Globals.initial 1 2
      (by decide) (Or.inl (by decide)) rfl rfl (fun _ => rfl) (by decide) (by decide)
      (by decide) (fun _ _ => rfl) rfl rfl rfl rfl (fun _ => rfl) (fun _ => rfl)).2.1,
   (Initialise_default_path (okProvider 2 [] 0) 3 (-1) (-1) "-" Globals.initial 1 2
      (by decide) (Or.inl (by decide)) rfl rfl (fun _ => rfl) (by decide) (by decide)
      (by decide) (fun _ _ => rfl) rfl rfl rfl rfl (fun _ => rfl) (fun _ => rfl)).2.2.2.1⟩

/-! ## Resources of a session -/

/-- C2, evaluated.  On no state does `ShutdownDirectMusic` release `pDirectMusicG` or
`pDirectSoundG`, the two interfaces obtained by `QueryInterface`.  On the command line
`DS -1 -1 - tune.mid` with every provider call succeeding, the session ends with exit code
0, each of the two interfaces is acquired once and released never, and so the acquisitions
are not a rearrangement of the releases. -/
theorem session_leaks_queried_interfaces :
    (∀ g : Globals, Event.Release .pDirectMusicG ∉ (ShutdownDirectMusic g).tr
      ∧ Event.Release .pDirectSoundG ∉ (ShutdownDirectMusic g).tr)
    ∧ (main (okProvider 0 [] 0) 1 ["tool", "DS", "-1", "-1", "-", "tune.mid"]).val = .ret 0
    ∧ (acquisitions (main (okProvider 0 [] 0) 1
          ["tool", "DS", "-1", "-1", "-", "tune.mid"]).tr).count (.interface .pDirectMusicG) = 1
    ∧ (releases (main (okProvider 0 [] 0) 1
          ["tool", "DS", "-1", "-1", "-", "tune.mid"]).tr).count (.interface .pDirectMusicG) = 0
    ∧ (acquisitions (main (okProvider 0 [] 0) 1
          ["tool", "DS", "-1", "-1", "-", "tune.mid"]).tr).count (.interface .pDirectSoundG) = 1
    ∧ (releases (main (okProvider 0 [] 0) 1
          ["tool", "DS", "-1", "-1", "-", "tune.mid"]).tr).count (.interface .pDirectSoundG) = 0
    ∧ ¬ (acquisitions (main (okProvider 0 [] 0) 1
          ["tool", "DS", "-1", "-1", "-", "tune.mid"]).tr).Perm
        (releases (main (okProvider 0 [] 0) 1
          ["tool", "DS", "-1", "-1", "-", "tune.mid"]).tr) := by
  refine ⟨?_, by decide, by decide, by decide, by decide, by decide, ?_⟩
  · intro g
    rw [ShutdownDirectMusic_tr]
    constructor <;> simp
  · intro h
    have := h.count_eq (Resource.interface .pDirectMusicG)
    revert this
    decide

/-! ## `Initialise` does not touch the segment -/

theorem Res.andThen_g_pSegment {α β : Type} (r : Res α) (k : α → Globals → Res β) (b : Bool)
    (hr : r.g.pSegment = b) (hk : ∀ a g, g.pSegment = b → (k a g).g.pSegment = b) :
    (r.andThen k).g.pSegment = b := by
  unfold Res.andThen
  split
  · simpa using hk _ _ hr
  · exact hr
  · exact hr
  · exact hr

theorem GetPortCapsByIndex_loop_g (P : Provider) (idx : Int) (fuel : Nat) :
    ∀ (dwIndex : Nat) (g : Globals), (GetPortCapsByIndex.loop P idx fuel dwIndex g).g = g := by
  induction fuel with
  | zero => intro dwIndex g; rfl
  | succ fuel ih =>
    intro dwIndex g
    simp only [GetPortCapsByIndex.loop]
    split_ifs <;> simp [ih]

theorem GetPortCapsByIndex_loop_tr (P : Provider) (idx : Int) (fuel : Nat) :
    ∀ (dwIndex : Nat) (g : Globals), ∀ e ∈ (GetPortCapsByIndex.loop P idx fuel dwIndex g).tr,
      e.isEnum = true := by
  induction fuel with
  | zero => intro dwIndex g e he; simp [GetPortCapsByIndex.loop] at he
  | succ fuel ih =>
    intro dwIndex g e he
    simp only [GetPortCapsByIndex.loop] at he
    split_ifs at he
    all_goals simp only [Res.after_tr, List.singleton_append, List.mem_cons, List.mem_singleton,
      List.not_mem_nil, or_false] at he
    · rcases he with rfl | rfl <;> rfl
    · rcases he with rfl | rfl <;> rfl
    · rcases he with rfl | he
      · rfl
      · exact ih _ _ e he
    · subst he; rfl

theorem CreateMusicPort_pSegment (P : Provider) (caps : DMUS_PORTCAPS) (g : Globals) :
    (CreateMusicPort P caps g).g.pSegment = g.pSegment := by
  unfold CreateMusicPort
  simp only []
  split_ifs <;> rfl

theorem Res.ite_g_pSegment {α : Type} {c : Prop} [Decidable c] {x y : Res α} {b : Bool}
    (hx : x.g.pSegment = b) (hy : y.g.pSegment = b) :
    (if c then x else y).g.pSegment = b := by
  split_ifs <;> assumption

theorem Initialise.performance_pSegment (P : Provider) (fuel : Nat) (hWnd : HWND) (midi : Int)
    (g : Globals) : (Initialise.performance P fuel hWnd midi g).g.pSegment = g.pSegment := by
  unfold Initialise.performance
  simp only [Res.after_g]
  repeat first
    | rfl
    | apply Res.ite_g_pSegment
    | rw [Res.after_g]
  apply Res.andThen_g_pSegment
  · rw [GetPortCapsByIndex, GetPortCapsByIndex_loop_g]
  · intro caps g1 h1
    apply Res.andThen_g_pSegment
    · exact h1
    · intro _ g2 h2
      apply Res.andThen_g_pSegment
      · rw [CreateMusicPort_pSegment, h2]
      · intro hr g3 h3
        repeat first
          | exact h3
          | apply Res.ite_g_pSegment
          | rw [Res.after_g]

theorem Initialise.sound_pSegment (P : Provider) (fuel : Nat) (hWnd : HWND) (ds midi : Int)
    (dls : String) (g : Globals) :
    (Initialise.sound P fuel hWnd ds midi dls g).g.pSegment = g.pSegment := by
  unfold Initialise.sound
  apply Res.andThen_g_pSegment
  · rfl
  · intro guid g1 h1
    simp only [Res.after_g]
    apply Res.ite_g_pSegment
    · exact h1
    · apply Res.andThen_g_pSegment
      · apply Res.ite_g_pSegment <;> exact h1
      · intro _ g2 h2
        repeat first
          | exact h2
          | rw [Initialise.performance_pSegment]
          | rw [Res.after_g]
          | apply Res.ite_g_pSegment

theorem Initialise_pSegment (P : Provider) (fuel : Nat) (ds midi : Int) (dls : String)
    (g : Globals) : (Initialise P fuel ds midi dls g).g.pSegment = g.pSegment := by
  unfold Initialise
  split
  · rfl
  · simp only [Res.after_g]
    repeat first
      | rfl
      | apply Res.ite_g_pSegment
      | rw [Res.after_g]
    apply Res.andThen_g_pSegment
    · obtain ⟨L, hL⟩ := EnumerateDirectSoundDevices_eq P
      rw [hL]
    · intro _ g1 h1
      apply Res.andThen_g_pSegment
      · rw [EnumeratePorts, EnumeratePorts_loop_frame]
        exact h1
      · intro _ g2 h2
        rw [Initialise.sound_pSegment]
        exact h2

/-! ## Refusal of an external synthesizer -/

/-- C4, as stated, fails: in this session the created port reports `DMUS_PC_EXTERNAL`, so
`CreateMusicPort` sets `isExternalSynth`, but `Activate` then fails; `Initialise` fails,
`PlayMidi` is never called and `main` exits with code 1, not 2. -/
theorem external_flag_seen_but_exit_code_one :
    (Initialise { okProvider 1 [] DMUS_PC_EXTERNAL with Activate := E_FAIL } 2 (-1) 0 "-"
        Globals.initial).g.isExternalSynth = true
    ∧ (main { okProvider 1 [] DMUS_PC_EXTERNAL with Activate := E_FAIL } 2
        ["tool", "DS", "-1", "0", "-", "tune.mid"]).val = .ret 1
    ∧ (main { okProvider 1 [] DMUS_PC_EXTERNAL with Activate := E_FAIL } 2
        ["tool", "DS", "-1", "0", "-", "tune.mid"]).val ≠ .ret 2 := by
  decide

/-! ## The explicit-port path -/

theorem Res.abortsOnFailure_clean {v : Outcome HRESULT} {g : Globals} {tr : List Event}
    (h : ∀ e ∈ tr, e.isPerformanceCall = false) : Res.abortsOnFailure ⟨v, g, tr⟩ := by
  intro e he hp
  rw [h e he] at hp
  exact absurd hp (by simp)

theorem Res.abortsOnFailure_after {es : List Event} {r : Res HRESULT}
    (hes : ∀ e ∈ es, e.isPerformanceCall = true → FAILED e.hr = false)
    (hr : r.abortsOnFailure) : (Res.after es r).abortsOnFailure := by
  intro e he hp hf
  simp only [Res.after_tr, List.mem_append] at he
  rcases he with he | he
  · rw [hes e he hp] at hf
    exact absurd hf (by simp)
  · obtain ⟨h1, h2⟩ := hr e he hp hf
    refine ⟨?_, h2⟩
    simp only [Res.after_tr]
    rw [List.getLast?_append, h1]
    rfl

theorem Res.abortsOnFailure_step {e : Event} {hr : HRESULT} {g : Globals} {rest : Res HRESULT}
    (he : e.isPerformanceCall = true → e.hr = hr) (h : rest.abortsOnFailure) :
    (Res.after [e] (if FAILED hr then ⟨.ret hr, g, []⟩ else rest)).abortsOnFailure := by
  by_cases hf : FAILED hr = true
  · rw [if_pos hf]
    intro e1 he1 hp _
    simp only [Res.after_tr, List.append_nil, List.mem_singleton] at he1
    subst he1
    exact ⟨rfl, by simp [he hp]⟩
  · rw [if_neg hf]
    apply Res.abortsOnFailure_after _ h
    intro e1 he1 hp
    simp only [List.mem_singleton] at he1
    subst he1
    rw [he hp]
    simpa using hf

theorem Res.abortsOnFailure_andThen {α : Type} {r : Res α} {k : α → Globals → Res HRESULT}
    (hclean : ∀ e ∈ r.tr, e.isPerformanceCall = false)
    (hk : ∀ a g, (k a g).abortsOnFailure) : (r.andThen k).abortsOnFailure := by
  unfold Res.andThen
  split
  · apply Res.abortsOnFailure_after _ (hk _ _)
    intro e he hp
    rw [hclean e he] at hp
    exact absurd hp (by simp)
  · exact Res.abortsOnFailure_clean hclean
  · exact Res.abortsOnFailure_clean hclean
  · exact Res.abortsOnFailure_clean hclean

theorem Res.abortsOnFailure_ite {c : Prop} [Decidable c] {x y : Res HRESULT}
    (hx : x.abortsOnFailure) (hy : y.abortsOnFailure) :
    (if c then x else y).abortsOnFailure := by
  split_ifs <;> assumption

theorem CreateMusicPort_cases (P : Provider) (caps : DMUS_PORTCAPS) (g : Globals)
    (hdm : g.pDirectMusic = true) :
    ∃ pp g1,
      (FAILED (P.CreatePort caps.guidPort pp) = true ∧
        CreateMusicPort P caps g =
          ⟨.ret (P.CreatePort caps.guidPort pp), g1,
            [Event.CreatePort caps.guidPort pp (P.CreatePort caps.guidPort pp)]⟩)
      ∨ (FAILED (P.CreatePort caps.guidPort pp) = false ∧ FAILED P.GetCaps.1 = true ∧
        CreateMusicPort P caps g =
          ⟨.ret P.GetCaps.1, g1,
            [Event.CreatePort caps.guidPort pp (P.CreatePort caps.guidPort pp),
             Event.GetCaps P.GetCaps.1]⟩)
      ∨ (FAILED (P.CreatePort caps.guidPort pp) = false ∧ FAILED P.GetCaps.1 = false ∧
        CreateMusicPort P caps g =
          ⟨.ret S_OK, g1,
            [Event.CreatePort caps.guidPort pp (P.CreatePort caps.guidPort pp),
             Event.GetCaps P.GetCaps.1]⟩) := by
  simp only [CreateMusicPort, hdm, if_true]
  split_ifs with h1 h2 h3
  · exact ⟨_, _, Or.inl ⟨h1, rfl⟩⟩
  · exact ⟨_, _, Or.inr (Or.inl ⟨by simpa using h1, h2, rfl⟩)⟩
  · exact ⟨_, _, Or.inr (Or.inr ⟨by simpa using h1, by simpa using h2, rfl⟩)⟩
  · exact ⟨_, _, Or.inr (Or.inr ⟨by simpa using h1, by simpa using h2, rfl⟩)⟩

theorem CreateMusicPort_null (P : Provider) (caps : DMUS_PORTCAPS) (g : Globals)
    (hdm : ¬ g.pDirectMusic = true) : CreateMusicPort P caps g = ⟨.nullDeref, g, []⟩ := by
  simp [CreateMusicPort, hdm]

theorem CreateMusicPort_andThen_aborts (P : Provider) (caps : DMUS_PORTCAPS) (g : Globals)
    (rest : Globals → Res HRESULT) (hrest : ∀ g, (rest g).abortsOnFailure) :
    ((CreateMusicPort P caps g).andThen fun hr g =>
      if FAILED hr then ⟨.ret hr, g, []⟩ else rest g).abortsOnFailure := by
  by_cases hdm : g.pDirectMusic = true
  · obtain ⟨pp, g1, h | h | h⟩ := CreateMusicPort_cases P caps g hdm
    · obtain ⟨h1, h2⟩ := h
      rw [h2, Res.andThen_ret _ rfl]
      exact Res.abortsOnFailure_step (fun _ => rfl) (hrest g1)
    · obtain ⟨h1, h2, h3⟩ := h
      rw [h3, Res.andThen_ret _ rfl]
      have hcp : ∀ e ∈ [Event.CreatePort caps.guidPort pp (P.CreatePort caps.guidPort pp)],
          e.isPerformanceCall = true → FAILED e.hr = false := by
        intro e he _
        simp only [List.mem_singleton] at he
        subst he
        exact h1
      have hgc : (Res.after [Event.GetCaps P.GetCaps.1]
          (if FAILED P.GetCaps.1 then ⟨.ret P.GetCaps.1, g1, []⟩
            else rest g1)).abortsOnFailure :=
        Res.abortsOnFailure_step (fun _ => rfl) (hrest g1)
      have hall : (Res.after [Event.CreatePort caps.guidPort pp (P.CreatePort caps.guidPort pp)]
          (Res.after [Event.GetCaps P.GetCaps.1]
            (if FAILED P.GetCaps.1 then ⟨.ret P.GetCaps.1, g1, []⟩
              else rest g1))).abortsOnFailure :=
        Res.abortsOnFailure_after hcp hgc
      exact hall
    · obtain ⟨h1, h2, h3⟩ := h
      rw [h3, Res.andThen_ret _ rfl]
      have hs : FAILED S_OK = false := by decide
      simp only [hs, Bool.false_eq_true, if_false]
      apply Res.abortsOnFailure_after _ (hrest g1)
      intro e he _
      simp only [List.mem_cons, List.mem_singleton, List.not_mem_nil, or_false] at he
      rcases he with rfl | rfl
      · exact h1
      · exact h2
  · rw [CreateMusicPort_null P caps g hdm]
    exact Res.abortsOnFailure_clean (by simp)

theorem GetPortCapsByIndex_clean (P : Provider) (fuel : Nat) (idx : Int) (g : Globals) :
    ∀ e ∈ (GetPortCapsByIndex P fuel idx g).tr, e.isPerformanceCall = false :=
  fun e he => Event.isEnum_not_performance e (GetPortCapsByIndex_loop_tr P idx fuel 0 g e he)

theorem EnumeratePorts_clean (P : Provider) (fuel : Nat) (g : Globals) :
    ∀ e ∈ (EnumeratePorts P fuel g).tr, e.isPerformanceCall = false :=
  fun e he => Event.isEnum_not_performance e (EnumeratePorts_loop_tr P fuel 0 g e he)

theorem EnumerateDirectSoundDevices_clean (P : Provider) (g : Globals) :
    ∀ e ∈ (EnumerateDirectSoundDevices P g).tr, e.isPerformanceCall = false := by
  obtain ⟨L, hL⟩ := EnumerateDirectSoundDevices_eq P
  rw [hL]
  intro e he
  simp only [List.mem_singleton] at he
  subst he
  rfl

theorem Initialise.performance_aborts (P : Provider) (fuel : Nat) (hWnd : HWND) (midi : Int)
    (g : Globals) : (Initialise.performance P fuel hWnd midi g).abortsOnFailure := by
  unfold Initialise.performance
  simp only []
  apply Res.abortsOnFailure_step (fun h => absurd h (by simp [Event.isPerformanceCall]))
  apply Res.abortsOnFailure_step (fun h => absurd h (by simp [Event.isPerformanceCall]))
  apply Res.abortsOnFailure_ite
  · apply Res.abortsOnFailure_step (fun _ => rfl)
    exact Res.abortsOnFailure_clean (by simp)
  · apply Res.abortsOnFailure_andThen (GetPortCapsByIndex_clean _ _ _ _)
    intro caps g1
    apply Res.abortsOnFailure_andThen (by simp [Res.ofOutcome])
    intro _ g2
    apply CreateMusicPort_andThen_aborts
    intro g3
    apply Res.abortsOnFailure_step (fun _ => rfl)
    apply Res.abortsOnFailure_step (fun _ => rfl)
    apply Res.abortsOnFailure_step (fun _ => rfl)
    exact Res.abortsOnFailure_clean (by simp)

theorem Initialise.sound_aborts (P : Provider) (fuel : Nat) (hWnd : HWND) (ds midi : Int)
    (dls : String) (g : Globals) :
    (Initialise.sound P fuel hWnd ds midi dls g).abortsOnFailure := by
  unfold Initialise.sound
  apply Res.abortsOnFailure_andThen (by simp [Res.ofOutcome])
  intro guid g1
  simp only []
  apply Res.abortsOnFailure_step (fun h => absurd h (by simp [Event.isPerformanceCall]))
  apply Res.abortsOnFailure_andThen
  · intro e he
    split_ifs at he <;> simp [Res.ofOutcome] at he
  intro _ g2
  apply Res.abortsOnFailure_step (fun h => absurd h (by simp [Event.isPerformanceCall]))
  apply Res.abortsOnFailure_step (fun h => absurd h (by simp [Event.isPerformanceCall]))
  apply Res.abortsOnFailure_step (fun h => absurd h (by simp [Event.isPerformanceCall]))
  apply Res.abortsOnFailure_step (fun h => absurd h (by simp [Event.isPerformanceCall]))
  apply Res.abortsOnFailure_ite
  · apply Res.abortsOnFailure_step (fun h => absurd h (by simp [Event.isPerformanceCall]))
    exact Initialise.performance_aborts _ _ _ _ _
  · exact Initialise.performance_aborts _ _ _ _ _

theorem Initialise_aborts (P : Provider) (fuel : Nat) (ds midi : Int) (dls : String)
    (g : Globals) : (Initialise P fuel ds midi dls g).abortsOnFailure := by
  unfold Initialise
  split
  · exact Res.abortsOnFailure_clean (by simp [Event.isPerformanceCall])
  · simp only []
    apply Res.abortsOnFailure_step (fun h => absurd h (by simp [Event.isPerformanceCall]))
    apply Res.abortsOnFailure_step (fun h => absurd h (by simp [Event.isPerformanceCall]))
    apply Res.abortsOnFailure_step (fun h => absurd h (by simp [Event.isPerformanceCall]))
    apply Res.abortsOnFailure_step (fun h => absurd h (by simp [Event.isPerformanceCall]))
    apply Res.abortsOnFailure_andThen (EnumerateDirectSoundDevices_clean _ _)
    intro _ g1
    apply Res.abortsOnFailure_andThen (EnumeratePorts_clean _ _ _)
    intro _ g2
    exact Initialise.sound_aborts _ _ _ _ _ _ _

theorem Res.portSetupComplete_of_failed {P : Provider} {hWnd : HWND} {hr : HRESULT}
    {g : Globals} {tr : List Event} (h : FAILED hr = true) :
    Res.portSetupComplete P hWnd ⟨.ret hr, g, tr⟩ := by
  intro hr1 hval hok
  simp only [Outcome.ret.injEq] at hval
  rw [← hval, h] at hok
  exact absurd hok (by simp)

theorem Res.portSetupComplete_after {P : Provider} {hWnd : HWND} {es : List Event}
    {r : Res HRESULT} (hes : ∀ e ∈ es, e.isPerformanceCall = false)
    (hr : Res.portSetupComplete P hWnd r) : Res.portSetupComplete P hWnd (Res.after es r) := by
  intro hr1 hval hok
  obtain ⟨gd, pp, h⟩ := hr hr1 hval hok
  refine ⟨gd, pp, ?_⟩
  have hnil : es.filter Event.isPerformanceCall = [] := by
    rw [List.filter_eq_nil_iff]
    intro e he
    simp [hes e he]
  simp only [Res.after_tr, List.filter_append, hnil, List.nil_append, h]

theorem Res.portSetupComplete_step {P : Provider} {hWnd : HWND} {e : Event} {hr : HRESULT}
    {g : Globals} {rest : Res HRESULT} (he : e.isPerformanceCall = false)
    (h : Res.portSetupComplete P hWnd rest) :
    Res.portSetupComplete P hWnd
      (Res.after [e] (if FAILED hr then ⟨.ret hr, g, []⟩ else rest)) := by
  apply Res.portSetupComplete_after
  · intro e1 he1
    simp only [List.mem_singleton] at he1
    subst he1
    exact he
  · by_cases hf : FAILED hr = true
    · rw [if_pos hf]
      exact Res.portSetupComplete_of_failed hf
    · rw [if_neg hf]
      exact h

theorem Res.portSetupComplete_andThen {α : Type} {P : Provider} {hWnd : HWND} {r : Res α}
    {k : α → Globals → Res HRESULT} (hclean : ∀ e ∈ r.tr, e.isPerformanceCall = false)
    (hk : ∀ a g, Res.portSetupComplete P hWnd (k a g)) :
    Res.portSetupComplete P hWnd (r.andThen k) := by
  unfold Res.andThen
  split
  · exact Res.portSetupComplete_after hclean (hk _ _)
  · intro hr hval; simp at hval
  · intro hr hval; simp at hval
  · intro hr hval; simp at hval

theorem Res.portSetupComplete_ite {P : Provider} {hWnd : HWND} {c : Prop} [Decidable c]
    {x y : Res HRESULT} (hx : Res.portSetupComplete P hWnd x)
    (hy : Res.portSetupComplete P hWnd y) :
    Res.portSetupComplete P hWnd (if c then x else y) := by
  split_ifs <;> assumption

theorem CreateMusicPort_andThen_complete (P : Provider) (hWnd : HWND) (caps : DMUS_PORTCAPS)
    (g : Globals) :
    Res.portSetupComplete P hWnd
      ((CreateMusicPort P caps g).andThen fun hr g =>
        if FAILED hr then ⟨.ret hr, g, []⟩
        else
          Res.after [Event.Init hWnd P.Init] <|
            if FAILED P.Init then ⟨.ret P.Init, g, []⟩
            else
              Res.after [Event.AddPort P.AddPort] <|
                if FAILED P.AddPort then ⟨.ret P.AddPort, g, []⟩
                else
                  Res.after [Event.Activate true P.Activate] <|
                    if FAILED P.Activate then ⟨.ret P.Activate, g, []⟩
                    else ⟨.ret S_OK, g, []⟩) := by
  by_cases hdm : g.pDirectMusic = true
  · obtain ⟨pp, g1, h | h | h⟩ := CreateMusicPort_cases P caps g hdm
    · obtain ⟨h1, h2⟩ := h
      rw [h2, Res.andThen_ret _ rfl]
      simp only [h1, if_true]
      exact Res.portSetupComplete_of_failed h1
    · obtain ⟨h1, h2, h3⟩ := h
      rw [h3, Res.andThen_ret _ rfl]
      simp only [h2, if_true]
      exact Res.portSetupComplete_of_failed h2
    · obtain ⟨h1, h2, h3⟩ := h
      rw [h3, Res.andThen_ret _ rfl]
      have hs : FAILED S_OK = false := by decide
      simp only [hs, Bool.false_eq_true, if_false]
      by_cases h4 : FAILED P.Init = true
      · rw [if_pos h4]
        exact Res.portSetupComplete_of_failed h4
      · rw [if_neg h4]
        by_cases h5 : FAILED P.AddPort = true
        · rw [if_pos h5]
          exact Res.portSetupComplete_of_failed h5
        · rw [if_neg h5]
          by_cases h6 : FAILED P.Activate = true
          · rw [if_pos h6]
            exact Res.portSetupComplete_of_failed h6
          · rw [if_neg h6]
            intro hr _ _
            exact ⟨caps.guidPort, pp, rfl⟩
  · rw [CreateMusicPort_null P caps g hdm]
    intro hr hval
    simp [Res.andThen] at hval

theorem Initialise.performance_complete (P : Provider) (fuel : Nat) (hWnd : HWND) (midi : Int)
    (g : Globals) (hmidi : 0 ≤ midi) :
    Res.portSetupComplete P hWnd (Initialise.performance P fuel hWnd midi g) := by
  have hneg : ¬ midi < 0 := by omega
  unfold Initialise.performance
  simp only [hneg, if_false]
  apply Res.portSetupComplete_step (by rfl)
  apply Res.portSetupComplete_step (by rfl)
  apply Res.portSetupComplete_andThen (GetPortCapsByIndex_clean _ _ _ _)
  intro caps g1
  apply Res.portSetupComplete_andThen (by simp [Res.ofOutcome])
  intro _ g2
  exact CreateMusicPort_andThen_complete P hWnd caps g2

theorem Initialise.sound_complete (P : Provider) (fuel : Nat) (hWnd : HWND) (ds midi : Int)
    (dls : String) (g : Globals) (hmidi : 0 ≤ midi) :
    Res.portSetupComplete P hWnd (Initialise.sound P fuel hWnd ds midi dls g) := by
  unfold Initialise.sound
  apply Res.portSetupComplete_andThen (by simp [Res.ofOutcome])
  intro guid g1
  simp only []
  apply Res.portSetupComplete_step (by rfl)
  apply Res.portSetupComplete_andThen
  · intro e he
    split_ifs at he <;> simp [Res.ofOutcome] at he
  intro _ g2
  apply Res.portSetupComplete_step (by rfl)
  apply Res.portSetupComplete_step (by rfl)
  apply Res.portSetupComplete_step (by rfl)
  apply Res.portSetupComplete_step (by rfl)
  apply Res.portSetupComplete_ite
  · apply Res.portSetupComplete_step (by rfl)
    exact Initialise.performance_complete _ _ _ _ _ hmidi
  · exact Initialise.performance_complete _ _ _ _ _ hmidi

theorem Initialise_complete (P : Provider) (fuel : Nat) (ds midi : Int) (dls : String)
    (g : Globals) (hWnd : HWND) (hwnd : P.GetConsoleWindow = some hWnd) (hmidi : 0 ≤ midi) :
    Res.portSetupComplete P hWnd (Initialise P fuel ds midi dls g) := by
  unfold Initialise
  simp only [hwnd]
  apply Res.portSetupComplete_step (by rfl)
  apply Res.portSetupComplete_step (by rfl)
  apply Res.portSetupComplete_step (by rfl)
  apply Res.portSetupComplete_step (by rfl)
  apply Res.portSetupComplete_andThen (EnumerateDirectSoundDevices_clean _ _)
  intro _ g1
  apply Res.portSetupComplete_andThen (EnumeratePorts_clean _ _ _)
  intro _ g2
  exact Initialise.sound_complete _ _ _ _ _ _ _ hmidi

/-- C9.  Let `midiIdx ≥ 0`.  If `Initialise` returns success, then the console window
exists and the calls of the performance set-up that `Initialise` issued are exactly
`CreatePort`, `GetCaps`, `Init`, `AddPort`, `Activate(TRUE)`, in this order and once each;
in particular `InitAudio` is not among them.  Whatever `Initialise` returns, a call of the
performance set-up that fails is the last call issued and its code is the value
returned. -/
theorem Initialise_explicit_port (P : Provider) (fuel : Nat) (ds midi : Int) (dls : String)
    (g : Globals) (hmidi : 0 ≤ midi) :
    (∀ hr, (Initialise P fuel ds midi dls g).val = .ret hr → FAILED hr = false →
      ∃ hWnd guidPort portParams, P.GetConsoleWindow = some hWnd ∧
        (Initialise P fuel ds midi dls g).tr.filter Event.isPerformanceCall =
          [Event.CreatePort guidPort portParams (P.CreatePort guidPort portParams),
           Event.GetCaps P.GetCaps.1, Event.Init hWnd P.Init, Event.AddPort P.AddPort,
           Event.Activate true P.Activate])
    ∧ (∀ e ∈ (Initialise P fuel ds midi dls g).tr, e.isPerformanceCall = true →
        FAILED e.hr = true →
        (Initialise P fuel ds midi dls g).tr.getLast? = some e ∧
          (Initialise P fuel ds midi dls g).val = .ret e.hr) := by
  refine ⟨?_, Initialise_aborts P fuel ds midi dls g⟩
  intro hr hval hok
  cases hw : P.GetConsoleWindow with
  | none =>
    exfalso
    simp only [Initialise, hw, Outcome.ret.injEq] at hval
    rw [← hval] at hok
    exact absurd hok (by decide)
  | some hWnd =>
    obtain ⟨gd, pp, h⟩ := Initialise_complete P fuel ds midi dls g hWnd hw hmidi hr hval hok
    exact ⟨hWnd, gd, pp, rfl, h⟩

/-- The command line `DS -1 1 -` on a machine with two ports: the five calls, for the port
of ordinal 1. -/
theorem Initialise_explicit_port_witness :
    ∃ hWnd guidPort portParams, (okProvider 2 [] 0).GetConsoleWindow = some hWnd ∧
      (Initialise (okProvider 2 [] 0) 3 (-1) 1 "-" Globals.initial).tr.filter
          Event.isPerformanceCall =
        [Event.CreatePort guidPort portParams S_OK, Event.GetCaps S_OK, Event.Init hWnd S_OK,
         Event.AddPort S_OK, Event.Activate true S_OK] :=
  (Initialise_explicit_port (okProvider 2 [] 0) 3 (-1) 1 "-" Globals.initial (by decide)).1
    S_OK (by decide) (by decide)

/-! ## A port index past the end of the enumeration -/

theorem EnumeratePorts_loop_length (P : Provider) (n : Nat) (h32 : n < 4294967296)
    (hend : (P.EnumPort n).1 ≠ S_OK) (fuel : Nat) :
    ∀ (dwIndex : Nat) (g : Globals), g.pDirectMusic = true → dwIndex ≤ n → n < dwIndex + fuel →
      (∀ j, dwIndex ≤ j → j < n → (P.EnumPort j).1 = S_OK) →
      (EnumeratePorts.loop P fuel dwIndex g).g.midiDeviceData.length =
        g.midiDeviceData.length + (n - dwIndex) := by
  induction fuel with
  | zero => intro dwIndex g _ h1 h2; omega
  | succ fuel ih =>
    intro dwIndex g hg h1 h2 hok
    by_cases hd : dwIndex = n
    · subst hd
      simp only [EnumeratePorts.loop, hg, if_true, hend, if_false]
      split_ifs <;> simp
    · have hlt : dwIndex < n := by omega
      have hk := hok dwIndex (le_refl _) hlt
      have hm : (dwIndex + 1) % 4294967296 = dwIndex + 1 := Nat.mod_eq_of_lt (by omega)
      simp only [EnumeratePorts.loop, hg, if_true, hk, hm, Res.after_g]
      rw [ih (dwIndex + 1) _ rfl (by omega) (by omega) (fun j hj1 hj2 => hok j (by omega) hj2)]
      simp only [List.length_append, List.length_singleton]
      omega

theorem vectorAt_past_end {α : Type} (v : List α) (i : Int) (h : (v.length : Int) ≤ i) :
    vectorAt v i = .outOfRange := by
  have h0 : 0 ≤ i := by omega
  have hlen : v.length ≤ i.toNat := by omega
  simp [vectorAt, h0, List.getElem?_eq_none hlen]

theorem Initialise.sound_port_missing (P : Provider) (fuel : Nat) (hWnd : HWND) (ds midi : Int)
    (dls : String) (g : Globals) (n : Nat)
    (hdm : g.pDirectMusic = true)
    (hok : ∀ i, i < n → (P.EnumPort i).1 = S_OK) (hend : (P.EnumPort n).1 ≠ S_OK)
    (hidx : (n : Int) ≤ midi) (hint : midi < 2147483648) (hfuel : n < fuel)
    (hlen : (g.midiDeviceData.length : Int) ≤ midi)
    (hds : ds < 0 ∨ ds < (g.dsDeviceData.length : Int))
    (hdsc : ∀ gd, FAILED (P.DirectSoundCreate8 gd) = false)
    (hscl : FAILED P.SetCooperativeLevel = false)
    (hcsb : FAILED P.CreateSoundBuffer = false)
    (hsf : FAILED P.SetFormat = false)
    (hsds : FAILED P.SetDirectSound = false)
    (hdls : dls ≠ DLS_FILE_NONE →
      FAILED (P.LoadObjectFromFile .DirectMusicCollection dls) = false)
    (hqi : ∀ i, FAILED (P.QueryInterface i) = false) :
    (Initialise.sound P fuel hWnd ds midi dls g).val = .outOfRange
    ∧ (Initialise.sound P fuel hWnd ds midi dls g).tr.getLast? =
        some (Event.stderr (if (P.EnumPort n).1 = S_FALSE then Msg.deviceNotFound midi
          else Msg.portEnumError (P.EnumPort n).1))
    ∧ ∀ e ∈ (Initialise.sound P fuel hWnd ds midi dls g).tr, e.isPerformanceCall = false := by
  obtain ⟨guid, hguid⟩ := GetDeviceGuidByIndex_ret g ds hds
  have hread : ∀ g0 : Globals, (if ds ≥ 0 then
        (⟨(vectorAt g.dsDeviceData ds).map fun _ => (), g0, []⟩ : Res Unit)
      else ⟨.ret (), g0, []⟩) = ⟨.ret (), g0, []⟩ := by
    intro g0
    split_ifs with h0
    · obtain ⟨a, ha⟩ := vectorAt_inrange g.dsDeviceData ds h0 (by omega)
      simp [ha, Outcome.map, Res.ofOutcome]
    · rfl
  have hmidi : ¬ midi < 0 := by omega
  have hi : midi = (midi.toNat : Int) := (Int.toNat_of_nonneg (by omega)).symm
  have hgp : ∀ g0 : Globals, g0.pDirectMusic = true →
      GetPortCapsByIndex P fuel midi g0 =
        ⟨.ret P.emptyPortCaps, g0,
          ((List.range' 0 (n - 0)).map fun j => Event.EnumPort j S_OK) ++
            [Event.EnumPort n (P.EnumPort n).1,
             Event.stderr (if (P.EnumPort n).1 = S_FALSE then Msg.deviceNotFound midi
               else Msg.portEnumError (P.EnumPort n).1)]⟩ := by
    intro g0 hg0
    unfold GetPortCapsByIndex
    exact GetPortCapsByIndex_loop_stop P midi midi.toNat n hi (by omega) (by omega) hend fuel 0
      g0 hg0 (Nat.zero_le _) (by omega) (fun j _ hj => hok j hj)
  have hpast := vectorAt_past_end g.midiDeviceData midi hlen
  have hlast : ∀ (pre : List Event) (x y : Event) (l : List Event),
      (pre ++ (l ++ [x, y])).getLast? = some y := by
    intro pre x y l
    rw [← List.append_assoc, List.getLast?_append]
    simp
  unfold Initialise.sound
  rw [hguid, Res.andThen_ret _ rfl]
  simp only [Res.ofOutcome, hdsc, Bool.false_eq_true, if_false, Bool.not_false]
  rw [hread, Res.andThen_ret _ rfl]
  by_cases hd : dls ≠ DLS_FILE_NONE
  · simp only [hscl, hcsb, hsf, hsds, hdls hd, hd, Bool.false_eq_true, if_false, if_true,
      Bool.not_false, Initialise.performance, hqi, hmidi, not_false_eq_true]
    simp only [hgp, hdm]
    rw [Res.andThen_ret _ rfl]
    simp only [hpast, Res.andThen, Res.after_mk, Res.after_val, Res.after_tr, Res.ofOutcome,
      if_pos hd]
    simp only [List.nil_append, List.append_nil, List.singleton_append, List.cons_append]
    refine ⟨trivial, ?_, ?_⟩
    · simp only [List.getLast?_cons_cons]
      exact hlast [_] _ _ _
    · intro e he
      simp only [List.mem_cons, List.mem_append, List.mem_map, List.mem_singleton,
        List.not_mem_nil, or_false] at he
      rcases he with rfl | rfl | rfl | rfl | rfl | rfl | rfl | rfl | ⟨j, _, rfl⟩ | rfl | rfl
        <;> rfl
  · simp only [hscl, hcsb, hsf, hsds, hd, Bool.false_eq_true, if_false, if_true,
      Bool.not_false, Initialise.performance, hqi, hmidi, not_false_eq_true]
    simp only [hgp, hdm]
    rw [Res.andThen_ret _ rfl]
    simp only [hpast, Res.andThen, Res.after_mk, Res.after_val, Res.after_tr, Res.ofOutcome,
      if_neg hd]
    simp only [List.nil_append, List.append_nil, List.singleton_append, List.cons_append]
    refine ⟨trivial, ?_, ?_⟩
    · simp only [List.getLast?_cons_cons]
      exact hlast [_] _ _ _
    · intro e he
      simp only [List.mem_cons, List.mem_append, List.mem_map, List.mem_singleton,
        List.not_mem_nil, or_false] at he
      rcases he with rfl | rfl | rfl | rfl | rfl | rfl | rfl | ⟨j, _, rfl⟩ | rfl | rfl
        <;> rfl


/-- Whenever the enumeration yields `n` ports, the index asked for is `n` or more, the list
`midiDeviceData` is empty at the start and every call up to the selection of the port
succeeds, `Initialise` returns no result code: after the message of `GetPortCapsByIndex` it
reads `midiDeviceData` past its end. -/
theorem Initialise_port_index_past_end (P : Provider) (fuel : Nat) (ds midi : Int)
    (dls : String) (g : Globals) (hWnd : HWND) (n : Nat)
    (hempty : g.midiDeviceData = [])
    (hok : ∀ i, i < n → (P.EnumPort i).1 = S_OK) (hend : (P.EnumPort n).1 ≠ S_OK)
    (hidx : (n : Int) ≤ midi) (hint : midi < 2147483648) (hfuel : n < fuel)
    (hds : ds < 0 ∨ ds < ((EnumerateDirectSoundDevices P g).g.dsDeviceData.length : Int))
    (hwnd : P.GetConsoleWindow = some hWnd)
    (hco : FAILED P.CoInitializeEx = false)
    (hcc : ∀ c, FAILED (P.CoCreateInstance c) = false)
    (hdsc : ∀ gd, FAILED (P.DirectSoundCreate8 gd) = false)
    (hscl : FAILED P.SetCooperativeLevel = false)
    (hcsb : FAILED P.CreateSoundBuffer = false)
    (hsf : FAILED P.SetFormat = false)
    (hsds : FAILED P.SetDirectSound = false)
    (hdls : dls ≠ DLS_FILE_NONE →
      FAILED (P.LoadObjectFromFile .DirectMusicCollection dls) = false)
    (hqi : ∀ i, FAILED (P.QueryInterface i) = false) :
    (Initialise P fuel ds midi dls g).val = .outOfRange
    ∧ (Initialise P fuel ds midi dls g).tr.getLast? =
        some (Event.stderr (if (P.EnumPort n).1 = S_FALSE then Msg.deviceNotFound midi
          else Msg.portEnumError (P.EnumPort n).1))
    ∧ (Initialise P fuel ds midi dls g).tr.filter Event.isPerformanceCall = [] := by
  have hn : n < fuel := hfuel
  have hn32 : n < 4294967296 := by omega
  have hlen : (EnumeratePorts P fuel { g with pDirectMusic := true }).g.midiDeviceData.length
      = n := by
    unfold EnumeratePorts
    rw [EnumeratePorts_loop_length P n hn32 hend fuel 0 _ rfl (Nat.zero_le _) (by omega)
      (fun j _ hj => hok j hj)]
    simp [hempty]
  obtain ⟨h1, h2, h3⟩ := Initialise.sound_port_missing P fuel hWnd ds midi dls
    { g with
      pLoader := true, pPerformance := true, pDirectMusic := true,
      dsDeviceData := (EnumerateDirectSoundDevices P g).g.dsDeviceData,
      midiDeviceData :=
        (EnumeratePorts P fuel { g with pDirectMusic := true }).g.midiDeviceData } n
    rfl hok hend hidx hint hfuel (by simp only [hlen]; exact hidx) hds hdsc hscl hcsb hsf hsds
    hdls hqi
  rw [Initialise_reaches_sound P fuel ds midi dls g hWnd n hwnd hco hcc hn hn32 hend]
  refine ⟨h1, ?_, ?_⟩
  · rw [Res.after_tr, List.getLast?_append, h2]
    rfl
  · rw [List.filter_eq_nil_iff]
    intro e he
    simp only [Res.after_tr, List.mem_append, List.mem_cons, List.not_mem_nil, or_false] at he
    rcases he with (he | he) | he
    · rcases he with rfl | rfl | rfl | rfl | rfl <;> simp [Event.isPerformanceCall]
    · simp [EnumeratePorts_clean P fuel _ e he]
    · simp [h3 e he]

/-- C5, evaluated on the command line `DS -1 999 - tune.mid` with three ports, and on
`DS -1 0 - tune.mid` with no port, every provider call succeeding: in both runs the last
thing `Initialise` does is to write that the device is not found; it then reads
`midiDeviceData` at the index given, past the end of the vector, and returns no result
code. -/
theorem port_index_past_end_reads_out_of_range :
    (main (okProvider 3 [] 0) 4 ["tool", "DS", "-1", "999", "-", "tune.mid"]).val = .outOfRange
    ∧ (main (okProvider 3 [] 0) 4 ["tool", "DS", "-1", "999", "-", "tune.mid"]).tr.getLast?
        = some (Event.stderr (.deviceNotFound 999))
    ∧ (main (okProvider 0 [] 0) 1 ["tool", "DS", "-1", "0", "-", "tune.mid"]).val = .outOfRange
    ∧ (main (okProvider 0 [] 0) 1 ["tool", "DS", "-1", "0", "-", "tune.mid"]).tr.getLast?
        = some (Event.stderr (.deviceNotFound 0)) := by
  decide

/-! ## C11: what a second enumeration does -/

theorem EnumeratePorts_loop_run (P : Provider) (n : Nat) (h32 : n < 4294967296)
    (hend : (P.EnumPort n).1 ≠ S_OK) (fuel : Nat) :
    ∀ (dwIndex : Nat) (g : Globals), g.pDirectMusic = true → dwIndex ≤ n →
      n < dwIndex + fuel → (∀ j, dwIndex ≤ j → j < n → (P.EnumPort j).1 = S_OK) →
      EnumeratePorts.loop P fuel dwIndex g =
        ⟨.ret (),
          { g with midiDeviceData := g.midiDeviceData ++
              (List.range' dwIndex (n - dwIndex)).map fun j =>
                ({ name := (P.EnumPort j).2.wszDescription } : MidiDeviceData) },
          ((List.range' dwIndex (n - dwIndex)).map fun j => Event.EnumPort j S_OK) ++
            Event.EnumPort n (P.EnumPort n).1 ::
              (if (P.EnumPort n).1 = S_FALSE then []
               else [Event.stderr (.portEnumError (P.EnumPort n).1)])⟩ := by
  induction fuel with
  | zero => intro dwIndex g _ h1 h2; omega
  | succ fuel ih =>
    intro dwIndex g hg h1 h2 hok
    by_cases hd : dwIndex = n
    · subst hd
      obtain ⟨a, b, c, d, e, f, g1, h, i, j, k, l, m, o⟩ := g
      simp only [EnumeratePorts.loop, hg, if_true, hend, if_false]
      split_ifs <;> simp [Res.after]
    · have hlt : dwIndex < n := by omega
      have hk := hok dwIndex (le_refl _) hlt
      have hm : (dwIndex + 1) % 4294967296 = dwIndex + 1 := Nat.mod_eq_of_lt (by omega)
      simp only [EnumeratePorts.loop, hg, if_true, hk, hm]
      rw [ih (dwIndex + 1) _ rfl (by omega) (by omega) (fun j hj1 hj2 => hok j (by omega) hj2)]
      have hlen : n - dwIndex = (n - (dwIndex + 1)) + 1 := by omega
      rw [Res.after_mk, hlen, List.range'_succ]
      simp

/-- One whole port enumeration over a provider with `n` ports. -/
theorem EnumeratePorts_run (P : Provider) (fuel n : Nat) (g : Globals)
    (hdm : g.pDirectMusic = true) (hn : n < fuel) (h32 : n < 4294967296)
    (hok : ∀ j, j < n → (P.EnumPort j).1 = S_OK) (hend : (P.EnumPort n).1 ≠ S_OK) :
    EnumeratePorts P fuel g =
      ⟨.ret (),
        { g with midiDeviceData := g.midiDeviceData ++
            (List.range n).map fun j =>
              ({ name := (P.EnumPort j).2.wszDescription } : MidiDeviceData) },
        ((List.range n).map fun j => Event.EnumPort j S_OK) ++
          Event.EnumPort n (P.EnumPort n).1 ::
            (if (P.EnumPort n).1 = S_FALSE then []
             else [Event.stderr (.portEnumError (P.EnumPort n).1)])⟩ := by
  unfold EnumeratePorts
  rw [EnumeratePorts_loop_run P n h32 hend fuel 0 g hdm (Nat.zero_le _) (by omega)
    (fun j _ hj => hok j hj)]
  simp [List.range_eq_range']

/-- The callback appends at most one entry, whatever the list held before. -/
theorem DSEnumProc_eq (item : DSEnumItem) (g : Globals) :
    DSEnumProc item g =
      (true, { g with dsDeviceData := g.dsDeviceData ++
        (if item.lpGUID ≠ none ∧ item.mallocOk = false then []
         else [({ guid := item.lpGUID, name := item.lpszDesc } : DSDeviceData)]) }) := by
  obtain ⟨a, b, c, d, e, f, g1, h, i, j, k, l, m, o⟩ := g
  by_cases hskip : item.lpGUID ≠ none ∧ item.mallocOk = false
  · simp only [DSEnumProc]
    rw [if_pos hskip, if_pos hskip]
    simp
  · simp only [DSEnumProc]
    rw [if_neg hskip, if_neg hskip]

theorem DirectSoundEnumerate_calls_entries (items : List DSEnumItem) :
    ∀ g : Globals,
      DirectSoundEnumerate.calls DSEnumProc items g =
        { g with dsDeviceData := g.dsDeviceData ++
            items.flatMap fun item =>
              if item.lpGUID ≠ none ∧ item.mallocOk = false then []
              else [({ guid := item.lpGUID, name := item.lpszDesc } : DSDeviceData)] } := by
  induction items with
  | nil => intro g; cases g; simp [DirectSoundEnumerate.calls]
  | cons item rest ih =>
    intro g
    rw [DirectSoundEnumerate.calls, DSEnumProc_eq item g]
    simp only [if_true, ih, List.flatMap_cons, List.append_assoc]

theorem EnumerateDirectSoundDevices_entries (P : Provider) (g : Globals) :
    (EnumerateDirectSoundDevices P g).g =
      { g with dsDeviceData := g.dsDeviceData ++
          P.DirectSoundEnumerate.1.flatMap fun item =>
            if item.lpGUID ≠ none ∧ item.mallocOk = false then []
            else [({ guid := item.lpGUID, name := item.lpszDesc } : DSDeviceData)] } := by
  unfold EnumerateDirectSoundDevices
  simp only [Res.after_g]
  rw [DirectSoundEnumerate_calls_entries]
  split_ifs <;> rfl

/-- C11 (counterexample). With one music port and one audio device, each answering the
same way on every call, a second `EnumeratePorts` leaves two entries in `midiDeviceData`
where the first call left one, and a second `EnumerateDirectSoundDevices` leaves two
entries in `dsDeviceData` where the first call left one. -/
theorem second_enumeration_changes_the_lists :
    (EnumeratePorts (okProvider 1 [⟨some 5, "card", "drv", true⟩] 0) 5
        { Globals.initial with pDirectMusic := true }).g.midiDeviceData = [{ name := "synth" }] ∧
    (EnumeratePorts (okProvider 1 [⟨some 5, "card", "drv", true⟩] 0) 5
        (EnumeratePorts (okProvider 1 [⟨some 5, "card", "drv", true⟩] 0) 5
          { Globals.initial with pDirectMusic := true }).g).g.midiDeviceData =
      [{ name := "synth" }, { name := "synth" }] ∧
    (EnumerateDirectSoundDevices (okProvider 1 [⟨some 5, "card", "drv", true⟩] 0)
        Globals.initial).g.dsDeviceData = [{ guid := some 5, name := "card" }] ∧
    (EnumerateDirectSoundDevices (okProvider 1 [⟨some 5, "card", "drv", true⟩] 0)
        (EnumerateDirectSoundDevices (okProvider 1 [⟨some 5, "card", "drv", true⟩] 0)
          Globals.initial).g).g.dsDeviceData =
      [{ guid := some 5, name := "card" }, { guid := some 5, name := "card" }] := by
  decide

/-- C11 (amended). Each enumeration appends what it discovers to the cached list and
clears nothing. For a provider whose answers do not change, with `n` ports answering
`S_OK` and the ordinal `n` answering anything else (the exhaustion code `S_FALSE` or an
error code): one `EnumeratePorts` returns, asks the ordinals `0 .. n` in order and stops
there, writing a message only when the last answer is not `S_FALSE`; it leaves the list
it found followed by the `n` descriptions in discovery order, also when the last answer
is an error; a second call leaves them appended twice, so the list after the second call
equals the list after the first exactly when no port was discovered. One
`EnumerateDirectSoundDevices` appends one entry per device reported, in the order
reported, leaving out a device with an identifier whose copy could not be allocated; a
second call appends the same entries once more, so the list is unchanged exactly when
there were no entries. -/
theorem enumeration_appends_on_every_call (P : Provider) (fuel n : Nat) (g : Globals)
    (hdm : g.pDirectMusic = true) (hn : n < fuel) (h32 : n < 4294967296)
    (hok : ∀ j, j < n → (P.EnumPort j).1 = S_OK) (hend : (P.EnumPort n).1 ≠ S_OK) :
    let L := (List.range n).map fun j =>
      ({ name := (P.EnumPort j).2.wszDescription } : MidiDeviceData)
    let D := P.DirectSoundEnumerate.1.flatMap fun item =>
      if item.lpGUID ≠ none ∧ item.mallocOk = false then []
      else [({ guid := item.lpGUID, name := item.lpszDesc } : DSDeviceData)]
    let r1 := EnumeratePorts P fuel g
    let r2 := EnumeratePorts P fuel r1.g
    let d1 := EnumerateDirectSoundDevices P g
    let d2 := EnumerateDirectSoundDevices P d1.g
    (r1.val = .ret () ∧
      r1.tr = ((List.range n).map fun j => Event.EnumPort j S_OK) ++
        Event.EnumPort n (P.EnumPort n).1 ::
          (if (P.EnumPort n).1 = S_FALSE then []
           else [Event.stderr (.portEnumError (P.EnumPort n).1)]) ∧
      r1.g.midiDeviceData = g.midiDeviceData ++ L) ∧
    (r2.val = .ret () ∧ r2.tr = r1.tr ∧
      r2.g.midiDeviceData = g.midiDeviceData ++ L ++ L ∧
      (r2.g.midiDeviceData = r1.g.midiDeviceData ↔ n = 0)) ∧
    d1.g.dsDeviceData = g.dsDeviceData ++ D ∧
    d2.g.dsDeviceData = g.dsDeviceData ++ D ++ D ∧
    (d2.g.dsDeviceData = d1.g.dsDeviceData ↔ D = []) := by
  intro L D r1 r2 d1 d2
  have h1 := EnumeratePorts_run P fuel n g hdm hn h32 hok hend
  have h2 := EnumeratePorts_run P fuel n r1.g (by simp only [r1, h1, hdm]) hn h32 hok hend
  have hL : L.length = n := by simp [L]
  have hr1 : r1.g.midiDeviceData = g.midiDeviceData ++ L := by simp only [r1, h1, L]
  have hr2 : r2.g.midiDeviceData = r1.g.midiDeviceData ++ L := by simp only [r2, h2, L]
  have hd1 : d1.g.dsDeviceData = g.dsDeviceData ++ D := by
    simp only [d1, EnumerateDirectSoundDevices_entries P g, D]
  have hd2 : d2.g.dsDeviceData = d1.g.dsDeviceData ++ D := by
    simp only [d2, EnumerateDirectSoundDevices_entries P d1.g, D]
  refine ⟨⟨?_, ?_, hr1⟩, ⟨?_, ?_, ?_, ?_⟩, hd1, ?_, ?_⟩
  · simp only [r1, h1]
  · simp only [r1, h1]
  · simp only [r2, h2]
  · simp only [r2, h2]; simp only [r1, h1]
  · rw [hr2, hr1]
  · rw [hr2, List.append_right_eq_self, ← List.length_eq_zero, hL]
  · rw [hd2, hd1]
  · rw [hd2, List.append_right_eq_self]

/-- Two ports and three audio devices, the second of which is left out because the copy of
its identifier cannot be allocated. -/
theorem enumeration_appends_on_every_call_witness :
    (EnumeratePorts (okProvider 2 [⟨none, "primary", "", true⟩, ⟨some 7, "card", "drv", false⟩,
        ⟨some 9, "usb", "drv", true⟩] 0) 5
        { Globals.initial with pDirectMusic := true }).g.midiDeviceData =
      [{ name := "synth" }, { name := "synth" }] ∧
    (EnumeratePorts (okProvider 2 [⟨none, "primary", "", true⟩, ⟨some 7, "card", "drv", false⟩,
        ⟨some 9, "usb", "drv", true⟩] 0) 5
        (EnumeratePorts (okProvider 2 [⟨none, "primary", "", true⟩, ⟨some 7, "card", "drv", false⟩,
        ⟨some 9, "usb", "drv", true⟩] 0) 5
          { Globals.initial with pDirectMusic := true }).g).g.midiDeviceData =
      [{ name := "synth" }, { name := "synth" }, { name := "synth" }, { name := "synth" }] ∧
    (EnumerateDirectSoundDevices (okProvider 2 [⟨none, "primary", "", true⟩, ⟨some 7, "card", "drv", false⟩,
        ⟨some 9, "usb", "drv", true⟩] 0)
        { Globals.initial with pDirectMusic := true }).g.dsDeviceData =
      [{ guid := none, name := "primary" }, { guid := some 9, name := "usb" }] ∧
    (EnumerateDirectSoundDevices (okProvider 2 [⟨none, "primary", "", true⟩, ⟨some 7, "card", "drv", false⟩,
        ⟨some 9, "usb", "drv", true⟩] 0)
        (EnumerateDirectSoundDevices (okProvider 2 [⟨none, "primary", "", true⟩, ⟨some 7, "card", "drv", false⟩,
        ⟨some 9, "usb", "drv", true⟩] 0)
          { Globals.initial with pDirectMusic := true }).g).g.dsDeviceData =
      [{ guid := none, name := "primary" }, { guid := some 9, name := "usb" },
       { guid := none, name := "primary" }, { guid := some 9, name := "usb" }] := by
  have h := enumeration_appends_on_every_call
    (okProvider 2 [⟨none, "primary", "", true⟩, ⟨some 7, "card", "drv", false⟩,
        ⟨some 9, "usb", "drv", true⟩] 0) 5 2
    { Globals.initial with pDirectMusic := true }
    rfl (by decide) (by decide)
    (by intro j hj; interval_cases j <;> rfl) (by decide)
  exact ⟨h.1.2.2, h.2.1.2.2.1, h.2.2.1, h.2.2.2.1⟩

/-! ## Events of a given kind in a trace -/

theorem Res.traceAll_mk {α : Type} {p : Event → Prop} {v : Outcome α} {g : Globals}
    {tr : List Event} (h : ∀ e ∈ tr, p e) : Res.traceAll p (⟨v, g, tr⟩ : Res α) := h

theorem Res.traceAll_nil {α : Type} {p : Event → Prop} {v : Outcome α} {g : Globals} :
    Res.traceAll p (⟨v, g, []⟩ : Res α) := by
  intro e he
  simp at he

theorem Res.traceAll_ofOutcome {α : Type} {p : Event → Prop} {o : Outcome α} {g : Globals} :
    Res.traceAll p (Res.ofOutcome o g) := by
  intro e he
  simp [Res.ofOutcome] at he

theorem Res.traceAll_after {α : Type} {p : Event → Prop} {es : List Event} {r : Res α}
    (hes : ∀ e ∈ es, p e) (hr : Res.traceAll p r) : Res.traceAll p (Res.after es r) := by
  intro e he
  simp only [Res.after_tr, List.mem_append] at he
  rcases he with he | he
  · exact hes e he
  · exact hr e he

theorem Res.traceAll_ite {α : Type} {p : Event → Prop} {c : Prop} [Decidable c] {x y : Res α}
    (hx : Res.traceAll p x) (hy : Res.traceAll p y) :
    Res.traceAll p (if c then x else y) := by
  split_ifs <;> assumption

/-- One call whose failure ends the function. -/
theorem Res.traceAll_step {α : Type} {p : Event → Prop} {e : Event} {c : Prop} [Decidable c]
    {v : Outcome α} {g : Globals} {rest : Res α} (he : p e) (h : Res.traceAll p rest) :
    Res.traceAll p (Res.after [e] (if c then ⟨v, g, []⟩ else rest)) := by
  apply Res.traceAll_after
  · intro e1 he1
    simp only [List.mem_singleton] at he1
    subst he1
    exact he
  · exact Res.traceAll_ite Res.traceAll_nil h

theorem Res.traceAll_andThen {α β : Type} {p : Event → Prop} {r : Res α}
    {k : α → Globals → Res β} (hr : Res.traceAll p r) (hk : ∀ a g, Res.traceAll p (k a g)) :
    Res.traceAll p (r.andThen k) := by
  unfold Res.andThen
  split
  · exact Res.traceAll_after hr (hk _ _)
  · exact hr
  · exact hr
  · exact hr

theorem Res.traceAll_mono {α : Type} {p q : Event → Prop} {r : Res α}
    (hpq : ∀ e, p e → q e) (h : Res.traceAll p r) : Res.traceAll q r :=
  fun e he => hpq e (h e he)

theorem Event.isEnum_isSetup (e : Event) (h : e.isEnum = true) : e.isSetup = true := by
  cases e <;> simp_all [Event.isEnum, Event.isSetup]

theorem Event.isSetup_not_teardown (e : Event) (h : e.isSetup = true) :
    e.isTeardown = false := by
  cases e <;> simp_all [Event.isSetup, Event.isTeardown]

theorem Event.isSetup_not_collectionLoad (e : Event) (h : e.isSetup = true) :
    e.isCollectionLoad = false := by
  cases e <;> simp_all [Event.isSetup, Event.isCollectionLoad]

theorem EnumeratePorts_isSetup (P : Provider) (fuel : Nat) (g : Globals) :
    Res.traceAll (fun e => e.isSetup = true) (EnumeratePorts P fuel g) :=
  fun e he => Event.isEnum_isSetup e (EnumeratePorts_loop_tr P fuel 0 g e he)

theorem GetPortCapsByIndex_isSetup (P : Provider) (fuel : Nat) (idx : Int) (g : Globals) :
    Res.traceAll (fun e => e.isSetup = true) (GetPortCapsByIndex P fuel idx g) :=
  fun e he => Event.isEnum_isSetup e (GetPortCapsByIndex_loop_tr P idx fuel 0 g e he)

theorem EnumerateDirectSoundDevices_isSetup (P : Provider) (g : Globals) :
    Res.traceAll (fun e => e.isSetup = true) (EnumerateDirectSoundDevices P g) := by
  obtain ⟨L, hL⟩ := EnumerateDirectSoundDevices_eq P
  rw [hL]
  intro e he
  simp only [List.mem_singleton] at he
  subst he
  rfl

theorem CreateMusicPort_isSetup (P : Provider) (caps : DMUS_PORTCAPS) (g : Globals) :
    Res.traceAll (fun e => e.isSetup = true) (CreateMusicPort P caps g) := by
  unfold CreateMusicPort
  simp only []
  apply Res.traceAll_ite
  · refine Res.traceAll_step (by rfl) ?_
    refine Res.traceAll_step (by rfl) ?_
    exact Res.traceAll_nil
  · exact Res.traceAll_nil

theorem Initialise.performance_isSetup (P : Provider) (fuel : Nat) (hWnd : HWND) (midi : Int)
    (g : Globals) :
    Res.traceAll (fun e => e.isSetup = true) (Initialise.performance P fuel hWnd midi g) := by
  unfold Initialise.performance
  simp only []
  refine Res.traceAll_step (by rfl) ?_
  refine Res.traceAll_step (by rfl) ?_
  apply Res.traceAll_ite
  · refine Res.traceAll_step (by rfl) ?_
    exact Res.traceAll_nil
  · refine Res.traceAll_andThen (GetPortCapsByIndex_isSetup _ _ _ _) ?_
    intro caps g1
    refine Res.traceAll_andThen Res.traceAll_ofOutcome ?_
    intro _ g2
    refine Res.traceAll_andThen (CreateMusicPort_isSetup _ _ _) ?_
    intro hr g3
    refine Res.traceAll_ite Res.traceAll_nil ?_
    refine Res.traceAll_step (by rfl) ?_
    refine Res.traceAll_step (by rfl) ?_
    refine Res.traceAll_step (by rfl) ?_
    exact Res.traceAll_nil

/-- The events of `Initialise.sound`: set-up calls, and the loading of the collection
`dls` when `dls` is not `"-"`. -/
theorem Initialise.sound_events (P : Provider) (fuel : Nat) (hWnd : HWND) (ds midi : Int)
    (dls : String) (g : Globals) (p : Event → Prop) (hp : ∀ e, e.isSetup = true → p e)
    (hload : dls ≠ DLS_FILE_NONE →
      ∀ hr, p (Event.LoadObjectFromFile .DirectMusicCollection dls hr)) :
    Res.traceAll p (Initialise.sound P fuel hWnd ds midi dls g) := by
  have hperf : ∀ g0, Res.traceAll p (Initialise.performance P fuel hWnd midi g0) :=
    fun g0 => Res.traceAll_mono hp (Initialise.performance_isSetup P fuel hWnd midi g0)
  unfold Initialise.sound
  refine Res.traceAll_andThen Res.traceAll_ofOutcome ?_
  intro guid g1
  simp only []
  refine Res.traceAll_step (hp _ (by rfl)) ?_
  refine Res.traceAll_andThen (Res.traceAll_ite Res.traceAll_ofOutcome Res.traceAll_nil) ?_
  intro _ g2
  refine Res.traceAll_step (hp _ (by rfl)) ?_
  refine Res.traceAll_step (hp _ (by rfl)) ?_
  refine Res.traceAll_step (hp _ (by rfl)) ?_
  refine Res.traceAll_step (hp _ (by rfl)) ?_
  by_cases hd : dls ≠ DLS_FILE_NONE
  · rw [if_pos hd]
    refine Res.traceAll_step (hload hd _) ?_
    exact hperf _
  · rw [if_neg hd]
    exact hperf _

theorem Initialise_events (P : Provider) (fuel : Nat) (ds midi : Int)
    (dls : String) (g : Globals) (p : Event → Prop) (hp : ∀ e, e.isSetup = true → p e)
    (hload : dls ≠ DLS_FILE_NONE →
      ∀ hr, p (Event.LoadObjectFromFile .DirectMusicCollection dls hr)) :
    Res.traceAll p (Initialise P fuel ds midi dls g) := by
  unfold Initialise
  split
  · apply Res.traceAll_mk
    intro e he
    simp only [List.mem_singleton] at he
    subst he
    exact hp _ rfl
  · simp only []
    refine Res.traceAll_step (hp _ (by rfl)) ?_
    refine Res.traceAll_step (hp _ (by rfl)) ?_
    refine Res.traceAll_step (hp _ (by rfl)) ?_
    refine Res.traceAll_step (hp _ (by rfl)) ?_
    refine Res.traceAll_andThen (Res.traceAll_mono hp (EnumerateDirectSoundDevices_isSetup _ _)) ?_
    intro _ g1
    refine Res.traceAll_andThen (Res.traceAll_mono hp (EnumeratePorts_isSetup _ _ _)) ?_
    intro _ g2
    exact Initialise.sound_events _ _ _ _ _ _ _ p hp hload

theorem ListDevices_isSetup (P : Provider) (fuel : Nat) (g : Globals) :
    Res.traceAll (fun e => e.isSetup = true) (ListDevices P fuel g) := by
  unfold ListDevices
  simp only []
  refine Res.traceAll_step (by rfl) ?_
  refine Res.traceAll_step (by rfl) ?_
  refine Res.traceAll_step (by rfl) ?_
  refine Res.traceAll_andThen (EnumerateDirectSoundDevices_isSetup _ _) ?_
  intro _ g1
  refine Res.traceAll_andThen (EnumeratePorts_isSetup _ _ _) ?_
  intro _ g2
  exact Res.traceAll_nil

theorem Initialise_no_teardown (P : Provider) (fuel : Nat) (ds midi : Int)
    (dls : String) (g : Globals) :
    Res.traceAll (fun e => e.isTeardown = false) (Initialise P fuel ds midi dls g) :=
  Initialise_events P fuel ds midi dls g _ Event.isSetup_not_teardown (fun _ _ => rfl)

theorem PlayMidi_no_teardown (P : Provider) (file : String) (ext : Bool) (g : Globals) :
    Res.traceAll (fun e => e.isTeardown = false) (PlayMidi P file ext g) := by
  unfold PlayMidi
  simp only []
  refine Res.traceAll_ite Res.traceAll_nil ?_
  refine Res.traceAll_ite ?_ Res.traceAll_nil
  refine Res.traceAll_step (by rfl) ?_
  refine Res.traceAll_step (by rfl) ?_
  refine Res.traceAll_ite ?_ Res.traceAll_nil
  refine Res.traceAll_step (by rfl) ?_
  exact Res.traceAll_nil

theorem ListMidiOutDevicesWithWinmm_no_teardown (P : Provider) (g : Globals) :
    Res.traceAll (fun e => e.isTeardown = false) (ListMidiOutDevicesWithWinmm P g) := by
  intro e he
  simp only [ListMidiOutDevicesWithWinmm, List.mem_cons, List.mem_map] at he
  rcases he with rfl | ⟨i, _, rfl⟩ <;> rfl

theorem ListMidiOutDevicesWithWinmm_val (P : Provider) (g : Globals) :
    (ListMidiOutDevicesWithWinmm P g).val = .ret () := rfl

theorem playMidiWithWinmm_no_teardown (P : Provider) (idx : Int) (file : String)
    (g : Globals) :
    Res.traceAll (fun e => e.isTeardown = false) (playMidiWithWinmm P idx file g) := by
  have hmsg : ∀ (v : Outcome Int) (g0 : Globals),
      Res.traceAll (fun e => e.isTeardown = false)
        (⟨v, g0, [Event.stderr .mciError]⟩ : Res Int) := by
    intro v g0 e he
    simp only [List.mem_singleton] at he
    subst he
    rfl
  unfold playMidiWithWinmm
  split
  · intro e he
    simp only [List.mem_singleton] at he
    subst he
    rfl
  · simp only []
    refine Res.traceAll_after (by simp [Event.isTeardown]) ?_
    refine Res.traceAll_ite (hmsg _ _) ?_
    refine Res.traceAll_after (by simp [Event.isTeardown]) ?_
    refine Res.traceAll_ite (hmsg _ _) ?_
    refine Res.traceAll_after (by simp [Event.isTeardown]) ?_
    refine Res.traceAll_ite (hmsg _ _) ?_
    refine Res.traceAll_after (by simp [Event.isTeardown]) ?_
    refine Res.traceAll_ite (hmsg _ _) ?_
    exact Res.traceAll_nil

/-! ## C12: which runs of `main` execute the teardown -/

theorem Res.endsWithTeardown_exit (g : Globals) (c : Int) (hc : c = 0 ∨ c = 1 ∨ c = 2) :
    Res.endsWithTeardown ((ShutdownDirectMusic g).andThen fun _ g => ⟨.ret c, g, []⟩) := by
  rw [Res.andThen_ret _ (ShutdownDirectMusic_val g)]
  intro code hcode
  simp only [Res.after_val, Outcome.ret.injEq] at hcode
  subst hcode
  exact ⟨hc, [], g, by simp, by simp, rfl⟩

theorem Res.endsWithTeardown_after {es : List Event} {r : Res Int}
    (hes : ∀ e ∈ es, e.isTeardown = false) (hr : r.endsWithTeardown) :
    (Res.after es r).endsWithTeardown := by
  intro code hcode
  obtain ⟨hc, pre, g, hpre, htr, hg⟩ := hr code hcode
  refine ⟨hc, es ++ pre, g, ?_, ?_, hg⟩
  · intro e he
    rcases List.mem_append.mp he with he | he
    · exact hes e he
    · exact hpre e he
  · simp only [Res.after_tr, htr, List.append_assoc]

theorem Res.endsWithTeardown_andThen {α : Type} {r : Res α} {k : α → Globals → Res Int}
    (hr : Res.traceAll (fun e => e.isTeardown = false) r)
    (hk : ∀ a g, (k a g).endsWithTeardown) : (r.andThen k).endsWithTeardown := by
  unfold Res.andThen
  split
  · exact Res.endsWithTeardown_after hr (hk _ _)
  · intro code hcode
    simp at hcode
  · intro code hcode
    simp at hcode
  · intro code hcode
    simp at hcode

theorem Res.endsWithTeardown_ite {c : Prop} [Decidable c] {x y : Res Int}
    (hx : x.endsWithTeardown) (hy : y.endsWithTeardown) :
    (if c then x else y).endsWithTeardown := by
  split_ifs <;> assumption

theorem main_listing_endsWithTeardown (P : Provider) (fuel : Nat) (argv : List String)
    (h : argv.length ≤ 1) : (main P fuel argv).endsWithTeardown := by
  unfold main
  simp only [h, if_true]
  refine Res.endsWithTeardown_andThen (ListMidiOutDevicesWithWinmm_no_teardown _ _) ?_
  intro _ g1
  refine Res.endsWithTeardown_andThen
    (Res.traceAll_mono Event.isSetup_not_teardown (ListDevices_isSetup _ _ _)) ?_
  intro hr g2
  apply Res.endsWithTeardown_ite
  · refine Res.endsWithTeardown_after (by simp [Event.isTeardown]) ?_
    exact Res.endsWithTeardown_exit _ 1 (by decide)
  · exact Res.endsWithTeardown_exit _ 0 (by decide)

theorem main_DS_endsWithTeardown (P : Provider) (fuel : Nat) (argv : List String)
    (hmode : argv.getD 1 "" = "DS") (h : 5 < argv.length) :
    (main P fuel argv).endsWithTeardown := by
  have h1 : ¬ argv.length ≤ 1 := by omega
  have h2 : ¬ argv.length ≤ 1 + 4 := by omega
  unfold main
  simp only [h1, h2, hmode, if_true, if_false]
  refine Res.endsWithTeardown_andThen (Initialise_no_teardown _ _ _ _ _ _) ?_
  intro hr g1
  apply Res.endsWithTeardown_ite
  · refine Res.endsWithTeardown_after (by simp [Event.isTeardown]) ?_
    exact Res.endsWithTeardown_exit _ 1 (by decide)
  · refine Res.endsWithTeardown_andThen (PlayMidi_no_teardown _ _ _ _) ?_
    intro hr2 g2
    apply Res.endsWithTeardown_ite
    · refine Res.endsWithTeardown_after (by simp [Event.isTeardown]) ?_
      exact Res.endsWithTeardown_exit _ 2 (by decide)
    · refine Res.endsWithTeardown_after (by simp [Event.isTeardown]) ?_
      exact Res.endsWithTeardown_exit _ 0 (by decide)

theorem main_other_no_teardown (P : Provider) (fuel : Nat) (argv : List String)
    (h : ¬ (argv.length ≤ 1 ∨ (argv.getD 1 "" = "DS" ∧ 5 < argv.length))) :
    Res.traceAll (fun e => e.isTeardown = false) (main P fuel argv) := by
  have h1 : ¬ argv.length ≤ 1 := fun h0 => h (Or.inl h0)
  have hmsg : ∀ (m : Msg) (g0 : Globals),
      Res.traceAll (fun e => e.isTeardown = false)
        (⟨.ret 1, g0, [Event.stderr m]⟩ : Res Int) := by
    intro m g0 e he
    simp only [List.mem_singleton] at he
    subst he
    rfl
  unfold main
  simp only [h1, if_false]
  by_cases hds : argv.getD 1 "" = "DS"
  · have h2 : argv.length ≤ 1 + 4 := by
      by_contra h3
      exact h (Or.inr ⟨hds, by omega⟩)
    simp only [hds, h2, if_true]
    exact hmsg _ _
  · simp only [hds, if_false]
    refine Res.traceAll_ite ?_ (hmsg _ _)
    refine Res.traceAll_ite (hmsg _ _) ?_
    refine Res.traceAll_andThen (ListMidiOutDevicesWithWinmm_no_teardown _ _) ?_
    intro _ g1
    refine Res.traceAll_andThen (playMidiWithWinmm_no_teardown _ _ _ _) ?_
    intro err g2
    exact Res.traceAll_ite Res.traceAll_nil Res.traceAll_nil

/-- C12 (counterexample). Four runs of `main` end with exit code 1 and no call of
`ShutdownDirectMusic` at all: `DS` with too few arguments, `MM` with too few arguments, an
unknown work mode, and `MM` with a failing MCI command. -/
theorem error_exits_without_teardown :
    ((main (okProvider 1 [] 0) 3 ["tool", "DS", "-1", "-1", "-"]).val = .ret 1 ∧
      (main (okProvider 1 [] 0) 3 ["tool", "DS", "-1", "-1", "-"]).tr =
        [Event.stderr .argumentsNotSet]) ∧
    ((main (okProvider 1 [] 0) 3 ["tool", "MM", "0"]).val = .ret 1 ∧
      (main (okProvider 1 [] 0) 3 ["tool", "MM", "0"]).tr =
        [Event.stderr .argumentsNotSet]) ∧
    ((main (okProvider 1 [] 0) 3 ["tool", "XX"]).val = .ret 1 ∧
      (main (okProvider 1 [] 0) 3 ["tool", "XX"]).tr =
        [Event.stderr (.unknownWorkMode "XX")]) ∧
    ((main { okProvider 1 [] 0 with mciSendString := fun _ => 263 } 3
        ["tool", "MM", "0", "a.mid"]).val = .ret 1 ∧
      (main { okProvider 1 [] 0 with mciSendString := fun _ => 263 } 3
        ["tool", "MM", "0", "a.mid"]).tr =
        [Event.midiOutGetNumDevs,
         Event.mciSendString "open \"a.mid\" type sequencer alias music" none 263,
         Event.stderr .mciError]) := by
  decide

/-- C12 (amended). The teardown is executed on the runs of `main` that list the devices
(no argument) and on the runs of the `DS` mode with its four arguments present: each such
run that returns an exit code returns 0, 1 or 2, and its trace is a part without any
teardown call followed by one whole `ShutdownDirectMusic`, whose resulting globals are
those of the run. On every
other command line (`DS` with too few arguments, the `MM` mode with or without its
arguments, whatever its MCI commands return, and an unknown work mode) `main` issues no
teardown call at all. -/
theorem main_teardown_by_mode (P : Provider) (fuel : Nat) (argv : List String) :
    ((argv.length ≤ 1 ∨ (argv.getD 1 "" = "DS" ∧ 5 < argv.length)) →
      (main P fuel argv).endsWithTeardown) ∧
    (¬ (argv.length ≤ 1 ∨ (argv.getD 1 "" = "DS" ∧ 5 < argv.length)) →
      ∀ e ∈ (main P fuel argv).tr, e.isTeardown = false) := by
  constructor
  · rintro (h | ⟨hm, h⟩)
    · exact main_listing_endsWithTeardown P fuel argv h
    · exact main_DS_endsWithTeardown P fuel argv hm h
  · exact main_other_no_teardown P fuel argv

theorem main_teardown_by_mode_witness :
    (main { okProvider 1 [] 0 with CoInitializeEx := E_FAIL } 3 ["tool"]).endsWithTeardown ∧
    (main { okProvider 1 [] 0 with CoInitializeEx := E_FAIL } 3 ["tool"]).val = .ret 1 ∧
    (main { okProvider 1 [] 0 with CoInitializeEx := E_FAIL } 3 ["tool"]).tr =
      [Event.midiOutGetNumDevs, Event.CoInitializeEx E_FAIL,
       Event.stderr (.listDevicesFailed E_FAIL), Event.CoUninitialize] ∧
    (main { okProvider 1 [] 0 with PlaySegment := E_FAIL } 3
        ["tool", "DS", "-1", "-1", "-", "a.mid"]).endsWithTeardown ∧
    (main { okProvider 1 [] 0 with PlaySegment := E_FAIL } 3
        ["tool", "DS", "-1", "-1", "-", "a.mid"]).val = .ret 2 ∧
    (∀ e ∈ (main (okProvider 1 [] 0) 3 ["tool", "MM", "0", "a.mid"]).tr,
      e.isTeardown = false) :=
  ⟨(main_teardown_by_mode _ 3 ["tool"]).1 (Or.inl (by decide)), by decide, by decide,
    (main_teardown_by_mode _ 3 ["tool", "DS", "-1", "-1", "-", "a.mid"]).1
      (Or.inr ⟨by decide, by decide⟩), by decide,
    (main_teardown_by_mode _ 3 ["tool", "MM", "0", "a.mid"]).2 (by decide)⟩

/-! ## C13: the exit code of the listing mode -/

theorem Res.andThen_val_ret {α β : Type} {r : Res α} {k : α → Globals → Res β} {b : β}
    (h : (r.andThen k).val = .ret b) : ∃ a, r.val = .ret a ∧ (k a r.g).val = .ret b := by
  unfold Res.andThen at h
  split at h
  · next a ha => exact ⟨a, ha, by simpa using h⟩
  · simp at h
  · simp at h
  · simp at h

/-- The value of `ListDevices` when COM or one of the two objects fails. -/
theorem ListDevices_fails (P : Provider) (fuel : Nat) (g : Globals)
    (h : FAILED P.CoInitializeEx = true ∨
      FAILED (P.CoCreateInstance .DirectMusicPerformance) = true ∨
      FAILED (P.CoCreateInstance .DirectMusic) = true) :
    ∃ hr, FAILED hr = true ∧ (ListDevices P fuel g).val = .ret hr := by
  unfold ListDevices
  by_cases h1 : FAILED P.CoInitializeEx = true
  · exact ⟨_, h1, by simp [h1]⟩
  · by_cases h2 : FAILED (P.CoCreateInstance .DirectMusicPerformance) = true
    · exact ⟨_, h2, by simp [h1, h2]⟩
    · have h3 : FAILED (P.CoCreateInstance .DirectMusic) = true := by tauto
      exact ⟨_, h3, by simp [h1, h2, h3]⟩

/-- The value `ListDevices` returns, when it returns one, is a failure code only if COM or
one of the two objects failed. -/
theorem ListDevices_val_ret (P : Provider) (fuel : Nat) (g : Globals) (hr : HRESULT)
    (h : (ListDevices P fuel g).val = .ret hr)
    (h1 : FAILED P.CoInitializeEx = false)
    (h2 : FAILED (P.CoCreateInstance .DirectMusicPerformance) = false)
    (h3 : FAILED (P.CoCreateInstance .DirectMusic) = false) : hr = S_OK := by
  unfold ListDevices at h
  simp only [h1, h2, h3, Bool.false_eq_true, if_false, Res.after_val] at h
  obtain ⟨_, _, h⟩ := Res.andThen_val_ret h
  obtain ⟨_, _, h⟩ := Res.andThen_val_ret h
  simpa using h.symm

theorem ListDevices_run (P : Provider) (fuel n : Nat) (g : Globals)
    (h1 : FAILED P.CoInitializeEx = false)
    (h2 : FAILED (P.CoCreateInstance .DirectMusicPerformance) = false)
    (h3 : FAILED (P.CoCreateInstance .DirectMusic) = false)
    (hn : n < fuel) (h32 : n < 4294967296)
    (hok : ∀ j, j < n → (P.EnumPort j).1 = S_OK) (hend : (P.EnumPort n).1 ≠ S_OK) :
    (ListDevices P fuel g).val = .ret S_OK ∧
    (ListDevices P fuel g).tr =
      [Event.CoInitializeEx P.CoInitializeEx,
       Event.CoCreateInstance .DirectMusicPerformance
         (P.CoCreateInstance .DirectMusicPerformance),
       Event.CoCreateInstance .DirectMusic (P.CoCreateInstance .DirectMusic),
       Event.DirectSoundEnumerate P.DirectSoundEnumerate.2] ++
      (((List.range n).map fun j => Event.EnumPort j S_OK) ++
        Event.EnumPort n (P.EnumPort n).1 ::
          (if (P.EnumPort n).1 = S_FALSE then []
           else [Event.stderr (.portEnumError (P.EnumPort n).1)])) := by
  obtain ⟨L1, hL1⟩ := EnumerateDirectSoundDevices_eq P
  unfold ListDevices
  simp only [h1, h2, h3, Bool.false_eq_true, if_false, Bool.not_false, hL1]
  rw [Res.andThen_ret _ rfl]
  simp only []
  rw [EnumeratePorts_run P fuel n _ rfl hn h32 hok hend, Res.andThen_ret _ rfl]
  simp [Res.after]

theorem main_listing_eq (P : Provider) (fuel : Nat) (argv : List String)
    (h : argv.length ≤ 1) :
    main P fuel argv =
      (ListMidiOutDevicesWithWinmm P Globals.initial).andThen fun _ g =>
        (ListDevices P fuel g).andThen fun hr g =>
          if FAILED hr then
            Res.after [Event.stderr (.listDevicesFailed hr)] <|
              (ShutdownDirectMusic g).andThen fun _ g => ⟨.ret 1, g, []⟩
          else
            (ShutdownDirectMusic g).andThen fun _ g => ⟨.ret 0, g, []⟩ := by
  unfold main
  simp only [h, if_true]

theorem main_listing_val (P : Provider) (fuel : Nat) (argv : List String)
    (h : argv.length ≤ 1) (hr : HRESULT)
    (hl : (ListDevices P fuel (ListMidiOutDevicesWithWinmm P Globals.initial).g).val = .ret hr) :
    (main P fuel argv).val = .ret (if FAILED hr then 1 else 0) := by
  rw [main_listing_eq P fuel argv h, Res.andThen_ret _ (ListMidiOutDevicesWithWinmm_val _ _),
    Res.after_val, Res.andThen_ret _ hl, Res.after_val]
  split_ifs
  · rw [Res.after_val, Res.andThen_ret _ (ShutdownDirectMusic_val _)]
    rfl
  · rw [Res.andThen_ret _ (ShutdownDirectMusic_val _)]
    rfl

theorem main_listing_val_ret (P : Provider) (fuel : Nat) (argv : List String)
    (h : argv.length ≤ 1) (code : Int) (hc : (main P fuel argv).val = .ret code) :
    ∃ hr, (ListDevices P fuel (ListMidiOutDevicesWithWinmm P Globals.initial).g).val = .ret hr
      ∧ code = if FAILED hr then 1 else 0 := by
  have hc0 := hc
  rw [main_listing_eq P fuel argv h] at hc
  obtain ⟨_, _, hc⟩ := Res.andThen_val_ret hc
  obtain ⟨hr, hl, _⟩ := Res.andThen_val_ret hc
  refine ⟨hr, hl, ?_⟩
  rw [main_listing_val P fuel argv h hr hl] at hc0
  simpa using hc0.symm

/-- C13 (counterexample). On a machine where every call succeeds except the enumeration of
the first port, which answers the error code `E_FAIL`, `main` without argument writes the
enumeration error and exits with code 0. -/
theorem port_enumeration_error_exits_zero :
    (main { okProvider 1 [] 0 with EnumPort := fun _ => (E_FAIL, okCaps) } 3 ["tool"]).val =
      .ret 0 ∧
    (main { okProvider 1 [] 0 with EnumPort := fun _ => (E_FAIL, okCaps) } 3 ["tool"]).tr =
      [Event.midiOutGetNumDevs, Event.CoInitializeEx S_OK,
       Event.CoCreateInstance .DirectMusicPerformance S_OK,
       Event.CoCreateInstance .DirectMusic S_OK, Event.DirectSoundEnumerate S_OK,
       Event.EnumPort 0 E_FAIL, Event.stderr (.portEnumError E_FAIL),
       Event.Release .pDirectMusic, Event.CloseDown, Event.Release .pPerformance,
       Event.CoUninitialize] := by
  decide

/-- C13 (amended). With no argument, `main` exits with code 1 when `CoInitializeEx`, the
creation of the performance or the creation of the DirectMusic object fails in
`ListDevices`, and it exits with code 0 only when none of the three failed. When none of
the three failed, `DirectSoundEnumerate` did not fail and the port enumeration ends at an
ordinal `n` within the fuel, `main` exits with code 0 whatever ended the port enumeration:
when the answer at `n` is an error code and not the exhaustion code `S_FALSE`, the error
is written and the exit code is still 0. -/
theorem main_listing_exit_code (P : Provider) (fuel : Nat) (argv : List String)
    (hargc : argv.length ≤ 1) :
    ((FAILED P.CoInitializeEx = true ∨
        FAILED (P.CoCreateInstance .DirectMusicPerformance) = true ∨
        FAILED (P.CoCreateInstance .DirectMusic) = true) →
      (main P fuel argv).val = .ret 1) ∧
    ((main P fuel argv).val = .ret 0 →
      FAILED P.CoInitializeEx = false ∧
      FAILED (P.CoCreateInstance .DirectMusicPerformance) = false ∧
      FAILED (P.CoCreateInstance .DirectMusic) = false) ∧
    (∀ n, FAILED P.CoInitializeEx = false →
      FAILED (P.CoCreateInstance .DirectMusicPerformance) = false →
      FAILED (P.CoCreateInstance .DirectMusic) = false →
      FAILED P.DirectSoundEnumerate.2 = false →
      n < fuel → n < 4294967296 → (∀ j, j < n → (P.EnumPort j).1 = S_OK) →
      (P.EnumPort n).1 ≠ S_OK →
      (main P fuel argv).val = .ret 0 ∧
      ((P.EnumPort n).1 ≠ S_FALSE →
        Event.stderr (.portEnumError (P.EnumPort n).1) ∈ (main P fuel argv).tr)) := by
  refine ⟨?_, ?_, ?_⟩
  · intro hf
    obtain ⟨hr, hfail, hval⟩ := ListDevices_fails P fuel _ hf
    rw [main_listing_val P fuel argv hargc hr hval, if_pos hfail]
  · intro h0
    obtain ⟨hr, hl, hcode⟩ := main_listing_val_ret P fuel argv hargc 0 h0
    have hfail : FAILED hr = false := by
      by_contra hne
      rw [if_pos (by simpa using hne)] at hcode
      exact absurd hcode (by decide)
    have hcontra : ¬ (FAILED P.CoInitializeEx = true ∨
        FAILED (P.CoCreateInstance .DirectMusicPerformance) = true ∨
        FAILED (P.CoCreateInstance .DirectMusic) = true) := by
      intro hf
      obtain ⟨hr1, hfail1, hval1⟩ := ListDevices_fails P fuel
        (ListMidiOutDevicesWithWinmm P Globals.initial).g hf
      rw [hl] at hval1
      simp only [Outcome.ret.injEq] at hval1
      subst hval1
      rw [hfail] at hfail1
      exact absurd hfail1 (by decide)
    refine ⟨?_, ?_, ?_⟩
    · by_contra hx
      exact hcontra (Or.inl (by simpa using hx))
    · by_contra hx
      exact hcontra (Or.inr (Or.inl (by simpa using hx)))
    · by_contra hx
      exact hcontra (Or.inr (Or.inr (by simpa using hx)))
  · intro n h1 h2 h3 _ hn h32 hok hend
    obtain ⟨hval, htr⟩ := ListDevices_run P fuel n
      (ListMidiOutDevicesWithWinmm P Globals.initial).g h1 h2 h3 hn h32 hok hend
    refine ⟨?_, ?_⟩
    · rw [main_listing_val P fuel argv hargc S_OK hval]
      rfl
    · intro hne
      rw [main_listing_eq P fuel argv hargc,
        Res.andThen_ret _ (ListMidiOutDevicesWithWinmm_val _ _), Res.andThen_ret _ hval]
      simp [htr, hne]

theorem main_listing_exit_code_witness :
    (main { okProvider 1 [] 0 with CoCreateInstance := fun _ => E_FAIL } 3 ["tool"]).val =
      .ret 1 ∧
    ((main { okProvider 2 [] 0 with
          EnumPort := fun i => if i < 2 then (S_OK, okCaps) else (E_FAIL, okCaps) } 3 []).val =
        .ret 0 ∧
      Event.stderr (.portEnumError E_FAIL) ∈
        (main { okProvider 2 [] 0 with
          EnumPort := fun i => if i < 2 then (S_OK, okCaps) else (E_FAIL, okCaps) } 3 []).tr) :=
  ⟨(main_listing_exit_code _ 3 ["tool"] (by decide)).1 (Or.inr (Or.inl (by decide))),
    (main_listing_exit_code
        { okProvider 2 [] 0 with
          EnumPort := fun i => if i < 2 then (S_OK, okCaps) else (E_FAIL, okCaps) } 3 []
        (by decide)).2.2 2
      (by decide) (by decide) (by decide) (by decide) (by decide) (by decide)
      (by intro j hj; interval_cases j <;> rfl) (by decide) |>.imp_right
      fun h => h (by decide)⟩

/-- The result of `EnumerateDirectSoundDevices` is dropped by `ListDevices` (line 466):
when `DirectSoundEnumerate` fails and every other call succeeds, `main` without argument
exits with code 0. -/
theorem listing_drops_audio_enumeration_result :
    (EnumerateDirectSoundDevices { okProvider 1 [] 0 with DirectSoundEnumerate := ([], E_FAIL) }
        Globals.initial).val = .ret E_FAIL ∧
    (main { okProvider 1 [] 0 with DirectSoundEnumerate := ([], E_FAIL) } 3 ["tool"]).val =
      .ret 0 := by
  decide

/-! ## C14: the loading of the DLS collection -/

theorem Res.after_after {α : Type} (es fs : List Event) (r : Res α) :
    Res.after es (Res.after fs r) = Res.after (es ++ fs) r := by
  simp [Res.after]

theorem Res.andThen_g_pDLSCollection {α β : Type} (r : Res α) (k : α → Globals → Res β)
    (b : Bool) (hr : r.g.pDLSCollection = b)
    (hk : ∀ a g, g.pDLSCollection = b → (k a g).g.pDLSCollection = b) :
    (r.andThen k).g.pDLSCollection = b := by
  unfold Res.andThen
  split
  · simpa using hk _ _ hr
  · exact hr
  · exact hr
  · exact hr

theorem Res.ite_g_pDLSCollection {α : Type} {c : Prop} [Decidable c] {x y : Res α} {b : Bool}
    (hx : x.g.pDLSCollection = b) (hy : y.g.pDLSCollection = b) :
    (if c then x else y).g.pDLSCollection = b := by
  split_ifs <;> assumption

theorem CreateMusicPort_pDLSCollection (P : Provider) (caps : DMUS_PORTCAPS) (g : Globals) :
    (CreateMusicPort P caps g).g.pDLSCollection = g.pDLSCollection := by
  unfold CreateMusicPort
  simp only []
  split_ifs <;> rfl

theorem Initialise.performance_pDLSCollection (P : Provider) (fuel : Nat) (hWnd : HWND)
    (midi : Int) (g : Globals) :
    (Initialise.performance P fuel hWnd midi g).g.pDLSCollection = g.pDLSCollection := by
  unfold Initialise.performance
  simp only [Res.after_g]
  repeat first
    | rfl
    | apply Res.ite_g_pDLSCollection
    | rw [Res.after_g]
  apply Res.andThen_g_pDLSCollection
  · rw [GetPortCapsByIndex, GetPortCapsByIndex_loop_g]
  · intro caps g1 h1
    apply Res.andThen_g_pDLSCollection
    · exact h1
    · intro _ g2 h2
      apply Res.andThen_g_pDLSCollection
      · rw [CreateMusicPort_pDLSCollection, h2]
      · intro hr g3 h3
        repeat first
          | exact h3
          | apply Res.ite_g_pDLSCollection
          | rw [Res.after_g]

theorem Initialise.sound_pDLSCollection (P : Provider) (fuel : Nat) (hWnd : HWND)
    (ds midi : Int) (g : Globals) :
    (Initialise.sound P fuel hWnd ds midi DLS_FILE_NONE g).g.pDLSCollection =
      g.pDLSCollection := by
  unfold Initialise.sound
  apply Res.andThen_g_pDLSCollection
  · rfl
  · intro guid g1 h1
    simp only [Res.after_g, ne_eq, not_true_eq_false, if_false]
    apply Res.ite_g_pDLSCollection
    · exact h1
    · apply Res.andThen_g_pDLSCollection
      · apply Res.ite_g_pDLSCollection <;> exact h1
      · intro _ g2 h2
        repeat first
          | exact h2
          | rw [Initialise.performance_pDLSCollection]
          | rw [Res.after_g]
          | apply Res.ite_g_pDLSCollection

theorem Initialise_pDLSCollection (P : Provider) (fuel : Nat) (ds midi : Int) (g : Globals) :
    (Initialise P fuel ds midi DLS_FILE_NONE g).g.pDLSCollection = g.pDLSCollection := by
  unfold Initialise
  split
  · rfl
  · simp only [Res.after_g]
    repeat first
      | rfl
      | apply Res.ite_g_pDLSCollection
      | rw [Res.after_g]
    apply Res.andThen_g_pDLSCollection
    · obtain ⟨L, hL⟩ := EnumerateDirectSoundDevices_eq P
      rw [hL]
    · intro _ g1 h1
      apply Res.andThen_g_pDLSCollection
      · rw [EnumeratePorts, EnumeratePorts_loop_frame]
        exact h1
      · intro _ g2 h2
        rw [Initialise.sound_pDLSCollection]
        exact h2

/-- The calls of `Initialise.sound` up to the DLS step, when each of them succeeds. -/
theorem Initialise.sound_reaches_dls (P : Provider) (fuel : Nat) (hWnd : HWND) (ds midi : Int)
    (dls : String) (g : Globals)
    (hds : ds < 0 ∨ ds < (g.dsDeviceData.length : Int))
    (hdsc : ∀ guid, GetDeviceGuidByIndex ds g = .ret guid →
      FAILED (P.DirectSoundCreate8 guid) = false)
    (hscl : FAILED P.SetCooperativeLevel = false)
    (hcsb : FAILED P.CreateSoundBuffer = false)
    (hsf : FAILED P.SetFormat = false)
    (hsds : FAILED P.SetDirectSound = false) :
    ∃ pre : List Event,
      (∀ e ∈ pre, e.isSetup = true ∧ e.isPerformanceCall = false ∧
        ∀ i hr, e ≠ Event.QueryInterface i hr) ∧
      Initialise.sound P fuel hWnd ds midi dls g =
        Res.after pre
          (if dls ≠ DLS_FILE_NONE then
            Res.after [Event.LoadObjectFromFile .DirectMusicCollection dls
                (P.LoadObjectFromFile .DirectMusicCollection dls)]
              (if FAILED (P.LoadObjectFromFile .DirectMusicCollection dls) then
                ⟨.ret (P.LoadObjectFromFile .DirectMusicCollection dls),
                  { g with
                    pDirectSound := true, pDSBuffer := true,
                    pDLSCollection := !FAILED (P.LoadObjectFromFile .DirectMusicCollection dls) },
                  []⟩
              else Initialise.performance P fuel hWnd midi
                { g with
                  pDirectSound := true, pDSBuffer := true,
                  pDLSCollection := !FAILED (P.LoadObjectFromFile .DirectMusicCollection dls) })
          else Initialise.performance P fuel hWnd midi
            { g with pDirectSound := true, pDSBuffer := true }) := by
  obtain ⟨guid, hguid⟩ := GetDeviceGuidByIndex_ret g ds hds
  have hread : ∀ g0 : Globals, (if ds ≥ 0 then
        (⟨(vectorAt g.dsDeviceData ds).map fun _ => (), g0, []⟩ : Res Unit)
      else ⟨.ret (), g0, []⟩) = ⟨.ret (), g0, []⟩ := by
    intro g0
    split_ifs with h0
    · obtain ⟨a, ha⟩ := vectorAt_inrange g.dsDeviceData ds h0 (by omega)
      simp [ha, Outcome.map, Res.ofOutcome]
    · rfl
  refine ⟨[Event.DirectSoundCreate8 guid (P.DirectSoundCreate8 guid),
    Event.SetCooperativeLevel hWnd DSSCL_PRIORITY P.SetCooperativeLevel,
    Event.CreateSoundBuffer (DSBCAPS_PRIMARYBUFFER ||| DSBCAPS_CTRLVOLUME ||| DSBCAPS_CTRLPAN)
      P.CreateSoundBuffer,
    Event.SetFormat ⟨WAVE_FORMAT_PCM, 2, 44100, 44100 * (2 * 16 / 8), 2 * 16 / 8, 16, 0⟩
      P.SetFormat,
    Event.SetDirectSound hWnd P.SetDirectSound], ?_, ?_⟩
  · intro e he
    simp only [List.mem_cons, List.mem_singleton, List.not_mem_nil, or_false] at he
    rcases he with rfl | rfl | rfl | rfl | rfl <;> exact ⟨rfl, rfl, by simp⟩
  · have hdsc1 := hdsc guid hguid
    unfold Initialise.sound
    rw [hguid, Res.andThen_ret _ rfl]
    simp only [Res.ofOutcome, hdsc1, Bool.false_eq_true, if_false, Bool.not_false]
    rw [hread, Res.andThen_ret _ rfl]
    simp only [hscl, hcsb, hsf, hsds, Bool.false_eq_true, if_false, Bool.not_false,
      Res.after_after, List.nil_append, List.cons_append]

theorem filter_eq_nil_of_all {α : Type} (q : α → Bool) (l : List α)
    (h : ∀ e ∈ l, q e = false) : l.filter q = [] := by
  rw [List.filter_eq_nil_iff]
  intro e he
  simp [h e he]

/-- The trace of `Initialise.sound` around the loading of the collection, when the calls
before it succeed. -/
theorem Initialise.sound_dls_step (P : Provider) (fuel : Nat) (hWnd : HWND) (ds midi : Int)
    (dls : String) (g : Globals)
    (hds : ds < 0 ∨ ds < (g.dsDeviceData.length : Int))
    (hdsc : ∀ guid, GetDeviceGuidByIndex ds g = .ret guid →
      FAILED (P.DirectSoundCreate8 guid) = false)
    (hscl : FAILED P.SetCooperativeLevel = false)
    (hcsb : FAILED P.CreateSoundBuffer = false)
    (hsf : FAILED P.SetFormat = false)
    (hsds : FAILED P.SetDirectSound = false)
    (hd : dls ≠ DLS_FILE_NONE) :
    ∃ pre rest : List Event,
      (∀ e ∈ pre, e.isSetup = true ∧ e.isPerformanceCall = false ∧
        ∀ i hr, e ≠ Event.QueryInterface i hr) ∧
      (∀ e ∈ rest, e.isSetup = true) ∧
      (Initialise.sound P fuel hWnd ds midi dls g).tr =
        pre ++ Event.LoadObjectFromFile .DirectMusicCollection dls
          (P.LoadObjectFromFile .DirectMusicCollection dls) :: rest ∧
      (FAILED (P.LoadObjectFromFile .DirectMusicCollection dls) = true →
        rest = [] ∧
        (Initialise.sound P fuel hWnd ds midi dls g).val =
          .ret (P.LoadObjectFromFile .DirectMusicCollection dls) ∧
        (Initialise.sound P fuel hWnd ds midi dls g).g.pDLSCollection = false) := by
  obtain ⟨pre, hpre, heq⟩ :=
    Initialise.sound_reaches_dls P fuel hWnd ds midi dls g hds hdsc hscl hcsb hsf hsds
  rw [heq, if_pos hd]
  by_cases hf : FAILED (P.LoadObjectFromFile .DirectMusicCollection dls) = true
  · refine ⟨pre, [], hpre, by simp, ?_, ?_⟩
    · simp [hf]
    · intro _
      simp [hf]
  · refine ⟨pre, (Initialise.performance P fuel hWnd midi
        { g with
          pDirectSound := true, pDSBuffer := true,
          pDLSCollection := !FAILED (P.LoadObjectFromFile .DirectMusicCollection dls) }).tr,
      hpre, Initialise.performance_isSetup P fuel hWnd midi _, ?_, ?_⟩
    · rw [if_neg hf]
      simp
    · intro h
      exact absurd h hf

/-- C14 (counterexample). The path `gm.dls` is not the sentinel, yet `LoadObjectFromFile`
is not called: `DirectSoundCreate8` fails and `Initialise` returns before the DLS step. -/
theorem dls_path_given_but_never_loaded :
    (Initialise { okProvider 1 [] 0 with DirectSoundCreate8 := fun _ => E_FAIL } 3 (-1) (-1)
        "gm.dls" Globals.initial).val = .ret E_FAIL ∧
    (Initialise { okProvider 1 [] 0 with DirectSoundCreate8 := fun _ => E_FAIL } 3 (-1) (-1)
        "gm.dls" Globals.initial).tr.filter Event.isCollectionLoad = [] := by
  decide

/-- C14 (amended). For the path `"-"`, on every provider and state, `Initialise` issues no
`LoadObjectFromFile` call for a collection and leaves `pDLSCollection` as it was. For
every other path `p`, the empty string included: a collection is never loaded from another
path than `p`; and when the console window exists, COM and the three objects are created,
the port enumeration ends within the fuel, the audio index is negative or addresses the
list of enumerated audio devices, and `DirectSoundCreate8` (on the identifier
`GetDeviceGuidByIndex` selects, the only one it is called with), `SetCooperativeLevel`,
`CreateSoundBuffer`, `SetFormat` and `SetDirectSound` succeed, `LoadObjectFromFile` is
called for a collection exactly once, with `p`; if that call returns a failure code,
`Initialise` returns that code, the call is the last one issued, `pDLSCollection` is
`NULL` afterwards, and neither `QueryInterface` nor any call of the performance set-up is
issued. -/
theorem Initialise_collection_load (P : Provider) (fuel : Nat) (ds midi : Int) (dls : String)
    (g : Globals) :
    (dls = DLS_FILE_NONE →
      (∀ e ∈ (Initialise P fuel ds midi dls g).tr, e.isCollectionLoad = false) ∧
      (Initialise P fuel ds midi dls g).g.pDLSCollection = g.pDLSCollection) ∧
    (dls ≠ DLS_FILE_NONE →
      (∀ e ∈ (Initialise P fuel ds midi dls g).tr, e.isCollectionLoad = true →
        ∃ hr, e = Event.LoadObjectFromFile .DirectMusicCollection dls hr) ∧
      ∀ (hWnd : HWND) (n : Nat), P.GetConsoleWindow = some hWnd →
        FAILED P.CoInitializeEx = false → (∀ c, FAILED (P.CoCreateInstance c) = false) →
        n < fuel → n < 4294967296 → (P.EnumPort n).1 ≠ S_OK →
        (ds < 0 ∨ ds < ((EnumerateDirectSoundDevices P g).g.dsDeviceData.length : Int)) →
        (∀ guid, GetDeviceGuidByIndex ds (EnumerateDirectSoundDevices P g).g = .ret guid →
          FAILED (P.DirectSoundCreate8 guid) = false) →
        FAILED P.SetCooperativeLevel = false → FAILED P.CreateSoundBuffer = false →
        FAILED P.SetFormat = false → FAILED P.SetDirectSound = false →
        (Initialise P fuel ds midi dls g).tr.filter Event.isCollectionLoad =
          [Event.LoadObjectFromFile .DirectMusicCollection dls
            (P.LoadObjectFromFile .DirectMusicCollection dls)] ∧
        (FAILED (P.LoadObjectFromFile .DirectMusicCollection dls) = true →
          (Initialise P fuel ds midi dls g).val =
            .ret (P.LoadObjectFromFile .DirectMusicCollection dls) ∧
          (Initialise P fuel ds midi dls g).tr.getLast? =
            some (Event.LoadObjectFromFile .DirectMusicCollection dls
              (P.LoadObjectFromFile .DirectMusicCollection dls)) ∧
          (Initialise P fuel ds midi dls g).g.pDLSCollection = false ∧
          (Initialise P fuel ds midi dls g).tr.filter Event.isPerformanceCall = [] ∧
          ∀ i hr, Event.QueryInterface i hr ∉ (Initialise P fuel ds midi dls g).tr)) := by
  constructor
  · intro hd
    subst hd
    refine ⟨?_, Initialise_pDLSCollection P fuel ds midi g⟩
    exact Initialise_events P fuel ds midi DLS_FILE_NONE g _ Event.isSetup_not_collectionLoad
      (fun h => absurd rfl h)
  · intro hd
    constructor
    · refine Initialise_events P fuel ds midi dls g
        (fun e => e.isCollectionLoad = true →
          ∃ hr, e = Event.LoadObjectFromFile .DirectMusicCollection dls hr) ?_ ?_
      · intro e he hl
        rw [Event.isSetup_not_collectionLoad e he] at hl
        exact absurd hl (by decide)
      · intro _ hr _
        exact ⟨hr, rfl⟩
    · intro hWnd n hwnd hco hcc hn hn32 hend hds hdsc hscl hcsb hsf hsds
      have hEP : ∀ e ∈ (EnumeratePorts P fuel { g with pDirectMusic := true }).tr,
          e.isSetup = true ∧ e.isPerformanceCall = false ∧
            ∀ i hr, e ≠ Event.QueryInterface i hr := by
        intro e he
        have h1 := EnumeratePorts_loop_tr P fuel 0 _ e he
        refine ⟨Event.isEnum_isSetup e h1, Event.isEnum_not_performance e h1, ?_⟩
        intro i hr heq
        subst heq
        simp [Event.isEnum] at h1
      have hI := Initialise_reaches_sound P fuel ds midi dls g hWnd n hwnd hco hcc hn hn32 hend
      obtain ⟨pre, rest, hpre, hrest, htr, hfail⟩ := Initialise.sound_dls_step P fuel hWnd ds
        midi dls
        { g with
          pLoader := true, pPerformance := true, pDirectMusic := true,
          dsDeviceData := (EnumerateDirectSoundDevices P g).g.dsDeviceData,
          midiDeviceData :=
            (EnumeratePorts P fuel { g with pDirectMusic := true }).g.midiDeviceData }
        hds (fun guid hguid => hdsc guid
          ((GetDeviceGuidByIndex_congr ds _ _ rfl).trans hguid)) hscl hcsb hsf hsds hd
      generalize Initialise.sound P fuel hWnd ds midi dls _ = S at hI htr hfail
      generalize (EnumeratePorts P fuel { g with pDirectMusic := true }).tr = ports at hI hEP
      have hval : (Initialise P fuel ds midi dls g).val = S.val := by rw [hI, Res.after_val]
      have hg : (Initialise P fuel ds midi dls g).g = S.g := by rw [hI, Res.after_g]
      have htrI : (Initialise P fuel ds midi dls g).tr =
          ([Event.CoInitializeEx P.CoInitializeEx,
            Event.CoCreateInstance .DirectMusicLoader (P.CoCreateInstance .DirectMusicLoader),
            Event.CoCreateInstance .DirectMusicPerformance
              (P.CoCreateInstance .DirectMusicPerformance),
            Event.CoCreateInstance .DirectMusic (P.CoCreateInstance .DirectMusic),
            Event.DirectSoundEnumerate P.DirectSoundEnumerate.2] ++ ports ++ pre) ++
          Event.LoadObjectFromFile .DirectMusicCollection dls
            (P.LoadObjectFromFile .DirectMusicCollection dls) :: rest := by
        rw [hI, Res.after_tr, htr]
        simp only [List.append_assoc]
      have hhead : ∀ e ∈ [Event.CoInitializeEx P.CoInitializeEx,
            Event.CoCreateInstance .DirectMusicLoader (P.CoCreateInstance .DirectMusicLoader),
            Event.CoCreateInstance .DirectMusicPerformance
              (P.CoCreateInstance .DirectMusicPerformance),
            Event.CoCreateInstance .DirectMusic (P.CoCreateInstance .DirectMusic),
            Event.DirectSoundEnumerate P.DirectSoundEnumerate.2] ++ ports ++ pre,
          e.isSetup = true ∧ e.isPerformanceCall = false ∧
            ∀ i hr, e ≠ Event.QueryInterface i hr := by
        intro e he
        simp only [List.mem_append, List.mem_cons, List.mem_singleton, List.not_mem_nil,
          or_false] at he
        rcases he with ((rfl | rfl | rfl | rfl | rfl) | he) | he
        · exact ⟨rfl, rfl, by simp⟩
        · exact ⟨rfl, rfl, by simp⟩
        · exact ⟨rfl, rfl, by simp⟩
        · exact ⟨rfl, rfl, by simp⟩
        · exact ⟨rfl, rfl, by simp⟩
        · exact hEP e he
        · exact hpre e he
      generalize [Event.CoInitializeEx P.CoInitializeEx,
            Event.CoCreateInstance .DirectMusicLoader (P.CoCreateInstance .DirectMusicLoader),
            Event.CoCreateInstance .DirectMusicPerformance
              (P.CoCreateInstance .DirectMusicPerformance),
            Event.CoCreateInstance .DirectMusic (P.CoCreateInstance .DirectMusic),
            Event.DirectSoundEnumerate P.DirectSoundEnumerate.2] ++ ports ++ pre = head
        at htrI hhead
      refine ⟨?_, ?_⟩
      · rw [htrI, List.filter_append, List.filter_cons,
          filter_eq_nil_of_all _ head
            (fun e he => Event.isSetup_not_collectionLoad e (hhead e he).1),
          filter_eq_nil_of_all _ rest (fun e he => Event.isSetup_not_collectionLoad e (hrest e he))]
        rfl
      · intro hf
        obtain ⟨hnil, hv, hp⟩ := hfail hf
        subst hnil
        refine ⟨by rw [hval, hv], ?_, by rw [hg, hp], ?_, ?_⟩
        · rw [htrI]
          simp
        · rw [htrI, List.filter_append,
            filter_eq_nil_of_all _ head (fun e he => (hhead e he).2.1)]
          rfl
        · intro i hr hmem
          rw [htrI] at hmem
          simp only [List.mem_append, List.mem_cons, List.not_mem_nil, or_false,
            reduceCtorEq] at hmem
          exact (hhead _ hmem).2.2 i hr rfl

/-- The empty path on a machine whose loader fails, and whose `DirectSoundCreate8` fails
on an identifier that is not the one selected; and the path `"-"`. -/
theorem Initialise_collection_load_witness :
    ((Initialise
        { okProvider 1 [] 0 with
          LoadObjectFromFile := fun _ _ => E_FAIL,
          DirectSoundCreate8 := fun gd => if gd = some 99 then E_FAIL else S_OK }
        3 (-1) (-1) "" Globals.initial).tr.filter Event.isCollectionLoad =
        [Event.LoadObjectFromFile .DirectMusicCollection "" E_FAIL] ∧
      (Initialise
        { okProvider 1 [] 0 with
          LoadObjectFromFile := fun _ _ => E_FAIL,
          DirectSoundCreate8 := fun gd => if gd = some 99 then E_FAIL else S_OK }
        3 (-1) (-1) "" Globals.initial).val = .ret E_FAIL) ∧
    ((∀ e ∈ (Initialise (okProvider 1 [] 0) 3 (-1) (-1) "-" Globals.initial).tr,
        e.isCollectionLoad = false) ∧
      (Initialise (okProvider 1 [] 0) 3 (-1) (-1) "-" Globals.initial).g.pDLSCollection =
        false) := by
  have h := ((Initialise_collection_load
    { okProvider 1 [] 0 with
      LoadObjectFromFile := fun _ _ => E_FAIL,
      DirectSoundCreate8 := fun gd => if gd = some 99 then E_FAIL else S_OK }
    3 (-1) (-1) "" Globals.initial).2 (by decide)).2 1 1 rfl (by decide) (fun _ => rfl)
    (by decide) (by decide) (by decide) (Or.inl (by decide))
    (by
      intro guid hguid
      have hnone : guid = none := by
        simpa [GetDeviceGuidByIndex] using hguid.symm
      subst hnone
      rfl)
    (by decide) (by decide) (by decide) (by decide)
  exact ⟨⟨h.1, (h.2 (by decide)).1⟩,
    (Initialise_collection_load (okProvider 1 [] 0) 3 (-1) (-1) "-" Globals.initial).1 rfl⟩

/-! ## Refusal of an external synthesizer: the two exit codes -/

/-- Every call of `ShutdownDirectMusic` is a teardown call. -/
theorem ShutdownDirectMusic_isTeardown (g : Globals) :
    ∀ e ∈ (ShutdownDirectMusic g).tr, e.isTeardown = true := by
  intro e he
  rw [ShutdownDirectMusic_tr] at he
  simp only [List.mem_append, List.mem_singleton] at he
  rcases he with (((((((he | he) | he) | he) | he) | he) | he) | he) | he
  all_goals first
    | (subst he; rfl)
    | (split_ifs at he
       · simp only [List.mem_cons, List.mem_singleton, List.not_mem_nil, or_false] at he
         first
           | (subst he; rfl)
           | (rcases he with rfl | rfl <;> rfl)
       · simp at he)

/-- C4, amended.  Take a command line of the `DS` mode.  If `Initialise` returns success
with `isExternalSynth` set (which only `CreateMusicPort` does, when it sees
`DMUS_PC_EXTERNAL` in the capabilities of the created port), then `PlayMidi` returns
`E_FAIL`, a failure code, issues no provider call and leaves the globals as they are;
`pSegment` is `NULL`; and `main` issues the calls of `Initialise`, the message that playing
failed, then the calls of `ShutdownDirectMusic`, and exits with code 2.  If instead an
`Init`, `AddPort` or `Activate` call of `Initialise` fails (these come after
`CreateMusicPort`, so after the flag was looked at), that call is the last one of
`Initialise`, which returns its failure code; `main` then issues the calls of
`Initialise`, the message that the initialisation failed, then the calls of
`ShutdownDirectMusic`, and exits with code 1; no call of `PlayMidi` (`LoadObjectFromFile`
for a segment, `Download`, `PlaySegment`) is in its trace. -/
theorem external_synth_refused (P : Provider) (fuel : Nat) (tool ds midi dls file : String)
    (rest : List String) :
    (∀ hr : HRESULT,
      (Initialise P fuel (atoi ds) (atoi midi) dls Globals.initial).val = .ret hr →
      FAILED hr = false →
      (Initialise P fuel (atoi ds) (atoi midi) dls Globals.initial).g.isExternalSynth = true →
      PlayMidi P file true (Initialise P fuel (atoi ds) (atoi midi) dls Globals.initial).g =
        ⟨.ret E_FAIL, (Initialise P fuel (atoi ds) (atoi midi) dls Globals.initial).g, []⟩
      ∧ FAILED E_FAIL = true
      ∧ (Initialise P fuel (atoi ds) (atoi midi) dls Globals.initial).g.pSegment = false
      ∧ main P fuel (tool :: "DS" :: ds :: midi :: dls :: file :: rest) =
        ⟨.ret 2,
          (ShutdownDirectMusic
            (Initialise P fuel (atoi ds) (atoi midi) dls Globals.initial).g).g,
          (Initialise P fuel (atoi ds) (atoi midi) dls Globals.initial).tr ++
            Event.stderr (.playFailed E_FAIL) ::
            (ShutdownDirectMusic
              (Initialise P fuel (atoi ds) (atoi midi) dls Globals.initial).g).tr⟩)
    ∧ (∀ (caps : DMUS_PORTCAPS) (g : Globals) (hr1 : HRESULT),
        (CreateMusicPort P caps g).val = .ret hr1 → FAILED hr1 = false →
        ((CreateMusicPort P caps g).g.isExternalSynth = true ↔
          (g.isExternalSynth = true ∨ P.GetCaps.2.dwFlags &&& DMUS_PC_EXTERNAL ≠ 0)))
    ∧ (∀ e ∈ (Initialise P fuel (atoi ds) (atoi midi) dls Globals.initial).tr,
        ((∃ hWnd hr, e = Event.Init hWnd hr) ∨ (∃ hr, e = Event.AddPort hr) ∨
          (∃ fActive hr, e = Event.Activate fActive hr)) →
        FAILED e.hr = true →
        (Initialise P fuel (atoi ds) (atoi midi) dls Globals.initial).tr.getLast? = some e
        ∧ (Initialise P fuel (atoi ds) (atoi midi) dls Globals.initial).val = .ret e.hr
        ∧ main P fuel (tool :: "DS" :: ds :: midi :: dls :: file :: rest) =
          ⟨.ret 1,
            (ShutdownDirectMusic
              (Initialise P fuel (atoi ds) (atoi midi) dls Globals.initial).g).g,
            (Initialise P fuel (atoi ds) (atoi midi) dls Globals.initial).tr ++
              Event.stderr (.initialiseFailed e.hr) ::
              (ShutdownDirectMusic
                (Initialise P fuel (atoi ds) (atoi midi) dls Globals.initial).g).tr⟩
        ∧ ∀ e2 ∈ (main P fuel (tool :: "DS" :: ds :: midi :: dls :: file :: rest)).tr,
            (∀ f hr2, e2 ≠ Event.LoadObjectFromFile .DirectMusicSegment f hr2) ∧
            (∀ hr2, e2 ≠ Event.Download hr2) ∧
            (∀ fl hr2, e2 ≠ Event.PlaySegment fl hr2)) := by
  have hplay : ∀ g : Globals, PlayMidi P file true g = ⟨.ret E_FAIL, g, []⟩ := by
    intro g
    simp [PlayMidi]
  have hfail : FAILED E_FAIL = true := by decide
  have hlen : ¬ (tool :: "DS" :: ds :: midi :: dls :: file :: rest).length ≤ 1 := by
    simp
  have hlen2 : ¬ (tool :: "DS" :: ds :: midi :: dls :: file :: rest).length ≤ 1 + 4 := by
    simp
  refine ⟨?_, ?_, ?_⟩
  · intro hr hinit hok hext
    refine ⟨hplay _, hfail, ?_, ?_⟩
    · rw [Initialise_pSegment]
      rfl
    · unfold main
      simp only [hlen, hlen2, if_false, List.getD_cons_succ, List.getD_cons_zero, if_true]
      rw [Res.andThen_ret _ hinit]
      simp only [hok, Bool.false_eq_true, if_false, hext, hplay]
      rw [Res.andThen_ret _ rfl]
      simp only [hfail, if_true]
      rw [Res.andThen_ret _ (ShutdownDirectMusic_val _)]
      simp [Res.after]
  · intro caps g hr1 h1 h2
    revert h1
    simp only [CreateMusicPort]
    split_ifs with h3 h4 h5 h6
    · simp only [Res.after_val, Outcome.ret.injEq]
      intro h
      rw [h, h2] at h4
      exact absurd h4 (by simp)
    · simp only [Res.after_val, Outcome.ret.injEq]
      intro h
      rw [h, h2] at h5
      exact absurd h5 (by simp)
    · intro _
      simp [h6]
    · intro _
      simp only [ne_eq, not_not] at h6
      simp [h6]
    · simp
  · intro e he hkind hf
    have hperf : e.isPerformanceCall = true := by
      rcases hkind with ⟨_, _, rfl⟩ | ⟨_, rfl⟩ | ⟨_, _, rfl⟩ <;> rfl
    obtain ⟨hlast, hval⟩ :=
      Initialise_aborts P fuel (atoi ds) (atoi midi) dls Globals.initial e he hperf hf
    have hmain : main P fuel (tool :: "DS" :: ds :: midi :: dls :: file :: rest) =
        ⟨.ret 1,
          (ShutdownDirectMusic
            (Initialise P fuel (atoi ds) (atoi midi) dls Globals.initial).g).g,
          (Initialise P fuel (atoi ds) (atoi midi) dls Globals.initial).tr ++
            Event.stderr (.initialiseFailed e.hr) ::
            (ShutdownDirectMusic
              (Initialise P fuel (atoi ds) (atoi midi) dls Globals.initial).g).tr⟩ := by
      unfold main
      simp only [hlen, hlen2, if_false, List.getD_cons_succ, List.getD_cons_zero, if_true]
      rw [Res.andThen_ret _ hval]
      simp only [hf, if_true]
      rw [Res.andThen_ret _ (ShutdownDirectMusic_val _)]
      simp [Res.after]
    refine ⟨hlast, hval, hmain, ?_⟩
    intro e2 he2
    rw [hmain] at he2
    simp only [List.mem_append, List.mem_cons] at he2
    rcases he2 with he2 | rfl | he2
    · refine Initialise_events P fuel (atoi ds) (atoi midi) dls Globals.initial
        (fun e2 => (∀ f hr2, e2 ≠ Event.LoadObjectFromFile .DirectMusicSegment f hr2) ∧
          (∀ hr2, e2 ≠ Event.Download hr2) ∧
          (∀ fl hr2, e2 ≠ Event.PlaySegment fl hr2)) ?_ ?_ e2 he2
      · intro e3 h3
        cases e3 <;> simp_all [Event.isSetup]
      · intro _ hr3
        simp
    · simp
    · have h3 := ShutdownDirectMusic_isTeardown _ e2 he2
      cases e2 <;> simp_all [Event.isTeardown]

/-- The command line `DS -1 0 - tune.mid` when the port created is an external module:
exit code 2 when every call succeeds, exit code 1 when `Activate` fails. -/
theorem external_synth_refused_witness :
    (main (okProvider 1 [] DMUS_PC_EXTERNAL) 2 ["tool", "DS", "-1", "0", "-", "tune.mid"]).val
      = .ret 2
    ∧ (main { okProvider 1 [] DMUS_PC_EXTERNAL with Activate := E_FAIL } 2
        ["tool", "DS", "-1", "0", "-", "tune.mid"]).val = .ret 1 := by
  have h1 := ((external_synth_refused (okProvider 1 [] DMUS_PC_EXTERNAL) 2 "tool" "-1" "0" "-"
    "tune.mid" []).1 S_OK (by decide) (by decide) (by decide)).2.2.2
  have h2 := ((external_synth_refused
    { okProvider 1 [] DMUS_PC_EXTERNAL with Activate := E_FAIL }
    2 "tool" "-1" "0" "-" "tune.mid" []).2.2 (Event.Activate true E_FAIL) (by decide)
    (Or.inr (Or.inr ⟨true, E_FAIL, rfl⟩)) (by decide)).2.2.1
  exact ⟨by rw [h1], by rw [h2]⟩

end MidiPlayer
